import Mathlib

/-!
# Distortionizer for SteamVR: the distortion model and the calibration state

A shallow embedding of `src/opengl_widget.cpp` / `src/opengl_widget.h`.

Modelling conventions

* `double` / `float` / `qreal` values are exact rationals (`ℚ`): rounding is not modelled.
* `int` values are `Int`; the C quotient of two `int`s is `Int.tdiv` (truncation toward zero).
* A floating-point division whose divisor is zero has no value in exact arithmetic
  (the machine yields an infinity or a NaN): such a computation returns `none`.
* `r = sqrt(r2)` is only ever used through its even powers `pow(r,2)`, `pow(r,4)`,
  `pow(r,6)`, which in exact arithmetic are `r2`, `r2^2`, `r2^3` (`r2` is a sum of two
  squares); see `sqrt_even_powers`.
* `QPointF == QPointF` is Qt's fuzzy comparison `QPointF.operator_eq` (each coordinate
  difference at most `1e-12` in absolute value), with the threshold the exact rational
  `1/10^12`.
* The JSON document is the record of the fields that save and load touch; the text of
  the file and the parsing are not modelled.
* `StatusValues` is the underlying `int` of the enum, a natural number used as a bit set.
-/

namespace Distortionizer

/-! ## Data model -/

/-- The flag word `enum StatusValues` of `opengl_widget.h`, as its underlying integer. -/
abbrev StatusValues := Nat

abbrev NO_VALUE : StatusValues := 0
abbrev LEFT_EYE : StatusValues := 1
abbrev RIGHT_EYE : StatusValues := 2
abbrev GREEN : StatusValues := 4
abbrev BLUE : StatusValues := 8
abbrev RED : StatusValues := 16
abbrev FIRST_COEFFICIENT : StatusValues := 32
abbrev SECOND_COEFFICIENT : StatusValues := 64
abbrev THIRD_COEFFICIENT : StatusValues := 128
abbrev APPLY_LINEAR_TRANSFORM : StatusValues := 256
abbrev ONLY_CENTER_CORRECT : StatusValues := 512
abbrev ONLY_ASEPECT_RATIO : StatusValues := 1024

/-- A point with `qreal` coordinates (Qt's `QPointF`). -/
structure QPointF where
  x : ℚ
  y : ℚ
deriving DecidableEq

namespace QPointF

/-- Qt's `operator+(QPointF, QPointF)`. -/
def add (a b : QPointF) : QPointF := ⟨a.x + b.x, a.y + b.y⟩

/-- Qt's `operator-(QPointF, QPointF)`. -/
def sub (a b : QPointF) : QPointF := ⟨a.x - b.x, a.y - b.y⟩

/-- Qt's `operator*(qreal, QPointF)`. -/
def scale (c : ℚ) (a : QPointF) : QPointF := ⟨c * a.x, c * a.y⟩

instance : Add QPointF := ⟨add⟩
instance : Sub QPointF := ⟨sub⟩

end QPointF

/-- The calibration state held in the private members of `class OpenGL_Widget`.
The members `d_cop`, `d_k1_red`, `d_k1_green`, `d_k1_blue`, `fullscreen`, `Extrinsics`,
`IntrensicsMode` are never read by the modelled operations (the assignments
`k1 = d_k1_red` etc. in `transformPoint` are overwritten at once); the member `json`
is passed to save, load and `keyPressEvent` as an argument of its own.
`double Centers[2][2]` is a map from index pairs to doubles, one cell for each element
expression `Centers[e][j]`: the code indexes it with a coordinate index 2, beyond the
declared bounds `centersRows`, `centersCols`, which the accesses `centersGet` and
`centersSet` check on demand. -/
structure OpenGL_Widget where
  d_width : Int
  d_height : Int
  d_cop_l : QPointF
  d_cop_r : QPointF
  d_cop_l_Prev : QPointF
  d_cop_r_Prev : QPointF
  displayOverValues : Bool
  NLT_Coeffecients : Fin 2 → Fin 3 → Fin 3 → ℚ
  Centers : Nat → Nat → ℚ
  Intrinsics : Fin 2 → Fin 3 → Fin 3 → ℚ
  status : StatusValues
  coeffecientOffset : ℚ

/-- The conversion `double → int` of C++ (truncation toward zero), used where a
`QPoint` is built from `qreal` expressions. -/
def toInt (q : ℚ) : Int := Int.tdiv q.num q.den

/-- A floating-point quotient; undefined (`none`) when the divisor is zero. -/
def fdiv (a b : ℚ) : Option ℚ := if b = 0 then none else some (a / b)

/-! ## `transformPoint` -/

/-- The first index into `NLT_Coeffecients` / `Intrinsics` that the code uses for an
`eye` argument: `0` in the `eye == LEFT_EYE` branch, `1` in the `else` branch. -/
def eyeIndex (eye : StatusValues) : Fin 2 := if eye = LEFT_EYE then 0 else 1

/-- Lines 150-176 of `transformPoint`: the affine (intrinsics) step, giving the `ret`
that enters the radial step. -/
def linearStep (w : OpenGL_Widget) (p cop : QPointF) (eye : StatusValues) : QPointF :=
  if (w.status &&& APPLY_LINEAR_TRANSFORM) = APPLY_LINEAR_TRANSFORM
      ∨ (w.status &&& ONLY_ASEPECT_RATIO) = ONLY_ASEPECT_RATIO then
    let rX := cop.x - p.x
    let rY := cop.y - p.y
    if eye = LEFT_EYE then
      ⟨cop.x - rX * w.Intrinsics 0 0 0, cop.y - rY * w.Intrinsics 0 1 1⟩
    else
      ⟨cop.x - rX * w.Intrinsics 1 0 0, cop.y - rY * w.Intrinsics 1 1 1⟩
  else p

/-- Lines 193-233 of `transformPoint`: the `switch (color)` that picks `k1, k2, k3`.
The switch has no `default`: for another colour the coefficients are uninitialised,
which is modelled as `none`. -/
def lookupCoeffs (w : OpenGL_Widget) (color : Nat) (eye : StatusValues) : Option (ℚ × ℚ × ℚ) :=
  match color with
  | 0 =>
    if eye = LEFT_EYE then
      some (w.NLT_Coeffecients 0 2 0, w.NLT_Coeffecients 0 2 1, w.NLT_Coeffecients 0 2 2)
    else
      some (w.NLT_Coeffecients 1 2 0, w.NLT_Coeffecients 1 2 1, w.NLT_Coeffecients 1 2 2)
  | 1 =>
    if eye = LEFT_EYE then
      some (w.NLT_Coeffecients 0 0 0, w.NLT_Coeffecients 0 0 1, w.NLT_Coeffecients 0 0 2)
    else
      some (w.NLT_Coeffecients 1 0 0, w.NLT_Coeffecients 1 0 1, w.NLT_Coeffecients 1 0 2)
  | 2 =>
    if eye = LEFT_EYE then
      some (w.NLT_Coeffecients 0 1 0, w.NLT_Coeffecients 0 1 1, w.NLT_Coeffecients 0 1 2)
    else
      some (w.NLT_Coeffecients 1 1 0, w.NLT_Coeffecients 1 1 1, w.NLT_Coeffecients 1 1 2)
  | _ => none

/-- Lines 238-240 of `transformPoint`: the normalisation of the coefficients by the
window width, `k1 / ((d_width / 4.0)*(d_width / 4.0) * 16)`, `k2 / pow(d_width, 4)`,
`k3 / pow(d_width, 6)`. -/
def normalizeCoeffs (d_width : Int) (k : ℚ × ℚ × ℚ) : Option (ℚ × ℚ × ℚ) :=
  match fdiv k.1 (((d_width : ℚ) / 4) * ((d_width : ℚ) / 4) * 16),
        fdiv k.2.1 ((d_width : ℚ) ^ 4),
        fdiv k.2.2 ((d_width : ℚ) ^ 6) with
  | some k1, some k2, some k3 => some (k1, k2, k3)
  | _, _, _ => none

/-- Lines 244-247 of `transformPoint`: `1 + c1 + c2 + c3` with `c1 = k1 * pow(r,2)`,
`c2 = k2 * pow(r,4)`, `c3 = k3 * pow(r,6)`, `r = sqrt(r2)`. -/
def radialDenominator (k : ℚ × ℚ × ℚ) (r2 : ℚ) : ℚ :=
  1 + k.1 * r2 + k.2.1 * r2 ^ 2 + k.2.2 * r2 ^ 3

/-- Lines 188-249 of `transformPoint`: the radial step applied to the point `ret`
that leaves the affine step; the value of `ret` at line 249. -/
def radialStep (w : OpenGL_Widget) (ret cop : QPointF) (color : Nat) (eye : StatusValues) :
    Option QPointF :=
  let offset := ret - cop
  let r2 := offset.x * offset.x + offset.y * offset.y
  match lookupCoeffs w color eye with
  | none => none
  | some ks =>
    match normalizeCoeffs w.d_width ks with
    | none => none
    | some kn =>
      match fdiv 1 (radialDenominator kn r2) with
      | none => none
      | some k => some (cop + QPointF.scale k offset)

/-- Lines 253-268 of `transformPoint`: the culling of the corrected point to the half
of the screen owned by its eye. -/
def cullEye (w : OpenGL_Widget) (ret : QPointF) (eye : StatusValues) : QPointF :=
  let r1 : QPointF :=
    if eye = LEFT_EYE then
      let a : QPointF :=
        if ret.x < 0 ∨ ret.x > ((Int.tdiv w.d_width 2 : Int) : ℚ) then { ret with x := -1 }
        else ret
      if a.y < 0 ∨ a.y > (w.d_height : ℚ) then { a with y := -1 } else a
    else ret
  if eye = RIGHT_EYE then
    let b : QPointF :=
      if r1.x > (w.d_width : ℚ) ∨ r1.x < ((Int.tdiv w.d_width 2 : Int) : ℚ) then
        { r1 with x := (w.d_width : ℚ) + 1 }
      else r1
    if b.y < 0 ∨ b.y > (w.d_height : ℚ) then { b with y := -1 } else b
  else r1

/-- The value of `ret` at line 249 of `transformPoint`, before the culling. -/
def transformPointPreClip (w : OpenGL_Widget) (p cop : QPointF) (color : Nat)
    (eye : StatusValues) : Option QPointF :=
  radialStep w (linearStep w p cop eye) cop color eye

/-- `OpenGL_Widget::transformPoint` (the `debug` argument is unused). -/
def transformPoint (w : OpenGL_Widget) (p cop : QPointF) (color : Nat)
    (eye : StatusValues) : Option QPointF :=
  match transformPointPreClip w p cop color eye with
  | none => none
  | some ret => some (cullEye w ret eye)

/-! ## Command handlers -/

/-- Qt's `qAbs`: `t >= 0 ? t : -t`. -/
def qAbs (t : ℚ) : ℚ := if t ≥ 0 then t else -t

/-- Qt's `qFuzzyIsNull(double d)`: `qAbs(d) <= 0.000000000001`. -/
def qFuzzyIsNull (d : ℚ) : Prop := qAbs d ≤ 1 / 1000000000000

instance (d : ℚ) : Decidable (qFuzzyIsNull d) := by
  unfold qFuzzyIsNull; infer_instance

/-- Qt's `operator==(const QPointF &p1, const QPointF &p2)`:
`qFuzzyIsNull(p1.xp - p2.xp) && qFuzzyIsNull(p1.yp - p2.yp)`. (Later Qt versions use
`qFuzzyCompare` when both coordinates compared are non-zero; against `QPointF(0,0)`,
the only comparison in the code, both forms are this one.) -/
def QPointF.operator_eq (p1 p2 : QPointF) : Prop :=
  qFuzzyIsNull (p1.x - p2.x) ∧ qFuzzyIsNull (p1.y - p2.y)

instance (p1 p2 : QPointF) : Decidable (QPointF.operator_eq p1 p2) := by
  unfold QPointF.operator_eq; infer_instance

/-- `OpenGL_Widget::setDeftCOPVals`. -/
def setDeftCOPVals (w : OpenGL_Widget) : OpenGL_Widget :=
  if QPointF.operator_eq w.d_cop_l_Prev ⟨0, 0⟩ ∧ QPointF.operator_eq w.d_cop_r_Prev ⟨0, 0⟩ then
    let cop_l : QPointF := ⟨((Int.tdiv w.d_width 4 : Int) : ℚ), ((Int.tdiv w.d_height 2 : Int) : ℚ)⟩
    let cop_r : QPointF := ⟨((toInt ((w.d_width : ℚ) - cop_l.x) : Int) : ℚ), ((toInt cop_l.y : Int) : ℚ)⟩
    { w with d_cop_l := cop_l, d_cop_r := cop_r, d_cop_l_Prev := cop_l, d_cop_r_Prev := cop_r }
  else if (w.status &&& APPLY_LINEAR_TRANSFORM) = APPLY_LINEAR_TRANSFORM
      ∨ (w.status &&& ONLY_CENTER_CORRECT) = ONLY_CENTER_CORRECT then
    let w1 : OpenGL_Widget :=
      if (w.status &&& ONLY_CENTER_CORRECT) ≠ ONLY_CENTER_CORRECT then
        { w with d_cop_l_Prev := w.d_cop_l, d_cop_r_Prev := w.d_cop_r }
      else w
    let CxL : ℚ := ((Int.tdiv w.d_width 4 : Int) : ℚ)
    let CxR : ℚ := ((Int.tdiv w.d_width 2 : Int) : ℚ) + CxL
    let Cy : ℚ := ((Int.tdiv w.d_height 2 : Int) : ℚ)
    { w1 with
      d_cop_l := ⟨CxL + CxL * w.Intrinsics 0 0 2, Cy + Cy * w.Intrinsics 0 1 2⟩
      d_cop_r := ⟨CxR + CxR * w.Intrinsics 1 0 2, Cy + Cy * w.Intrinsics 1 1 2⟩ }
  else
    { w with d_cop_l := w.d_cop_l_Prev, d_cop_r := w.d_cop_r_Prev }

/-- The flag update of `OpenGL_Widget::toggleLinearTransform` (lines 1151-1165). -/
def toggleStatus (status : StatusValues) : StatusValues :=
  if (status &&& APPLY_LINEAR_TRANSFORM) = APPLY_LINEAR_TRANSFORM then
    (status ^^^ APPLY_LINEAR_TRANSFORM) ^^^ ONLY_CENTER_CORRECT
  else if (status &&& ONLY_CENTER_CORRECT) = ONLY_CENTER_CORRECT then
    (status ^^^ ONLY_CENTER_CORRECT) ^^^ ONLY_ASEPECT_RATIO
  else if (status &&& ONLY_ASEPECT_RATIO) = ONLY_ASEPECT_RATIO then
    status ^^^ ONLY_ASEPECT_RATIO
  else
    status ^^^ APPLY_LINEAR_TRANSFORM

/-- `OpenGL_Widget::toggleLinearTransform`. -/
def toggleLinearTransform (w : OpenGL_Widget) : OpenGL_Widget :=
  setDeftCOPVals { w with status := toggleStatus w.status }

/-! ## Vocabulary of the specification -/

/-- The three transform-mode flags of the flag word. -/
def modeMask : StatusValues :=
  APPLY_LINEAR_TRANSFORM ||| ONLY_CENTER_CORRECT ||| ONLY_ASEPECT_RATIO

/-- The eye, channel and term selection flags of the flag word. -/
def selectionMask : StatusValues :=
  LEFT_EYE ||| RIGHT_EYE ||| GREEN ||| BLUE ||| RED
    ||| FIRST_COEFFICIENT ||| SECOND_COEFFICIENT ||| THIRD_COEFFICIENT

/-- The mode flags of a flag word: `0` is None, `256` LinearFull, `512` CenterOnly,
`1024` AspectOnly. -/
def modeFlags (status : StatusValues) : StatusValues := status &&& modeMask

/-- A flag word has a valid mode when at most one mode flag is set. -/
def validMode (status : StatusValues) : Prop :=
  modeFlags status = 0 ∨ modeFlags status = APPLY_LINEAR_TRANSFORM
    ∨ modeFlags status = ONLY_CENTER_CORRECT ∨ modeFlags status = ONLY_ASEPECT_RATIO

instance (status : StatusValues) : Decidable (validMode status) := by
  unfold validMode; infer_instance

/-- The cycle None → LinearFull → CenterOnly → AspectOnly → None of the
specification, on mode flags. -/
def nextMode (m : StatusValues) : StatusValues :=
  if m = 0 then APPLY_LINEAR_TRANSFORM
  else if m = APPLY_LINEAR_TRANSFORM then ONLY_CENTER_CORRECT
  else if m = ONLY_CENTER_CORRECT then ONLY_ASEPECT_RATIO
  else 0

/-- The colour-plane index of `NLT_Coeffecients` that `transformPoint` reads for a
colour argument (0 reads plane 2, 1 reads plane 0, 2 reads plane 1). -/
def colorPlane (color : Nat) : Fin 3 :=
  if color = 0 then 2 else if color = 1 then 0 else 1

/-- The intrinsics-derived centres of projection of lines 648-657. -/
def derivedCopL (w : OpenGL_Widget) : QPointF :=
  ⟨((Int.tdiv w.d_width 4 : Int) : ℚ) + ((Int.tdiv w.d_width 4 : Int) : ℚ) * w.Intrinsics 0 0 2,
   ((Int.tdiv w.d_height 2 : Int) : ℚ) + ((Int.tdiv w.d_height 2 : Int) : ℚ) * w.Intrinsics 0 1 2⟩

/-- The intrinsics-derived right centre of projection of lines 648-657. -/
def derivedCopR (w : OpenGL_Widget) : QPointF :=
  ⟨(((Int.tdiv w.d_width 2 : Int) : ℚ) + ((Int.tdiv w.d_width 4 : Int) : ℚ))
      + (((Int.tdiv w.d_width 2 : Int) : ℚ) + ((Int.tdiv w.d_width 4 : Int) : ℚ)) * w.Intrinsics 1 0 2,
   ((Int.tdiv w.d_height 2 : Int) : ℚ) + ((Int.tdiv w.d_height 2 : Int) : ℚ) * w.Intrinsics 1 1 2⟩

/-- The denominator the code divides by at line 247, for the point `ret` that leaves
the affine step: defined once the coefficient look-up and the normalisation are. -/
def codeDenominator (w : OpenGL_Widget) (ret cop : QPointF) (color : Nat)
    (eye : StatusValues) : Option ℚ :=
  let offset := ret - cop
  let r2 := offset.x * offset.x + offset.y * offset.y
  match lookupCoeffs w color eye with
  | none => none
  | some ks =>
    match normalizeCoeffs w.d_width ks with
    | none => none
    | some kn => some (radialDenominator kn r2)

/-- The squared radius `r^2 = offset.x^2 + offset.y^2` of the specification, where
`offset = q - cop` and `q` is the point after the optional affine step. -/
def specR2 (w : OpenGL_Widget) (p cop : QPointF) (eye : StatusValues) : ℚ :=
  ((linearStep w p cop eye).x - cop.x) ^ 2 + ((linearStep w p cop eye).y - cop.y) ^ 2

/-- The denominator `1 + k1*r^2 + k2*r^4 + k3*r^6` of the specification, for given
normalised coefficients and squared radius. -/
def specDenominator (k1 k2 k3 r2 : ℚ) : ℚ := 1 + k1 * r2 + k2 * r2 ^ 2 + k3 * r2 ^ 3

/-- The coefficient `NLT_Coeffecients[eye][plane][term]` divided by the given power
of the window width. -/
def widthNormalised (w : OpenGL_Widget) (color : Nat) (eye : StatusValues) (term : Fin 3)
    (power : Nat) : ℚ :=
  w.NLT_Coeffecients (eyeIndex eye) (colorPlane color) term / (w.d_width : ℚ) ^ power

/-- A window of the Vive's size (2160 x 1200) with the constructor's flag word, all
coefficients zero and identity-like intrinsics; concrete states are built from it. -/
def viveWidget : OpenGL_Widget where
  d_width := 2160
  d_height := 1200
  d_cop_l := ⟨540, 600⟩
  d_cop_r := ⟨1620, 600⟩
  d_cop_l_Prev := ⟨540, 600⟩
  d_cop_r_Prev := ⟨1620, 600⟩
  displayOverValues := false
  NLT_Coeffecients := fun _ _ _ => 0
  Centers := fun _ _ => 0
  Intrinsics := fun _ _ _ => 0
  status := 255
  coeffecientOffset := 1 / 1000

/-- A window of width 2 whose coefficients are all 1: the normalised coefficients are
1/4, 1/16 and 1/64. -/
def unitCoeffWidget : OpenGL_Widget :=
  { viveWidget with d_width := 2, d_height := 2, NLT_Coeffecients := fun _ _ _ => 1 }

/-- The part of the screen owned by an eye (lines 255-267): the left eye keeps
`0 ≤ x ≤ d_width / 2`, the right eye `d_width / 2 ≤ x ≤ d_width`, both `0 ≤ y ≤ d_height`. -/
def inEyeRegion (w : OpenGL_Widget) (p : QPointF) (eye : StatusValues) : Prop :=
  (eye = LEFT_EYE → 0 ≤ p.x ∧ p.x ≤ ((Int.tdiv w.d_width 2 : Int) : ℚ)
      ∧ 0 ≤ p.y ∧ p.y ≤ (w.d_height : ℚ))
  ∧ (eye = RIGHT_EYE → ((Int.tdiv w.d_width 2 : Int) : ℚ) ≤ p.x ∧ p.x ≤ (w.d_width : ℚ)
      ∧ 0 ≤ p.y ∧ p.y ≤ (w.d_height : ℚ))

/-- The Vive window in mode LinearFull with every intrinsics entry equal to 2. -/
def linearFullWidget : OpenGL_Widget :=
  { viveWidget with status := 511, Intrinsics := fun _ _ _ => 2 }

/-- The normalisation as the specification words it: `k1` by `width^2`, `k2` by
`width^4` and `k3` by `width^4`. -/
def specNormalize (d_width : Int) (k : ℚ × ℚ × ℚ) : ℚ × ℚ × ℚ :=
  (k.1 / (d_width : ℚ) ^ 2, k.2.1 / (d_width : ℚ) ^ 4, k.2.2 / (d_width : ℚ) ^ 4)

/-- A window of width 4 whose first-order coefficients are all -16 (normalised: -1)
and whose higher-order coefficients are zero. -/
def negativeCoeffWidget : OpenGL_Widget :=
  { viveWidget with
    d_width := 4, d_height := 4,
    NLT_Coeffecients := fun _ _ t => if t = 0 then -16 else 0 }

/-- Four consecutive presses of the mode-toggle key. -/
def toggleFourTimes (w : OpenGL_Widget) : OpenGL_Widget :=
  toggleLinearTransform (toggleLinearTransform (toggleLinearTransform (toggleLinearTransform w)))

/-- Both backups `d_cop_l_Prev`, `d_cop_r_Prev` compare equal to the origin (the test of
line 627, with Qt's `operator==`: every coordinate within `1e-12` of zero). -/
def backupsAtOrigin (w : OpenGL_Widget) : Prop :=
  QPointF.operator_eq w.d_cop_l_Prev ⟨0, 0⟩ ∧ QPointF.operator_eq w.d_cop_r_Prev ⟨0, 0⟩

/-- Both live centres `d_cop_l`, `d_cop_r` compare equal to the origin with Qt's
`operator==` (they would pass the test of line 627 once copied into the backups). -/
def copsAtOrigin (w : OpenGL_Widget) : Prop :=
  QPointF.operator_eq w.d_cop_l ⟨0, 0⟩ ∧ QPointF.operator_eq w.d_cop_r ⟨0, 0⟩

/-- The live centres of projection are the ones their mode designates: in None a
manual centre (not both equal to the origin for Qt's `operator==`), in LinearFull and CenterOnly the centres
derived from the intrinsics, in AspectOnly the backed-up manual centres. -/
def liveCopOfMode (w : OpenGL_Widget) : Prop :=
  (modeFlags w.status = 0 → ¬ copsAtOrigin w)
  ∧ (modeFlags w.status = APPLY_LINEAR_TRANSFORM ∨ modeFlags w.status = ONLY_CENTER_CORRECT →
      w.d_cop_l = derivedCopL w ∧ w.d_cop_r = derivedCopR w)
  ∧ (modeFlags w.status = ONLY_ASEPECT_RATIO →
      w.d_cop_l = w.d_cop_l_Prev ∧ w.d_cop_r = w.d_cop_r_Prev)

/-- The Vive window in mode AspectOnly after the left centre was nudged one pixel to
the left and the right centre one pixel to the right (Shift+Right with both eyes
selected): the live centres differ from the backups. -/
def nudgedAspectWidget : OpenGL_Widget :=
  { viveWidget with status := 1279, d_cop_l := ⟨539, 600⟩, d_cop_r := ⟨1621, 600⟩ }

/-- The Vive window in mode None with manual centres and every intrinsics entry 1/10. -/
def offsetIntrinsicsWidget : OpenGL_Widget :=
  { viveWidget with Intrinsics := fun _ _ _ => 1 / 10 }

/-- The Vive window in mode LinearFull with every intrinsics entry 1/10 after the
centres were reset to the geometric defaults (key G): the live centres are not the
intrinsics-derived ones. -/
def resetLinearFullWidget : OpenGL_Widget :=
  { offsetIntrinsicsWidget with status := 511 }

/-! ## Further command handlers -/

/-- The assignment `T[e][r][c] = v` on a `[2][3][3]` table of doubles. -/
def setEntry (T : Fin 2 → Fin 3 → Fin 3 → ℚ) (e : Fin 2) (r c : Fin 3) (v : ℚ) :
    Fin 2 → Fin 3 → Fin 3 → ℚ :=
  fun e' r' c' => if e' = e ∧ r' = r ∧ c' = c then v else T e' r' c'

/-- `OpenGL_Widget::shiftCoeffecientOffset`. -/
def shiftCoeffecientOffset (w : OpenGL_Widget) (direction : Int) : OpenGL_Widget :=
  let o1 : ℚ := w.coeffecientOffset * (10 : ℚ) ^ direction
  let o2 : ℚ := if o1 ≤ 1 / 10000000000 then 1 / 10000000000 else o1
  let o3 : ℚ := if o2 ≥ 1 then 1 else o2
  { w with coeffecientOffset := o3 }

/-- One of the eighteen guarded assignments of lines 1043-1084 of `adjustCoeffecients`:
`if ((status & fe) && (status & fc) && (status & ft)) t[e][c][k] = NLT[e][c][k] *
abs(direction) + coeffecientOffset * direction`. -/
def adjustCell (w : OpenGL_Widget) (direction : Int) (fe fc ft : StatusValues)
    (e : Fin 2) (c k : Fin 3) (t : Fin 2 → Fin 3 → Fin 3 → ℚ) : Fin 2 → Fin 3 → Fin 3 → ℚ :=
  if (w.status &&& fe) ≠ 0 ∧ (w.status &&& fc) ≠ 0 ∧ (w.status &&& ft) ≠ 0 then
    setEntry t e c k
      (w.NLT_Coeffecients e c k * ((|direction| : Int) : ℚ)
        + w.coeffecientOffset * (direction : ℚ))
  else t

/-- `OpenGL_Widget::adjustCoeffecients`: the temporary bank is a copy of the bank, the
eighteen guarded assignments follow in source order, and the batch is committed when
`foundDiscprepancy` is false (its only assignment is the initialisation to `false`;
the ordering check is commented out). -/
def adjustCoeffecients (w : OpenGL_Widget) (direction : Int) : OpenGL_Widget :=
  let t0 := w.NLT_Coeffecients
  let t1 := adjustCell w direction LEFT_EYE GREEN FIRST_COEFFICIENT 0 0 0 t0
  let t2 := adjustCell w direction LEFT_EYE GREEN SECOND_COEFFICIENT 0 0 1 t1
  let t3 := adjustCell w direction LEFT_EYE GREEN THIRD_COEFFICIENT 0 0 2 t2
  let t4 := adjustCell w direction LEFT_EYE BLUE FIRST_COEFFICIENT 0 1 0 t3
  let t5 := adjustCell w direction LEFT_EYE BLUE SECOND_COEFFICIENT 0 1 1 t4
  let t6 := adjustCell w direction LEFT_EYE BLUE THIRD_COEFFICIENT 0 1 2 t5
  let t7 := adjustCell w direction LEFT_EYE RED FIRST_COEFFICIENT 0 2 0 t6
  let t8 := adjustCell w direction LEFT_EYE RED SECOND_COEFFICIENT 0 2 1 t7
  let t9 := adjustCell w direction LEFT_EYE RED THIRD_COEFFICIENT 0 2 2 t8
  let t10 := adjustCell w direction RIGHT_EYE GREEN FIRST_COEFFICIENT 1 0 0 t9
  let t11 := adjustCell w direction RIGHT_EYE GREEN SECOND_COEFFICIENT 1 0 1 t10
  let t12 := adjustCell w direction RIGHT_EYE GREEN THIRD_COEFFICIENT 1 0 2 t11
  let t13 := adjustCell w direction RIGHT_EYE BLUE FIRST_COEFFICIENT 1 1 0 t12
  let t14 := adjustCell w direction RIGHT_EYE BLUE SECOND_COEFFICIENT 1 1 1 t13
  let t15 := adjustCell w direction RIGHT_EYE BLUE THIRD_COEFFICIENT 1 1 2 t14
  let t16 := adjustCell w direction RIGHT_EYE RED FIRST_COEFFICIENT 1 2 0 t15
  let t17 := adjustCell w direction RIGHT_EYE RED SECOND_COEFFICIENT 1 2 1 t16
  let t18 := adjustCell w direction RIGHT_EYE RED THIRD_COEFFICIENT 1 2 2 t17
  let foundDiscprepancy : Bool := false
  if !foundDiscprepancy then { w with NLT_Coeffecients := t18 } else w

/-- Lines 1115-1123 of `shiftCenter`: the updates `Intrinsics[0][0][2] +=
coeffecientOffset * -h`, `Intrinsics[0][1][2] += coeffecientOffset * -v` for a selected
left eye and `Intrinsics[1][0][2] += coeffecientOffset * h`, `Intrinsics[1][1][2] +=
coeffecientOffset * -v` for a selected right eye. -/
def shiftIntrinsics (w : OpenGL_Widget) (v h : Int) : Fin 2 → Fin 3 → Fin 3 → ℚ :=
  let i1 : Fin 2 → Fin 3 → Fin 3 → ℚ :=
    if (w.status &&& LEFT_EYE) = LEFT_EYE then
      let a := setEntry w.Intrinsics 0 0 2
        (w.Intrinsics 0 0 2 + w.coeffecientOffset * ((-h : Int) : ℚ))
      setEntry a 0 1 2 (a 0 1 2 + w.coeffecientOffset * ((-v : Int) : ℚ))
    else w.Intrinsics
  if (w.status &&& RIGHT_EYE) = RIGHT_EYE then
    let a := setEntry i1 1 0 2 (i1 1 0 2 + w.coeffecientOffset * (h : ℚ))
    setEntry a 1 1 2 (a 1 1 2 + w.coeffecientOffset * ((-v : Int) : ℚ))
  else i1

/-- Lines 1129-1146 of `shiftCenter`: the direct nudge of the pixel centres. -/
def shiftPixelCenters (w : OpenGL_Widget) (v h : Int) : OpenGL_Widget :=
  let w1 : OpenGL_Widget :=
    if h ≠ 0 then
      if (w.status &&& LEFT_EYE) = LEFT_EYE ∧ (w.status &&& RIGHT_EYE) = RIGHT_EYE then
        { w with
          d_cop_l := { w.d_cop_l with x := w.d_cop_l.x - (h : ℚ) }
          d_cop_r := { w.d_cop_r with x := w.d_cop_r.x + (h : ℚ) } }
      else if (w.status &&& LEFT_EYE) = LEFT_EYE then
        { w with d_cop_l := { w.d_cop_l with x := w.d_cop_l.x + (h : ℚ) } }
      else if (w.status &&& RIGHT_EYE) = RIGHT_EYE then
        { w with d_cop_r := { w.d_cop_r with x := w.d_cop_r.x + (h : ℚ) } }
      else w
    else w
  if v ≠ 0 then
    let a : OpenGL_Widget :=
      if (w1.status &&& LEFT_EYE) = LEFT_EYE then
        { w1 with d_cop_l := { w1.d_cop_l with y := w1.d_cop_l.y + ((-v : Int) : ℚ) } }
      else w1
    if (a.status &&& RIGHT_EYE) = RIGHT_EYE then
      { a with d_cop_r := { a.d_cop_r with y := a.d_cop_r.y + ((-v : Int) : ℚ) } }
    else a
  else w1

/-- `OpenGL_Widget::shiftCenter`. -/
def shiftCenter (w : OpenGL_Widget) (v h : Int) : OpenGL_Widget :=
  if (w.status &&& APPLY_LINEAR_TRANSFORM) = APPLY_LINEAR_TRANSFORM
      ∨ (w.status &&& ONLY_CENTER_CORRECT) = ONLY_CENTER_CORRECT then
    setDeftCOPVals { w with Intrinsics := shiftIntrinsics w v h }
  else
    shiftPixelCenters w v h

/-- `OpenGL_Widget::adjustAspectRatio` (its arguments are named `w`, `h` in the source). -/
def adjustAspectRatio (s : OpenGL_Widget) (w h : Int) : OpenGL_Widget :=
  let i1 : Fin 2 → Fin 3 → Fin 3 → ℚ :=
    if (s.status &&& LEFT_EYE) ≠ 0 then
      let a :=
        if w ≠ -2 then setEntry s.Intrinsics 0 0 0 (s.Intrinsics 0 0 0 + (w : ℚ) * s.coeffecientOffset)
        else setEntry s.Intrinsics 0 0 0 ((s.d_height : ℚ) / 1000)
      if h ≠ -2 then setEntry a 0 1 1 (a 0 1 1 + (h : ℚ) * s.coeffecientOffset)
      else setEntry a 0 1 1 ((s.d_width : ℚ) / 1000 / 2)
    else s.Intrinsics
  let i2 : Fin 2 → Fin 3 → Fin 3 → ℚ :=
    if (s.status &&& RIGHT_EYE) ≠ 0 then
      let a :=
        if w ≠ -2 then setEntry i1 1 0 0 (i1 1 0 0 + (w : ℚ) * s.coeffecientOffset)
        else setEntry i1 1 0 0 ((s.d_height : ℚ) / 1000)
      if h ≠ -2 then setEntry a 1 1 1 (a 1 1 1 + (h : ℚ) * s.coeffecientOffset)
      else setEntry a 1 1 1 ((s.d_width : ℚ) / 1000 / 2)
    else i1
  { s with Intrinsics := i2 }

/-- `OpenGL_Widget::ApplyCenterToIntrinsics`; undefined when one of the four divisors
`centerL.x()`, `centerL.y()`, `centerR.x()`, `centerR.y()` is zero. -/
def ApplyCenterToIntrinsics (w : OpenGL_Widget) : Option OpenGL_Widget :=
  let centerL : QPointF :=
    ⟨((Int.tdiv w.d_width 4 : Int) : ℚ), ((Int.tdiv w.d_height 2 : Int) : ℚ)⟩
  let centerR : QPointF :=
    ⟨((toInt ((w.d_width : ℚ) - centerL.x) : Int) : ℚ), ((toInt centerL.y : Int) : ℚ)⟩
  match fdiv (w.d_cop_l.x - centerL.x) centerL.x, fdiv (w.d_cop_l.y - centerL.y) centerL.y,
        fdiv (w.d_cop_r.x - centerR.x) centerR.x, fdiv (w.d_cop_r.y - centerR.y) centerR.y with
  | some a, some b, some c, some d =>
    some { w with
      Intrinsics := setEntry (setEntry (setEntry (setEntry w.Intrinsics 0 0 2 a) 0 1 2 b) 1 0 2 c)
        1 1 2 d
      d_cop_l_Prev := w.d_cop_l
      d_cop_r_Prev := w.d_cop_r }
  | _, _, _, _ => none

/-- `OpenGL_Widget::ApplyIntrincstsToCenter`. -/
def ApplyIntrincstsToCenter (w : OpenGL_Widget) : OpenGL_Widget :=
  let CxL : ℚ := ((Int.tdiv w.d_width 4 : Int) : ℚ)
  let CxR : ℚ := ((Int.tdiv w.d_width 2 : Int) : ℚ) + CxL
  let Cy : ℚ := ((Int.tdiv w.d_height 2 : Int) : ℚ)
  let l : QPointF := ⟨CxL + CxL * w.Intrinsics 0 0 2, Cy + Cy * w.Intrinsics 0 1 2⟩
  let r : QPointF := ⟨CxR + CxR * w.Intrinsics 1 0 2, Cy + Cy * w.Intrinsics 1 1 2⟩
  { w with d_cop_l := l, d_cop_r := r, d_cop_l_Prev := l, d_cop_r_Prev := r }

/-- `OpenGL_Widget::resetCenter`. -/
def resetCenter (w : OpenGL_Widget) : OpenGL_Widget :=
  let CxL : ℚ := ((Int.tdiv w.d_width 4 : Int) : ℚ)
  let CxR : ℚ := ((Int.tdiv w.d_width 2 : Int) : ℚ) + CxL
  let Cy : ℚ := ((Int.tdiv w.d_height 2 : Int) : ℚ)
  let a : OpenGL_Widget :=
    if (w.status &&& LEFT_EYE) = LEFT_EYE then
      { w with d_cop_l := ⟨CxL, Cy⟩, d_cop_l_Prev := ⟨CxL, Cy⟩ }
    else w
  if (a.status &&& RIGHT_EYE) = RIGHT_EYE then
    { a with d_cop_r := ⟨CxR, Cy⟩, d_cop_r_Prev := ⟨CxR, Cy⟩ }
  else a

/-- The state part of `OpenGL_Widget::resizeGL` (the OpenGL calls have no effect on
the calibration state). -/
def resizeGL (w : OpenGL_Widget) (width height : Int) : OpenGL_Widget :=
  let w1 : OpenGL_Widget := { w with d_width := width, d_height := height }
  let w2 : OpenGL_Widget :=
    if width = 2160 ∧ height = 1200 then
      { w1 with d_cop_l_Prev := ⟨0, 0⟩, d_cop_r_Prev := ⟨0, 0⟩ }
    else w1
  setDeftCOPVals w2

/-- The Vive window in mode CenterOnly with every intrinsics entry 1/10 (reached from
`offsetIntrinsicsWidget` by two toggles): live centres (594, 660) and (1782, 660)
derived from the intrinsics, manual centres (540, 600) and (1620, 600) in the backups. -/
def centerOnlyWidget : OpenGL_Widget :=
  { offsetIntrinsicsWidget with
    status := 767, d_cop_l := ⟨594, 660⟩, d_cop_r := ⟨1782, 660⟩ }

/-- The flag that selects an eye index of the coefficient bank. -/
def eyeFlag (e : Fin 2) : StatusValues := if e = 0 then LEFT_EYE else RIGHT_EYE

/-- The flag that selects a colour plane of the coefficient bank (0 green, 1 blue,
2 red). -/
def colorFlag (c : Fin 3) : StatusValues := if c = 0 then GREEN else if c = 1 then BLUE else RED

/-- The flag that selects a polynomial term of the coefficient bank. -/
def termFlag (t : Fin 3) : StatusValues :=
  if t = 0 then FIRST_COEFFICIENT else if t = 1 then SECOND_COEFFICIENT else THIRD_COEFFICIENT

/-- A cell of the bank is selected when its eye flag, its channel flag and its term
flag are all set in the flag word. -/
def cellSelected (status : StatusValues) (e : Fin 2) (c t : Fin 3) : Prop :=
  (status &&& eyeFlag e) ≠ 0 ∧ (status &&& colorFlag c) ≠ 0 ∧ (status &&& termFlag t) ≠ 0

instance (status : StatusValues) (e : Fin 2) (c t : Fin 3) :
    Decidable (cellSelected status e c t) := by
  unfold cellSelected; infer_instance

/-- A window of width 2 with all coefficients 1 in which only the left eye, green and
the first coefficient are selected. -/
def singleCellWidget : OpenGL_Widget := { unitCoeffWidget with status := 37 }

/-- The lower bound `0.0000000001` of the step size. -/
def minStep : ℚ := 1 / 10000000000

/-- The clamp of the specification: a value forced into `[1e-10, 1]`. -/
def clampStep (x : ℚ) : ℚ := max minStep (min 1 x)

/-- The left eye is selected: the test `(status & LEFT_EYE) == LEFT_EYE`. -/
def leftSelected (status : StatusValues) : Prop := (status &&& LEFT_EYE) = LEFT_EYE

/-- The right eye is selected: the test `(status & RIGHT_EYE) == RIGHT_EYE`. -/
def rightSelected (status : StatusValues) : Prop := (status &&& RIGHT_EYE) = RIGHT_EYE

instance (status : StatusValues) : Decidable (leftSelected status) := by
  unfold leftSelected; infer_instance

instance (status : StatusValues) : Decidable (rightSelected status) := by
  unfold rightSelected; infer_instance

/-- The eye with index `e` is selected in the sense of `adjustAspectRatio` and
`adjustCoeffecients`: `status & flag` is non-zero. -/
def eyeOn (status : StatusValues) (e : Fin 2) : Prop := (status &&& eyeFlag e) ≠ 0

instance (status : StatusValues) (e : Fin 2) : Decidable (eyeOn status e) := by
  unfold eyeOn; infer_instance

/-- The constructor's centres (all four points at the origin) in a window of the
Vive's size. -/
def freshWidget : OpenGL_Widget :=
  { viveWidget with
    d_cop_l := ⟨0, 0⟩, d_cop_r := ⟨0, 0⟩, d_cop_l_Prev := ⟨0, 0⟩, d_cop_r_Prev := ⟨0, 0⟩ }

/-- A 1366 x 768 window with the default centres that `setDeftCOPVals` establishes on a
fresh session: (341, 384) and its mirror (1025, 384). -/
def laptopWidget : OpenGL_Widget :=
  { viveWidget with
    d_width := 1366, d_height := 768,
    d_cop_l := ⟨341, 384⟩, d_cop_r := ⟨1025, 384⟩,
    d_cop_l_Prev := ⟨341, 384⟩, d_cop_r_Prev := ⟨1025, 384⟩ }

/-- The Vive window in mode None with both centres of projection at the origin and the
manual centres (540, 600) and (1620, 600) in the backups. -/
def originCopWidget : OpenGL_Widget :=
  { viveWidget with d_cop_l := ⟨0, 0⟩, d_cop_r := ⟨0, 0⟩ }

/-- Three presses of the mode-toggle key: from LinearFull through CenterOnly and
AspectOnly back to None. -/
def toggleThreeTimes (w : OpenGL_Widget) : OpenGL_Widget :=
  toggleLinearTransform (toggleLinearTransform (toggleLinearTransform w))

/-- The vertex filter of `drawCorrectedLine` and `drawCorrectedCircle` (lines 284 and
301): `tp.x() > -1 && tp.x() < d_width+1 && tp.y() > -1 && tp.y() < d_height+1`. -/
def vertexFilter (w : OpenGL_Widget) (tp : QPointF) : Prop :=
  tp.x > -1 ∧ tp.x < ((w.d_width + 1 : Int) : ℚ) ∧ tp.y > -1 ∧ tp.y < ((w.d_height + 1 : Int) : ℚ)

instance (w : OpenGL_Widget) (tp : QPointF) : Decidable (vertexFilter w tp) := by
  unfold vertexFilter; infer_instance

/-- The culling replaces the x coordinate by its sentinel: the test of line 256 for the
left eye, of line 263 for the right eye. -/
def clipsX (w : OpenGL_Widget) (ret : QPointF) (eye : StatusValues) : Prop :=
  (eye = LEFT_EYE ∧ (ret.x < 0 ∨ ret.x > ((Int.tdiv w.d_width 2 : Int) : ℚ)))
  ∨ (eye = RIGHT_EYE ∧ (ret.x > (w.d_width : ℚ) ∨ ret.x < ((Int.tdiv w.d_width 2 : Int) : ℚ)))

/-- The culling replaces the y coordinate by its sentinel: the test of lines 258 and
265. -/
def clipsY (w : OpenGL_Widget) (ret : QPointF) (eye : StatusValues) : Prop :=
  (eye = LEFT_EYE ∨ eye = RIGHT_EYE) ∧ (ret.y < 0 ∨ ret.y > (w.d_height : ℚ))

/-! ## The configuration record, save and load -/

/-- The declared number of rows of `double Centers[2][2]`. -/
def centersRows : Nat := 2

/-- The declared number of columns of `double Centers[2][2]`. -/
def centersCols : Nat := 2

/-- The element read `Centers[e][j]`; with `checked` the read fails outside the
declared bounds (bounds-checked indexing), without it the element expression is read
as it stands. -/
def centersGet (checked : Bool) (C : Nat → Nat → ℚ) (e j : Nat) : Option ℚ :=
  if checked = true ∧ ¬ (e < centersRows ∧ j < centersCols) then none else some (C e j)

/-- The element write `Centers[e][j] = v`; with `checked` the write fails outside the
declared bounds. -/
def centersSet (checked : Bool) (C : Nat → Nat → ℚ) (e j : Nat) (v : ℚ) :
    Option (Nat → Nat → ℚ) :=
  if checked = true ∧ ¬ (e < centersRows ∧ j < centersCols) then none
  else some (fun e' j' => if e' = e ∧ j' = j then v else C e' j')

/-- One of the objects `"distortion"`, `"distortion_blue"`, `"distortion_red"` of an eye
of the configuration file: the members that save and load touch. -/
structure DistortionBlock where
  center_x : ℚ
  center_y : ℚ
  coeffs : Fin 3 → ℚ

/-- One element of the array `"tracking_to_eye_transform"` of the configuration file. -/
structure EyeTransform where
  distortion : DistortionBlock
  distortion_blue : DistortionBlock
  distortion_red : DistortionBlock
  intrinsics : Fin 3 → Fin 3 → ℚ

/-- The JSON document `json` (the configuration file once parsed). -/
structure HmdConfig where
  tracking_to_eye_transform : Fin 2 → EyeTransform

/-- The `SetDouble` calls of `saveConfigToJson` for one eye, in source order (lines
855-888 for the left eye, 892-925 for the right eye, which differ in the eye index
only): `center_x`, `center_y` of `"distortion"` from `Centers[e][1]`, `Centers[e][2]`;
the nine `"intrinsics"` entries; then for green, blue and red the three `coeffs` and
again `center_x`, `center_y`, from `Intrinsics[e][0][2]`, `Intrinsics[e][1][2]`. -/
def saveEye (checked : Bool) (w : OpenGL_Widget) (e : Fin 2) (t : EyeTransform) :
    Option EyeTransform :=
  match centersGet checked w.Centers e.val 1, centersGet checked w.Centers e.val 2 with
  | some cx, some cy =>
    let d1 : DistortionBlock := { t.distortion with center_x := cx, center_y := cy }
    let intr : Fin 3 → Fin 3 → ℚ := fun i j => w.Intrinsics e i j
    let green : DistortionBlock :=
      { d1 with
        coeffs := fun k => w.NLT_Coeffecients e 0 k
        center_x := w.Intrinsics e 0 2
        center_y := w.Intrinsics e 1 2 }
    let blue : DistortionBlock :=
      { t.distortion_blue with
        coeffs := fun k => w.NLT_Coeffecients e 1 k
        center_x := w.Intrinsics e 0 2
        center_y := w.Intrinsics e 1 2 }
    let red : DistortionBlock :=
      { t.distortion_red with
        coeffs := fun k => w.NLT_Coeffecients e 2 k
        center_x := w.Intrinsics e 0 2
        center_y := w.Intrinsics e 1 2 }
    some { distortion := green, distortion_blue := blue, distortion_red := red,
           intrinsics := intr }
  | _, _ => none

/-- `OpenGL_Widget::saveConfigToJson`: the document `json` after the `SetDouble` calls,
which is what is written to the file; the left eye first, then the right eye. -/
def saveConfigToJson (checked : Bool) (w : OpenGL_Widget) (json : HmdConfig) :
    Option HmdConfig :=
  match saveEye checked w 0 (json.tracking_to_eye_transform 0) with
  | none => none
  | some l =>
    match saveEye checked w 1 (json.tracking_to_eye_transform 1) with
    | none => none
    | some r => some { tracking_to_eye_transform := fun e => if e = 0 then l else r }

/-- The assignments of `loadConfigFromJson` for one eye, in source order (lines 962-986
for the left eye, 989-1013 for the right eye): `Centers[e][1]`, `Centers[e][2]` from
`center_x`, `center_y` of `"distortion"`, the nine entries of `Intrinsics[e]`, and the
coefficients of green, blue and red. -/
def loadEye (checked : Bool) (w : OpenGL_Widget) (e : Fin 2) (t : EyeTransform) :
    Option OpenGL_Widget :=
  match centersSet checked w.Centers e.val 1 t.distortion.center_x with
  | none => none
  | some c1 =>
    match centersSet checked c1 e.val 2 t.distortion.center_y with
    | none => none
    | some c2 =>
      some { w with
        Centers := c2
        Intrinsics := fun e' i j => if e' = e then t.intrinsics i j else w.Intrinsics e' i j
        NLT_Coeffecients := fun e' c k =>
          if e' = e then
            (if c = 0 then t.distortion.coeffs k
             else if c = 1 then t.distortion_blue.coeffs k
             else t.distortion_red.coeffs k)
          else w.NLT_Coeffecients e' c k }

/-- `OpenGL_Widget::loadConfigFromJson`; `file` is the parsed configuration file, `none`
when the file does not exist (the function then returns `false` and changes nothing). -/
def loadConfigFromJson (checked : Bool) (w : OpenGL_Widget) (file : Option HmdConfig) :
    Option OpenGL_Widget :=
  match file with
  | none => some w
  | some json =>
    match loadEye checked w 0 (json.tracking_to_eye_transform 0) with
    | none => none
    | some w1 =>
      match loadEye checked w1 1 (json.tracking_to_eye_transform 1) with
      | none => none
      | some w2 => some (ApplyIntrincstsToCenter w2)

/-- A configuration record with every number zero. -/
def zeroConfig : HmdConfig :=
  { tracking_to_eye_transform := fun _ =>
      { distortion := ⟨0, 0, fun _ => 0⟩, distortion_blue := ⟨0, 0, fun _ => 0⟩,
        distortion_red := ⟨0, 0, fun _ => 0⟩, intrinsics := fun _ _ => 0 } }

/-- The Vive window whose element `Centers[0][1]` holds 5 while all intrinsics are 0. -/
def storedCenterWidget : OpenGL_Widget :=
  { viveWidget with Centers := fun e j => if e = 0 ∧ j = 1 then 5 else 0 }

/-! ## The constructor, key commands and reachable states -/

/-- `OpenGL_Widget::OpenGL_Widget`: the member initialisers and the body of the
constructor. The members `d_width`, `d_height`, `Centers` and `Intrinsics` are not
initialised there, so their values are arguments. -/
def OpenGL_Widget.constructor (d_width d_height : Int) (Centers : Nat → Nat → ℚ)
    (Intrinsics : Fin 2 → Fin 3 → Fin 3 → ℚ) : OpenGL_Widget :=
  { d_width := d_width
    d_height := d_height
    d_cop_l := ⟨0, 0⟩
    d_cop_r := ⟨0, 0⟩
    d_cop_l_Prev := ⟨0, 0⟩
    d_cop_r_Prev := ⟨0, 0⟩
    displayOverValues := false
    NLT_Coeffecients := fun _ _ _ => 0
    Centers := Centers
    Intrinsics := Intrinsics
    status := LEFT_EYE ||| RIGHT_EYE ||| GREEN ||| BLUE ||| RED ||| FIRST_COEFFICIENT
      ||| SECOND_COEFFICIENT ||| THIRD_COEFFICIENT
    coeffecientOffset := 1 / 1000 }

/-- The keys that the `switch (event->key())` of `keyPressEvent` has a case for; any
other key is `Key_Other`. -/
inductive Key where
  | Key_Escape | Key_S | Key_L | Key_1 | Key_2 | Key_3 | Key_Q | Key_W | Key_E
  | Key_Z | Key_X | Key_Enter | Key_Return | Key_Left | Key_Right | Key_Down | Key_Up
  | Key_I | Key_Space | Key_G | Key_H | Key_J | Key_Other
deriving DecidableEq

/-- What `keyPressEvent` reads of a `QKeyEvent`: the key and the two modifier bits
`Qt::ShiftModifier`, `Qt::ControlModifier`. -/
structure QKeyEvent where
  key : Key
  shift : Bool
  control : Bool

/-- The state that a key command acts on: the widget, its member `json` and the
configuration file (`none` when the file does not exist). -/
structure Session where
  widget : OpenGL_Widget
  json : HmdConfig
  file : Option HmdConfig

/-- `OpenGL_Widget::keyPressEvent`. `QApplication::quit()` and `updateGL()` leave the
calibration state as it is; a command whose computation has no value (a division by
zero in `ApplyCenterToIntrinsics`, a failed checked access in save or load) gives
`none`. -/
def keyPressEvent (checked : Bool) (s : Session) (event : QKeyEvent) : Option Session :=
  let w := s.widget
  match event.key with
  | Key.Key_Escape => some s
  | Key.Key_S =>
    match saveConfigToJson checked w s.json with
    | none => none
    | some doc => some { s with json := doc, file := some doc }
  | Key.Key_L =>
    match loadConfigFromJson checked w s.file with
    | none => none
    | some v => some { s with widget := v, json := s.file.getD s.json }
  | Key.Key_1 => some { s with widget := { w with status := w.status ^^^ FIRST_COEFFICIENT } }
  | Key.Key_2 => some { s with widget := { w with status := w.status ^^^ SECOND_COEFFICIENT } }
  | Key.Key_3 => some { s with widget := { w with status := w.status ^^^ THIRD_COEFFICIENT } }
  | Key.Key_Q => some { s with widget := { w with status := w.status ^^^ GREEN } }
  | Key.Key_W => some { s with widget := { w with status := w.status ^^^ BLUE } }
  | Key.Key_E => some { s with widget := { w with status := w.status ^^^ RED } }
  | Key.Key_Z => some { s with widget := { w with status := w.status ^^^ LEFT_EYE } }
  | Key.Key_X => some { s with widget := { w with status := w.status ^^^ RIGHT_EYE } }
  | Key.Key_Enter => some { s with widget := toggleLinearTransform w }
  | Key.Key_Return => some { s with widget := toggleLinearTransform w }
  | Key.Key_Left =>
    if event.shift = true then some { s with widget := shiftCenter w 0 (-1) }
    else if event.control = true then some { s with widget := adjustAspectRatio w (-1) 0 }
    else some { s with widget := shiftCoeffecientOffset w (-1) }
  | Key.Key_Right =>
    if event.shift = true then some { s with widget := shiftCenter w 0 1 }
    else if event.control = true then some { s with widget := adjustAspectRatio w 1 0 }
    else some { s with widget := shiftCoeffecientOffset w 1 }
  | Key.Key_Down =>
    if event.shift = true then some { s with widget := shiftCenter w 1 0 }
    else if event.control = true then some { s with widget := adjustAspectRatio w 0 (-1) }
    else some { s with widget := adjustCoeffecients w (-1) }
  | Key.Key_Up =>
    if event.shift = true then some { s with widget := shiftCenter w (-1) 0 }
    else if event.control = true then some { s with widget := adjustAspectRatio w 0 1 }
    else some { s with widget := adjustCoeffecients w 1 }
  | Key.Key_I =>
    match ApplyCenterToIntrinsics w with
    | none => none
    | some v => some { s with widget := v }
  | Key.Key_Space =>
    if w.displayOverValues = true then
      some { s with widget := { w with displayOverValues := false } }
    else some { s with widget := { w with displayOverValues := true } }
  | Key.Key_G => some { s with widget := resetCenter w }
  | Key.Key_H => some { s with widget := adjustCoeffecients w 0 }
  | Key.Key_J => some { s with widget := adjustAspectRatio w (-2) (-2) }
  | Key.Key_Other => some s

/-- The sessions that a run of the program passes through: the constructor's state
(with any values of the members it leaves uninitialised, any `json` member and any
configuration file), then any sequence of key commands, window resizes
(`resizeGL`), loads of the configuration file (as `loadInitalValues` does) and
changes of the configuration file from outside. -/
inductive Reachable (checked : Bool) : Session → Prop
  | init (d_width d_height : Int) (Centers : Nat → Nat → ℚ)
      (Intrinsics : Fin 2 → Fin 3 → Fin 3 → ℚ) (json : HmdConfig) (file : Option HmdConfig) :
      Reachable checked
        ⟨OpenGL_Widget.constructor d_width d_height Centers Intrinsics, json, file⟩
  | key {s t : Session} (event : QKeyEvent) :
      Reachable checked s → keyPressEvent checked s event = some t → Reachable checked t
  | resize {s : Session} (width height : Int) :
      Reachable checked s → Reachable checked { s with widget := resizeGL s.widget width height }
  | load {s : Session} {v : OpenGL_Widget} :
      Reachable checked s → loadConfigFromJson checked s.widget s.file = some v →
      Reachable checked { s with widget := v, json := s.file.getD s.json }
  | fileChange {s : Session} (file : Option HmdConfig) :
      Reachable checked s → Reachable checked { s with file := file }

/-- The constructor's state for a Vive window with all uninitialised members zero, no
configuration file. -/
def initialSession : Session :=
  ⟨OpenGL_Widget.constructor 2160 1200 (fun _ _ => 0) (fun _ _ _ => 0), zeroConfig, none⟩

/-- The key event Return without modifiers. -/
def returnKey : QKeyEvent := ⟨Key.Key_Return, false, false⟩

/-- The Vive window in mode None whose left centre of projection is `(2^-50, 0)`, not
the origin but within `1e-12` of it, and whose right centre is the origin; the manual
centres (540, 600) and (1620, 600) are in the backups. -/
def nearOriginCopWidget : OpenGL_Widget :=
  { viveWidget with d_cop_l := ⟨1 / 1125899906842624, 0⟩, d_cop_r := ⟨0, 0⟩ }

/-- The Vive window in mode None with centre-offset terms 1/10 and manual centres
(500, 600) and (1600, 600), whose left backup is `(2^-50, 0)`, not the origin but within
`1e-12` of it, and whose right backup is the origin. -/
def nearOriginBackupWidget : OpenGL_Widget :=
  { offsetIntrinsicsWidget with
    d_cop_l := ⟨500, 600⟩, d_cop_r := ⟨1600, 600⟩,
    d_cop_l_Prev := ⟨1 / 1125899906842624, 0⟩, d_cop_r_Prev := ⟨0, 0⟩ }

/-- The state `nearOriginBackupWidget` in mode LinearFull. -/
def nearOriginLinearWidget : OpenGL_Widget :=
  { nearOriginBackupWidget with status := 511 }

/-! ## Auxiliary facts -/

theorem qAbs_eq_abs (t : ℚ) : qAbs t = |t| := by
  unfold qAbs
  split_ifs with h
  · exact (abs_of_nonneg h).symm
  · exact (abs_of_neg (not_le.mp h)).symm

/-- The comparison with the origin: both coordinates are within `1/10^12` of zero. -/
theorem operator_eq_origin_iff (p : QPointF) :
    QPointF.operator_eq p ⟨0, 0⟩
      ↔ |p.x| ≤ 1 / 1000000000000 ∧ |p.y| ≤ 1 / 1000000000000 := by
  unfold QPointF.operator_eq qFuzzyIsNull
  rw [qAbs_eq_abs, qAbs_eq_abs, sub_zero, sub_zero]

theorem operator_eq_origin_of_eq {p : QPointF} (h : p = ⟨0, 0⟩) :
    QPointF.operator_eq p ⟨0, 0⟩ := by
  rw [operator_eq_origin_iff, h]
  norm_num

/-- A point with a coordinate of absolute value at least 1 does not compare equal to
the origin. -/
theorem not_operator_eq_origin_of_one_le {p : QPointF} (h : 1 ≤ |p.x| ∨ 1 ≤ |p.y|) :
    ¬ QPointF.operator_eq p ⟨0, 0⟩ := by
  rw [operator_eq_origin_iff]
  rintro ⟨hx, hy⟩
  rcases h with h | h
  · linarith
  · linarith

theorem sqrt_even_powers (x y : ℝ) :
    Real.sqrt (x * x + y * y) ^ 2 = x * x + y * y
    ∧ Real.sqrt (x * x + y * y) ^ 4 = (x * x + y * y) ^ 2
    ∧ Real.sqrt (x * x + y * y) ^ 6 = (x * x + y * y) ^ 3 := by
  have h0 : 0 ≤ x * x + y * y := add_nonneg (mul_self_nonneg x) (mul_self_nonneg y)
  have h2 : Real.sqrt (x * x + y * y) ^ 2 = x * x + y * y := Real.sq_sqrt h0
  refine ⟨h2, ?_, ?_⟩
  · calc Real.sqrt (x * x + y * y) ^ 4 = (Real.sqrt (x * x + y * y) ^ 2) ^ 2 := by ring
      _ = (x * x + y * y) ^ 2 := by rw [h2]
  · calc Real.sqrt (x * x + y * y) ^ 6 = (Real.sqrt (x * x + y * y) ^ 2) ^ 3 := by ring
      _ = (x * x + y * y) ^ 3 := by rw [h2]

theorem fdiv_of_ne (a : ℚ) {b : ℚ} (hb : b ≠ 0) : fdiv a b = some (a / b) := by
  simp [fdiv, hb]

theorem fdiv_eq_none_iff (a b : ℚ) : fdiv a b = none ↔ b = 0 := by
  unfold fdiv
  by_cases hb : b = 0 <;> simp [hb]

theorem lookupCoeffs_of_lt (w : OpenGL_Widget) {color : Nat} (hc : color < 3)
    (eye : StatusValues) :
    lookupCoeffs w color eye
      = some (w.NLT_Coeffecients (eyeIndex eye) (colorPlane color) 0,
              w.NLT_Coeffecients (eyeIndex eye) (colorPlane color) 1,
              w.NLT_Coeffecients (eyeIndex eye) (colorPlane color) 2) := by
  by_cases he : eye = LEFT_EYE <;> interval_cases color <;>
    simp [lookupCoeffs, eyeIndex, colorPlane, he]

theorem normalizeCoeffs_of_ne {d : Int} (hd : d ≠ 0) (k : ℚ × ℚ × ℚ) :
    normalizeCoeffs d k = some (k.1 / (d : ℚ) ^ 2, k.2.1 / (d : ℚ) ^ 4, k.2.2 / (d : ℚ) ^ 6) := by
  have hq : (d : ℚ) ≠ 0 := by exact_mod_cast hd
  have h1 : ((d : ℚ) / 4) * ((d : ℚ) / 4) * 16 = (d : ℚ) ^ 2 := by ring
  have h2 : (d : ℚ) ^ 2 ≠ 0 := pow_ne_zero _ hq
  have h4 : (d : ℚ) ^ 4 ≠ 0 := pow_ne_zero _ hq
  have h6 : (d : ℚ) ^ 6 ≠ 0 := pow_ne_zero _ hq
  unfold normalizeCoeffs
  rw [h1, fdiv_of_ne _ h2, fdiv_of_ne _ h4, fdiv_of_ne _ h6]

theorem normalizeCoeffs_zero_width (k : ℚ × ℚ × ℚ) : normalizeCoeffs 0 k = none := by
  simp [normalizeCoeffs, fdiv]

theorem r2_eq (w : OpenGL_Widget) (p cop : QPointF) (eye : StatusValues) :
    (linearStep w p cop eye - cop).x * (linearStep w p cop eye - cop).x
      + (linearStep w p cop eye - cop).y * (linearStep w p cop eye - cop).y
      = specR2 w p cop eye := by
  show ((linearStep w p cop eye).x - cop.x) * ((linearStep w p cop eye).x - cop.x)
      + ((linearStep w p cop eye).y - cop.y) * ((linearStep w p cop eye).y - cop.y) = _
  unfold specR2
  ring

/-- The pre-clip result of `transformPoint` in closed form, for a valid colour and a
non-zero width: defined exactly when the denominator is non-zero. -/
theorem preClip_closed_form (w : OpenGL_Widget) (p cop : QPointF) {color : Nat}
    (hc : color < 3) (eye : StatusValues) (hw : w.d_width ≠ 0) :
    transformPointPreClip w p cop color eye
      = (fdiv 1 (specDenominator (widthNormalised w color eye 0 2)
            (widthNormalised w color eye 1 4) (widthNormalised w color eye 2 6)
            (specR2 w p cop eye))).map
          (fun k => cop + QPointF.scale k (linearStep w p cop eye - cop)) := by
  unfold transformPointPreClip radialStep
  simp only [lookupCoeffs_of_lt w hc eye, normalizeCoeffs_of_ne hw, r2_eq]
  unfold radialDenominator specDenominator widthNormalised
  cases h : fdiv 1 (1 + w.NLT_Coeffecients (eyeIndex eye) (colorPlane color) 0 / (w.d_width : ℚ) ^ 2
      * specR2 w p cop eye
    + w.NLT_Coeffecients (eyeIndex eye) (colorPlane color) 1 / (w.d_width : ℚ) ^ 4
      * specR2 w p cop eye ^ 2
    + w.NLT_Coeffecients (eyeIndex eye) (colorPlane color) 2 / (w.d_width : ℚ) ^ 6
      * specR2 w p cop eye ^ 3) <;> simp

theorem transformPoint_eq_cull (w : OpenGL_Widget) (p cop : QPointF) (color : Nat)
    (eye : StatusValues) :
    transformPoint w p cop color eye
      = (transformPointPreClip w p cop color eye).map (fun ret => cullEye w ret eye) := by
  unfold transformPoint
  cases transformPointPreClip w p cop color eye <;> rfl

/-! ## The radial formula (C1) -/

/-- C1: for every point `p`, centre `cop`, colour index below 3 and eye, with `q` the
point after the optional affine step, `offset = q - cop`, `r^2 = offset.x^2 + offset.y^2`
and `k1, k2, k3` the width-normalised coefficients of the eye and channel, the value of
`transformPoint` before clipping is `cop + s * offset` with
`s = 1 / (1 + k1*r^2 + k2*r^4 + k3*r^6)` (wherever that quotient is defined), and
`transformPoint` returns this point culled. -/
theorem transformPoint_preclip_radial_formula (w : OpenGL_Widget) (p cop : QPointF)
    (color : Nat) (eye : StatusValues) (hc : color < 3) (hw : w.d_width ≠ 0)
    (hd : specDenominator (widthNormalised w color eye 0 2) (widthNormalised w color eye 1 4)
            (widthNormalised w color eye 2 6) (specR2 w p cop eye) ≠ 0) :
    transformPointPreClip w p cop color eye
        = some (cop + QPointF.scale
            (1 / specDenominator (widthNormalised w color eye 0 2)
              (widthNormalised w color eye 1 4) (widthNormalised w color eye 2 6)
              (specR2 w p cop eye))
            (linearStep w p cop eye - cop))
      ∧ transformPoint w p cop color eye
        = some (cullEye w (cop + QPointF.scale
            (1 / specDenominator (widthNormalised w color eye 0 2)
              (widthNormalised w color eye 1 4) (widthNormalised w color eye 2 6)
              (specR2 w p cop eye))
            (linearStep w p cop eye - cop)) eye) := by
  have h := preClip_closed_form w p cop hc eye hw
  rw [fdiv_of_ne _ hd] at h
  refine ⟨h, ?_⟩
  rw [transformPoint_eq_cull, h]
  rfl

theorem unitCoeffWidget_denominator :
    specDenominator (widthNormalised unitCoeffWidget 1 LEFT_EYE 0 2)
      (widthNormalised unitCoeffWidget 1 LEFT_EYE 1 4)
      (widthNormalised unitCoeffWidget 1 LEFT_EYE 2 6)
      (specR2 unitCoeffWidget ⟨3, 1⟩ ⟨1, 1⟩ LEFT_EYE) = 4 := by
  have hs : (unitCoeffWidget.status &&& APPLY_LINEAR_TRANSFORM) ≠ APPLY_LINEAR_TRANSFORM := by
    decide
  have hs2 : (unitCoeffWidget.status &&& ONLY_ASEPECT_RATIO) ≠ ONLY_ASEPECT_RATIO := by
    decide
  have hl : linearStep unitCoeffWidget ⟨3, 1⟩ ⟨1, 1⟩ LEFT_EYE = ⟨3, 1⟩ := by
    simp [linearStep, hs, hs2]
  simp only [specDenominator, widthNormalised, specR2, hl]
  norm_num [unitCoeffWidget, viveWidget]

/-- Witness of C1: width 2, all coefficients 1, mode None, `p = (3,1)`, `cop = (1,1)`,
green: `r^2 = 4`, the denominator is 4 and the point before clipping is `(3/2, 1)`. -/
theorem transformPoint_preclip_radial_formula_witness :
    transformPointPreClip unitCoeffWidget ⟨3, 1⟩ ⟨1, 1⟩ 1 LEFT_EYE
      = some (⟨1, 1⟩ + QPointF.scale (1 / 4) (⟨3, 1⟩ - ⟨1, 1⟩)) := by
  have hs : (unitCoeffWidget.status &&& APPLY_LINEAR_TRANSFORM) ≠ APPLY_LINEAR_TRANSFORM := by
    decide
  have hs2 : (unitCoeffWidget.status &&& ONLY_ASEPECT_RATIO) ≠ ONLY_ASEPECT_RATIO := by
    decide
  have hl : linearStep unitCoeffWidget ⟨3, 1⟩ ⟨1, 1⟩ LEFT_EYE = ⟨3, 1⟩ := by
    simp [linearStep, hs, hs2]
  have h := (transformPoint_preclip_radial_formula unitCoeffWidget ⟨3, 1⟩ ⟨1, 1⟩ 1 LEFT_EYE
    (by decide) (by decide) (by rw [unitCoeffWidget_denominator]; norm_num)).1
  rw [unitCoeffWidget_denominator, hl] at h
  exact h

/-! ## Culling (C2) -/

theorem outside_iff (a lo hi : ℚ) : (a < lo ∨ a > hi) ↔ ¬ (lo ≤ a ∧ a ≤ hi) := by
  constructor
  · rintro (h | h) ⟨h1, h2⟩
    · exact absurd h1 (not_le.mpr h)
    · exact absurd h2 (not_le.mpr h)
  · intro h
    by_contra hn
    push_neg at hn
    exact h ⟨hn.1, hn.2⟩

theorem outside_iff_swapped (a lo hi : ℚ) : (a > hi ∨ a < lo) ↔ ¬ (lo ≤ a ∧ a ≤ hi) := by
  rw [or_comm]
  exact outside_iff a lo hi

theorem cullEye_left (w : OpenGL_Widget) (ret : QPointF) :
    cullEye w ret LEFT_EYE
      = ⟨if 0 ≤ ret.x ∧ ret.x ≤ ((Int.tdiv w.d_width 2 : Int) : ℚ) then ret.x else -1,
         if 0 ≤ ret.y ∧ ret.y ≤ (w.d_height : ℚ) then ret.y else -1⟩ := by
  have h1 : (LEFT_EYE = LEFT_EYE) = True := by simp
  have h2 : (LEFT_EYE = RIGHT_EYE) = False := by simp
  unfold cullEye
  simp only [h1, h2, if_true, if_false, outside_iff]
  by_cases hx : 0 ≤ ret.x ∧ ret.x ≤ ((Int.tdiv w.d_width 2 : Int) : ℚ) <;>
    by_cases hy : 0 ≤ ret.y ∧ ret.y ≤ (w.d_height : ℚ) <;>
    simp [hx, hy]

theorem cullEye_right (w : OpenGL_Widget) (ret : QPointF) :
    cullEye w ret RIGHT_EYE
      = ⟨if ((Int.tdiv w.d_width 2 : Int) : ℚ) ≤ ret.x ∧ ret.x ≤ (w.d_width : ℚ) then ret.x
           else (w.d_width : ℚ) + 1,
         if 0 ≤ ret.y ∧ ret.y ≤ (w.d_height : ℚ) then ret.y else -1⟩ := by
  have h1 : (RIGHT_EYE = RIGHT_EYE) = True := by simp
  have h2 : (RIGHT_EYE = LEFT_EYE) = False := by simp
  unfold cullEye
  simp only [h1, h2, if_true, if_false, outside_iff, outside_iff_swapped]
  by_cases hx : ((Int.tdiv w.d_width 2 : Int) : ℚ) ≤ ret.x ∧ ret.x ≤ (w.d_width : ℚ) <;>
    by_cases hy : 0 ≤ ret.y ∧ ret.y ≤ (w.d_height : ℚ) <;>
    simp [hx, hy]

theorem cullEye_vive_example : cullEye viveWidget ⟨1200, 600⟩ LEFT_EYE = ⟨-1, 600⟩ := by
  rw [cullEye_left]
  have hw : Int.tdiv viveWidget.d_width 2 = 1080 := by decide
  have hh : viveWidget.d_height = 1200 := rfl
  rw [hw, hh]
  norm_num

/-- C2: `transformPoint` culls each axis of the radially corrected point on its own.
For the left eye x becomes the sentinel -1 exactly when x is outside `[0, width/2]`
and is kept otherwise; for the right eye x becomes `width + 1` exactly when x is
outside `[width/2, width]`; for either eye y becomes -1 exactly when y is outside
`[0, height]`; each result coordinate is a function of the same input coordinate only
(`width/2` is the integer quotient `d_width / 2` of the code). With width 2160 and
height 1200 the left-eye point (1200, 600) becomes (-1, 600). -/
theorem transformPoint_culls_each_axis (w : OpenGL_Widget) (ret : QPointF) :
    cullEye w ret LEFT_EYE
        = ⟨if 0 ≤ ret.x ∧ ret.x ≤ ((Int.tdiv w.d_width 2 : Int) : ℚ) then ret.x else -1,
           if 0 ≤ ret.y ∧ ret.y ≤ (w.d_height : ℚ) then ret.y else -1⟩
      ∧ cullEye w ret RIGHT_EYE
        = ⟨if ((Int.tdiv w.d_width 2 : Int) : ℚ) ≤ ret.x ∧ ret.x ≤ (w.d_width : ℚ) then ret.x
             else (w.d_width : ℚ) + 1,
           if 0 ≤ ret.y ∧ ret.y ≤ (w.d_height : ℚ) then ret.y else -1⟩
      ∧ (∀ (p cop : QPointF) (color : Nat) (eye : StatusValues),
          transformPoint w p cop color eye
            = (transformPointPreClip w p cop color eye).map (fun r => cullEye w r eye))
      ∧ cullEye viveWidget ⟨1200, 600⟩ LEFT_EYE = ⟨-1, 600⟩ :=
  ⟨cullEye_left w ret, cullEye_right w ret,
    fun p cop color eye => transformPoint_eq_cull w p cop color eye, cullEye_vive_example⟩

/-! ## Flag-word arithmetic -/

theorem and_flag_eq (s f : StatusValues) (hf : modeMask &&& f = f) :
    s &&& f = modeFlags s &&& f := by
  unfold modeFlags
  rw [Nat.and_assoc, hf]

theorem linear_flag_eq (s : StatusValues) :
    s &&& APPLY_LINEAR_TRANSFORM = modeFlags s &&& APPLY_LINEAR_TRANSFORM :=
  and_flag_eq s _ (by decide)

theorem center_flag_eq (s : StatusValues) :
    s &&& ONLY_CENTER_CORRECT = modeFlags s &&& ONLY_CENTER_CORRECT :=
  and_flag_eq s _ (by decide)

theorem aspect_flag_eq (s : StatusValues) :
    s &&& ONLY_ASEPECT_RATIO = modeFlags s &&& ONLY_ASEPECT_RATIO :=
  and_flag_eq s _ (by decide)

/-- Whether the affine step runs, read off the mode flags of a valid flag word. -/
theorem linearStep_of_mode (w : OpenGL_Widget) (p cop : QPointF) (eye : StatusValues) :
    (modeFlags w.status = APPLY_LINEAR_TRANSFORM ∨ modeFlags w.status = ONLY_ASEPECT_RATIO →
        linearStep w p cop eye
          = ⟨cop.x - (cop.x - p.x) * w.Intrinsics (eyeIndex eye) 0 0,
             cop.y - (cop.y - p.y) * w.Intrinsics (eyeIndex eye) 1 1⟩)
      ∧ (modeFlags w.status = 0 ∨ modeFlags w.status = ONLY_CENTER_CORRECT →
        linearStep w p cop eye = p) := by
  unfold linearStep
  rw [linear_flag_eq, aspect_flag_eq]
  constructor
  · intro h
    have hc : (modeFlags w.status &&& APPLY_LINEAR_TRANSFORM) = APPLY_LINEAR_TRANSFORM
        ∨ (modeFlags w.status &&& ONLY_ASEPECT_RATIO) = ONLY_ASEPECT_RATIO := by
      rcases h with h | h <;> rw [h] <;> decide
    rw [if_pos hc]
    by_cases he : eye = LEFT_EYE <;> simp [eyeIndex, he]
  · intro h
    have hc : ¬ ((modeFlags w.status &&& APPLY_LINEAR_TRANSFORM) = APPLY_LINEAR_TRANSFORM
        ∨ (modeFlags w.status &&& ONLY_ASEPECT_RATIO) = ONLY_ASEPECT_RATIO) := by
      rcases h with h | h <;> rw [h] <;> decide
    rw [if_neg hc]

/-! ## Identity without distortion (C3) -/

theorem cullEye_of_inEyeRegion (w : OpenGL_Widget) (p : QPointF) (eye : StatusValues)
    (h : inEyeRegion w p eye) : cullEye w p eye = p := by
  by_cases hl : eye = LEFT_EYE
  · subst hl
    obtain ⟨h1, h2, h3, h4⟩ := h.1 rfl
    rw [cullEye_left]
    simp [h1, h2, h3, h4]
  · by_cases hr : eye = RIGHT_EYE
    · subst hr
      obtain ⟨h1, h2, h3, h4⟩ := h.2 rfl
      rw [cullEye_right]
      simp [h1, h2, h3, h4]
    · simp [cullEye, hl, hr]

theorem QPointF.add_scale_one_sub (p cop : QPointF) : cop + QPointF.scale 1 (p - cop) = p := by
  show QPointF.add cop (QPointF.scale 1 (QPointF.sub p cop)) = p
  cases p
  cases cop
  simp [QPointF.add, QPointF.scale, QPointF.sub]

/-- Counterexample to C3: in the Vive window (all coefficients zero, mode None) the
left-eye point (1200, 600) is returned as (-1, 600), and in a window of width 0 the
result is undefined (0/0 in the normalisation); on neither input `p` is returned. -/
theorem transformPoint_identity_counterexample :
    (∀ e c t, viveWidget.NLT_Coeffecients e c t = 0) ∧ modeFlags viveWidget.status = 0
      ∧ transformPoint viveWidget ⟨1200, 600⟩ ⟨540, 600⟩ 1 LEFT_EYE = some ⟨-1, 600⟩
      ∧ transformPoint viveWidget ⟨1200, 600⟩ ⟨540, 600⟩ 1 LEFT_EYE ≠ some ⟨1200, 600⟩
      ∧ transformPoint { viveWidget with d_width := 0 } ⟨100, 600⟩ ⟨0, 600⟩ 1 LEFT_EYE = none := by
  have hm : modeFlags viveWidget.status = 0 := by decide
  have hl : linearStep viveWidget ⟨1200, 600⟩ ⟨540, 600⟩ LEFT_EYE = ⟨1200, 600⟩ :=
    (linearStep_of_mode viveWidget _ _ _).2 (Or.inl hm)
  have hpre : transformPointPreClip viveWidget ⟨1200, 600⟩ ⟨540, 600⟩ 1 LEFT_EYE
      = some ⟨1200, 600⟩ := by
    rw [preClip_closed_form viveWidget _ _ (by decide) _ (by decide), hl]
    have hd : specDenominator (widthNormalised viveWidget 1 LEFT_EYE 0 2)
        (widthNormalised viveWidget 1 LEFT_EYE 1 4) (widthNormalised viveWidget 1 LEFT_EYE 2 6)
        (specR2 viveWidget ⟨1200, 600⟩ ⟨540, 600⟩ LEFT_EYE) = 1 := by
      simp [specDenominator, widthNormalised, viveWidget]
    rw [hd, fdiv_of_ne 1 one_ne_zero]
    simp [QPointF.add_scale_one_sub]
  have h3 : transformPoint viveWidget ⟨1200, 600⟩ ⟨540, 600⟩ 1 LEFT_EYE = some ⟨-1, 600⟩ := by
    rw [transformPoint_eq_cull, hpre]
    simp [cullEye_vive_example]
  refine ⟨fun _ _ _ => rfl, hm, h3, ?_, ?_⟩
  · rw [h3]
    intro h
    have hx := congrArg QPointF.x (Option.some.inj h)
    norm_num at hx
  · rw [transformPoint_eq_cull]
    unfold transformPointPreClip radialStep
    rw [lookupCoeffs_of_lt _ (by decide)]
    simp [normalizeCoeffs_zero_width]

/-- C3 (amended): for every point `p`, centre `cop`, colour index below 3 and eye, when
all coefficients of the bank are zero, the mode is None and the window width is not
zero, the value of `transformPoint` before clipping is `p`, `transformPoint` returns
the culled `p`, and it returns `p` unchanged whenever `p` lies in the screen region of
its eye. -/
theorem transformPoint_identity_in_region (w : OpenGL_Widget) (p cop : QPointF)
    (color : Nat) (eye : StatusValues) (hc : color < 3)
    (hz : ∀ e c t, w.NLT_Coeffecients e c t = 0) (hm : modeFlags w.status = 0)
    (hw : w.d_width ≠ 0) :
    transformPointPreClip w p cop color eye = some p
      ∧ transformPoint w p cop color eye = some (cullEye w p eye)
      ∧ (inEyeRegion w p eye → transformPoint w p cop color eye = some p) := by
  have hl : linearStep w p cop eye = p := (linearStep_of_mode w p cop eye).2 (Or.inl hm)
  have hd : specDenominator (widthNormalised w color eye 0 2) (widthNormalised w color eye 1 4)
      (widthNormalised w color eye 2 6) (specR2 w p cop eye) = 1 := by
    simp [specDenominator, widthNormalised, hz]
  have hpre : transformPointPreClip w p cop color eye = some p := by
    rw [preClip_closed_form w p cop hc eye hw, hd, fdiv_of_ne 1 one_ne_zero, hl]
    simp [QPointF.add_scale_one_sub]
  have ht : transformPoint w p cop color eye = some (cullEye w p eye) := by
    rw [transformPoint_eq_cull, hpre]
    rfl
  refine ⟨hpre, ht, fun hr => ?_⟩
  rw [ht, cullEye_of_inEyeRegion w p eye hr]

/-- Witness of C3 (amended): in the Vive window the left-eye point (100, 600) is
returned unchanged. -/
theorem transformPoint_identity_in_region_witness :
    transformPoint viveWidget ⟨100, 600⟩ ⟨540, 600⟩ 1 LEFT_EYE = some ⟨100, 600⟩ := by
  refine (transformPoint_identity_in_region viveWidget ⟨100, 600⟩ ⟨540, 600⟩ 1 LEFT_EYE
    (by decide) (fun _ _ _ => rfl) (by decide) (by decide)).2.2 ⟨fun _ => ?_, fun h => ?_⟩
  · have hw : Int.tdiv viveWidget.d_width 2 = 1080 := by decide
    have hh : viveWidget.d_height = 1200 := rfl
    rw [hw, hh]
    norm_num
  · exact absurd h (by decide)

/-! ## The affine step (C4) -/

theorem transformPoint_congr_intrinsics (w : OpenGL_Widget)
    (I : Fin 2 → Fin 3 → Fin 3 → ℚ) (p cop : QPointF) (color : Nat) (eye : StatusValues)
    (h : linearStep { w with Intrinsics := I } p cop eye = linearStep w p cop eye) :
    transformPoint { w with Intrinsics := I } p cop color eye
      = transformPoint w p cop color eye := by
  unfold transformPoint transformPointPreClip
  rw [h]
  rfl

/-- C4: the point that enters the radial step of `transformPoint` is
`(cop.x - (cop.x - p.x) * Intrinsics[e][0][0], cop.y - (cop.y - p.y) * Intrinsics[e][1][1])`
in modes LinearFull and AspectOnly and is `p` itself in modes None and CenterOnly, where
the result of `transformPoint` does not depend on any entry of `Intrinsics`. -/
theorem transformPoint_affine_step (w : OpenGL_Widget) (p cop : QPointF)
    (eye : StatusValues) :
    (∀ color, transformPointPreClip w p cop color eye
        = radialStep w (linearStep w p cop eye) cop color eye)
      ∧ (modeFlags w.status = APPLY_LINEAR_TRANSFORM ∨ modeFlags w.status = ONLY_ASEPECT_RATIO →
        linearStep w p cop eye
          = ⟨cop.x - (cop.x - p.x) * w.Intrinsics (eyeIndex eye) 0 0,
             cop.y - (cop.y - p.y) * w.Intrinsics (eyeIndex eye) 1 1⟩)
      ∧ (modeFlags w.status = 0 ∨ modeFlags w.status = ONLY_CENTER_CORRECT →
        linearStep w p cop eye = p
          ∧ ∀ (I : Fin 2 → Fin 3 → Fin 3 → ℚ) (color : Nat),
              transformPoint { w with Intrinsics := I } p cop color eye
                = transformPoint w p cop color eye) := by
  refine ⟨fun _ => rfl, (linearStep_of_mode w p cop eye).1, fun h => ?_⟩
  have h1 := (linearStep_of_mode w p cop eye).2 h
  refine ⟨h1, fun I color => ?_⟩
  apply transformPoint_congr_intrinsics
  rw [h1]
  exact (linearStep_of_mode { w with Intrinsics := I } p cop eye).2 h

/-- Witness of C4: in mode LinearFull with both scale factors 2, the left-eye point
(3, 1) with centre (1, 1) enters the radial step as (5, 1); in mode None it enters
unchanged. -/
theorem transformPoint_affine_step_witness :
    linearStep linearFullWidget ⟨3, 1⟩ ⟨1, 1⟩ LEFT_EYE = ⟨5, 1⟩
      ∧ linearStep viveWidget ⟨3, 1⟩ ⟨1, 1⟩ LEFT_EYE = ⟨3, 1⟩ := by
  constructor
  · rw [(transformPoint_affine_step linearFullWidget ⟨3, 1⟩ ⟨1, 1⟩ LEFT_EYE).2.1
      (Or.inl (by decide))]
    norm_num [linearFullWidget]
  · exact ((transformPoint_affine_step viveWidget ⟨3, 1⟩ ⟨1, 1⟩ LEFT_EYE).2.2
      (Or.inl (by decide))).1

/-! ## Normalisation of the coefficients (C5) -/

/-- Counterexample to C5: for width 2 the coefficients (4, 16, 64) are normalised to
(1, 1, 1), so `k3 = 64` is divided by `2^6`; dividing it by `width^4` would give 4. -/
theorem normalizeCoeffs_counterexample :
    normalizeCoeffs 2 (4, 16, 64) = some (1, 1, 1)
      ∧ specNormalize 2 (4, 16, 64) = (1, 1, 4)
      ∧ normalizeCoeffs 2 (4, 16, 64) ≠ some (specNormalize 2 (4, 16, 64)) := by
  have h1 : normalizeCoeffs 2 (4, 16, 64) = some (1, 1, 1) := by
    rw [normalizeCoeffs_of_ne (by decide)]
    norm_num
  have h2 : specNormalize 2 (4, 16, 64) = (1, 1, 4) := by
    norm_num [specNormalize]
  refine ⟨h1, h2, ?_⟩
  rw [h1, h2]
  intro h
  have h3 := congrArg (fun k : ℚ × ℚ × ℚ => k.2.2) (Option.some.inj h)
  norm_num at h3

/-- C5 (amended): before evaluating the radial polynomial, `transformPoint` normalises
the looked-up coefficients by the window width (when it is not zero): `k1` is divided
by `width^2`, `k2` by `width^4` and `k3` by `width^6`; these are the coefficients of the
denominator it divides by. -/
theorem normalizeCoeffs_width_powers (w : OpenGL_Widget) (ret cop : QPointF) (color : Nat)
    (eye : StatusValues) (k : ℚ × ℚ × ℚ) (hw : w.d_width ≠ 0) (hc : color < 3) :
    normalizeCoeffs w.d_width k
        = some (k.1 / (w.d_width : ℚ) ^ 2, k.2.1 / (w.d_width : ℚ) ^ 4,
                k.2.2 / (w.d_width : ℚ) ^ 6)
      ∧ codeDenominator w ret cop color eye
        = some (1
            + w.NLT_Coeffecients (eyeIndex eye) (colorPlane color) 0 / (w.d_width : ℚ) ^ 2
                * ((ret - cop).x * (ret - cop).x + (ret - cop).y * (ret - cop).y)
            + w.NLT_Coeffecients (eyeIndex eye) (colorPlane color) 1 / (w.d_width : ℚ) ^ 4
                * ((ret - cop).x * (ret - cop).x + (ret - cop).y * (ret - cop).y) ^ 2
            + w.NLT_Coeffecients (eyeIndex eye) (colorPlane color) 2 / (w.d_width : ℚ) ^ 6
                * ((ret - cop).x * (ret - cop).x + (ret - cop).y * (ret - cop).y) ^ 3) := by
  refine ⟨normalizeCoeffs_of_ne hw k, ?_⟩
  unfold codeDenominator
  simp only [lookupCoeffs_of_lt w hc eye, normalizeCoeffs_of_ne hw]
  rfl

/-- Witness of C5 (amended): width 2 turns (4, 16, 64) into (1, 1, 1). -/
theorem normalizeCoeffs_width_powers_witness :
    normalizeCoeffs unitCoeffWidget.d_width (4, 16, 64) = some (1, 1, 1) := by
  rw [(normalizeCoeffs_width_powers unitCoeffWidget ⟨0, 0⟩ ⟨0, 0⟩ 0 LEFT_EYE (4, 16, 64)
    (by decide) (by decide)).1]
  norm_num [unitCoeffWidget]

/-! ## The denominator (C6) -/

theorem codeDenominator_eq (w : OpenGL_Widget) (p cop : QPointF) {color : Nat}
    (hc : color < 3) (eye : StatusValues) (hw : w.d_width ≠ 0) :
    codeDenominator w (linearStep w p cop eye) cop color eye
      = some (specDenominator (widthNormalised w color eye 0 2)
          (widthNormalised w color eye 1 4) (widthNormalised w color eye 2 6)
          (specR2 w p cop eye)) := by
  unfold codeDenominator
  simp only [lookupCoeffs_of_lt w hc eye, normalizeCoeffs_of_ne hw, r2_eq]
  rfl

theorem specR2_nonneg (w : OpenGL_Widget) (p cop : QPointF) (eye : StatusValues) :
    0 ≤ specR2 w p cop eye := by
  unfold specR2
  positivity

theorem widthNormalised_nonneg (w : OpenGL_Widget) (color : Nat) (eye : StatusValues)
    (term : Fin 3) (n : Nat)
    (hk : 0 ≤ w.NLT_Coeffecients (eyeIndex eye) (colorPlane color) term)
    (hn : Even n) : 0 ≤ widthNormalised w color eye term n := by
  unfold widthNormalised
  exact div_nonneg hk (hn.pow_nonneg _)

theorem specDenominator_ge_one {k1 k2 k3 r2 : ℚ} (h1 : 0 ≤ k1) (h2 : 0 ≤ k2) (h3 : 0 ≤ k3)
    (hr : 0 ≤ r2) : 1 ≤ specDenominator k1 k2 k3 r2 := by
  unfold specDenominator
  have a1 : 0 ≤ k1 * r2 := mul_nonneg h1 hr
  have a2 : 0 ≤ k2 * r2 ^ 2 := mul_nonneg h2 (pow_nonneg hr 2)
  have a3 : 0 ≤ k3 * r2 ^ 3 := mul_nonneg h3 (pow_nonneg hr 3)
  linarith

/-- Counterexample to C6: width 4 (positive), red coefficient `k1 = -16` for the left
eye (normalised: -1), `cop = (0,0)`, point `(1,0)`, mode None: `r^2 = 1` and the
denominator that `transformPoint` divides by is `1 - 1 = 0`; the result is undefined. -/
theorem denominator_zero_counterexample :
    0 < negativeCoeffWidget.d_width
      ∧ codeDenominator negativeCoeffWidget
          (linearStep negativeCoeffWidget ⟨1, 0⟩ ⟨0, 0⟩ LEFT_EYE) ⟨0, 0⟩ 0 LEFT_EYE = some 0
      ∧ transformPoint negativeCoeffWidget ⟨1, 0⟩ ⟨0, 0⟩ 0 LEFT_EYE = none := by
  have hm : modeFlags negativeCoeffWidget.status = 0 := by decide
  have hl : linearStep negativeCoeffWidget ⟨1, 0⟩ ⟨0, 0⟩ LEFT_EYE = ⟨1, 0⟩ :=
    (linearStep_of_mode negativeCoeffWidget _ _ _).2 (Or.inl hm)
  have hd : specDenominator (widthNormalised negativeCoeffWidget 0 LEFT_EYE 0 2)
      (widthNormalised negativeCoeffWidget 0 LEFT_EYE 1 4)
      (widthNormalised negativeCoeffWidget 0 LEFT_EYE 2 6)
      (specR2 negativeCoeffWidget ⟨1, 0⟩ ⟨0, 0⟩ LEFT_EYE) = 0 := by
    have e1 : ((1 : Fin 3) = 0) = False := by decide
    have e2 : ((2 : Fin 3) = 0) = False := by decide
    simp only [specDenominator, widthNormalised, specR2, hl]
    norm_num [negativeCoeffWidget, viveWidget, e1, e2]
  refine ⟨by decide, ?_, ?_⟩
  · rw [codeDenominator_eq _ _ _ (by decide) _ (by decide), hd]
  · rw [transformPoint_eq_cull, preClip_closed_form _ _ _ (by decide) _ (by decide), hd]
    simp [fdiv]

/-- C6 (amended): for every bank whose three coefficients of the eye and channel used
are non-negative, every positive window width, every `cop` and every point, the
denominator `1 + k1*r^2 + k2*r^4 + k3*r^6` that `transformPoint` divides by is at least
1, hence non-zero, and the result is defined; for any bank the denominator is 1 when
the point entering the radial step is `cop` itself (`r = 0`). -/
theorem denominator_nonzero_of_nonneg (w : OpenGL_Widget) (p cop : QPointF) (color : Nat)
    (eye : StatusValues) (hc : color < 3) (hw : 0 < w.d_width) :
    ((∀ t, 0 ≤ w.NLT_Coeffecients (eyeIndex eye) (colorPlane color) t) →
        ∃ d, codeDenominator w (linearStep w p cop eye) cop color eye = some d
          ∧ 1 ≤ d ∧ d ≠ 0 ∧ (transformPoint w p cop color eye).isSome = true)
      ∧ (linearStep w p cop eye = cop →
        codeDenominator w (linearStep w p cop eye) cop color eye = some 1) := by
  have hw' : w.d_width ≠ 0 := ne_of_gt hw
  constructor
  · intro hk
    have hge : 1 ≤ specDenominator (widthNormalised w color eye 0 2)
        (widthNormalised w color eye 1 4) (widthNormalised w color eye 2 6)
        (specR2 w p cop eye) :=
      specDenominator_ge_one (widthNormalised_nonneg w color eye 0 2 (hk 0) (by decide))
        (widthNormalised_nonneg w color eye 1 4 (hk 1) (by decide))
        (widthNormalised_nonneg w color eye 2 6 (hk 2) (by decide))
        (specR2_nonneg w p cop eye)
    have hne : specDenominator (widthNormalised w color eye 0 2)
        (widthNormalised w color eye 1 4) (widthNormalised w color eye 2 6)
        (specR2 w p cop eye) ≠ 0 := by
      intro h0
      rw [h0] at hge
      norm_num at hge
    refine ⟨_, codeDenominator_eq w p cop hc eye hw', hge, hne, ?_⟩
    rw [transformPoint_eq_cull, preClip_closed_form w p cop hc eye hw', fdiv_of_ne _ hne]
    rfl
  · intro hq
    rw [codeDenominator_eq w p cop hc eye hw']
    have hr : specR2 w p cop eye = 0 := by
      unfold specR2
      rw [hq]
      ring
    rw [hr]
    simp [specDenominator]

/-- Witness of C6 (amended): width 2, all coefficients 1, `p = (3,1)`, `cop = (1,1)`:
the denominator is defined and at least 1. -/
theorem denominator_nonzero_of_nonneg_witness :
    ∃ d, codeDenominator unitCoeffWidget (linearStep unitCoeffWidget ⟨3, 1⟩ ⟨1, 1⟩ LEFT_EYE)
        ⟨1, 1⟩ 1 LEFT_EYE = some d
      ∧ 1 ≤ d ∧ d ≠ 0
      ∧ (transformPoint unitCoeffWidget ⟨3, 1⟩ ⟨1, 1⟩ 1 LEFT_EYE).isSome = true :=
  (denominator_nonzero_of_nonneg unitCoeffWidget ⟨3, 1⟩ ⟨1, 1⟩ 1 LEFT_EYE (by decide)
    (by decide)).1 (fun _ => by norm_num [unitCoeffWidget])

/-! ## Channel invariance (C7) -/

theorem transformPoint_congr_color (w : OpenGL_Widget) (p cop : QPointF) (c1 c2 : Nat)
    (eye : StatusValues) (h : lookupCoeffs w c1 eye = lookupCoeffs w c2 eye) :
    transformPoint w p cop c1 eye = transformPoint w p cop c2 eye := by
  unfold transformPoint transformPointPreClip radialStep
  rw [h]

/-- C7: for every eye, point, `cop` and state in which that eye's green, blue and red
coefficient triples are equal, `transformPoint` returns the same point for the colour
indices 0, 1 and 2. -/
theorem transformPoint_channel_invariant (w : OpenGL_Widget) (p cop : QPointF)
    (eye : StatusValues)
    (h : ∀ t, w.NLT_Coeffecients (eyeIndex eye) 0 t = w.NLT_Coeffecients (eyeIndex eye) 1 t
          ∧ w.NLT_Coeffecients (eyeIndex eye) 1 t = w.NLT_Coeffecients (eyeIndex eye) 2 t) :
    transformPoint w p cop 0 eye = transformPoint w p cop 1 eye
      ∧ transformPoint w p cop 1 eye = transformPoint w p cop 2 eye := by
  constructor
  · apply transformPoint_congr_color
    rw [lookupCoeffs_of_lt w (by decide) eye, lookupCoeffs_of_lt w (by decide) eye]
    simp [colorPlane, (h 0).1, (h 0).2, (h 1).1, (h 1).2, (h 2).1, (h 2).2]
  · apply transformPoint_congr_color
    rw [lookupCoeffs_of_lt w (by decide) eye, lookupCoeffs_of_lt w (by decide) eye]
    simp [colorPlane, (h 0).1, (h 0).2, (h 1).1, (h 1).2, (h 2).1, (h 2).2]

/-- Witness of C7: with all coefficients equal to 1 the three colours agree. -/
theorem transformPoint_channel_invariant_witness :
    transformPoint unitCoeffWidget ⟨3, 1⟩ ⟨1, 1⟩ 0 LEFT_EYE
        = transformPoint unitCoeffWidget ⟨3, 1⟩ ⟨1, 1⟩ 1 LEFT_EYE
      ∧ transformPoint unitCoeffWidget ⟨3, 1⟩ ⟨1, 1⟩ 1 LEFT_EYE
        = transformPoint unitCoeffWidget ⟨3, 1⟩ ⟨1, 1⟩ 2 LEFT_EYE :=
  transformPoint_channel_invariant unitCoeffWidget ⟨3, 1⟩ ⟨1, 1⟩ LEFT_EYE
    (fun _ => ⟨rfl, rfl⟩)

/-! ## The mode cycle (C8) -/

theorem setDeftCOPVals_status (w : OpenGL_Widget) : (setDeftCOPVals w).status = w.status := by
  unfold setDeftCOPVals
  split_ifs <;> rfl

theorem toggleLinearTransform_status (w : OpenGL_Widget) :
    (toggleLinearTransform w).status = toggleStatus w.status := by
  unfold toggleLinearTransform
  rw [setDeftCOPVals_status]

theorem toggleStatus_of_none {s : StatusValues} (h : modeFlags s = 0) :
    toggleStatus s = s ^^^ APPLY_LINEAR_TRANSFORM := by
  unfold toggleStatus
  rw [linear_flag_eq, center_flag_eq, aspect_flag_eq, h]
  simp

theorem toggleStatus_of_linear {s : StatusValues} (h : modeFlags s = APPLY_LINEAR_TRANSFORM) :
    toggleStatus s = (s ^^^ APPLY_LINEAR_TRANSFORM) ^^^ ONLY_CENTER_CORRECT := by
  unfold toggleStatus
  rw [linear_flag_eq, h]
  simp

theorem toggleStatus_of_center {s : StatusValues} (h : modeFlags s = ONLY_CENTER_CORRECT) :
    toggleStatus s = (s ^^^ ONLY_CENTER_CORRECT) ^^^ ONLY_ASEPECT_RATIO := by
  unfold toggleStatus
  rw [linear_flag_eq, center_flag_eq, h]
  simp

theorem toggleStatus_of_aspect {s : StatusValues} (h : modeFlags s = ONLY_ASEPECT_RATIO) :
    toggleStatus s = s ^^^ ONLY_ASEPECT_RATIO := by
  unfold toggleStatus
  rw [linear_flag_eq, center_flag_eq, aspect_flag_eq, h]
  simp

theorem modeFlags_xor (s f : StatusValues) :
    modeFlags (s ^^^ f) = modeFlags s ^^^ (f &&& modeMask) := by
  unfold modeFlags
  rw [Nat.and_xor_distrib_right]

theorem selection_xor (s f : StatusValues) (hf : f &&& selectionMask = 0) :
    (s ^^^ f) &&& selectionMask = s &&& selectionMask := by
  rw [Nat.and_xor_distrib_right, hf, Nat.xor_zero]

theorem toggleStatus_mode {s : StatusValues} (hv : validMode s) :
    modeFlags (toggleStatus s) = nextMode (modeFlags s) := by
  rcases hv with h | h | h | h
  · rw [toggleStatus_of_none h, modeFlags_xor, h]
    decide
  · rw [toggleStatus_of_linear h, modeFlags_xor, modeFlags_xor, h]
    decide
  · rw [toggleStatus_of_center h, modeFlags_xor, modeFlags_xor, h]
    decide
  · rw [toggleStatus_of_aspect h, modeFlags_xor, h]
    decide

theorem toggleStatus_selection (s : StatusValues) :
    toggleStatus s &&& selectionMask = s &&& selectionMask := by
  unfold toggleStatus
  split_ifs <;>
    simp only [selection_xor _ APPLY_LINEAR_TRANSFORM (by decide),
      selection_xor _ ONLY_CENTER_CORRECT (by decide),
      selection_xor _ ONLY_ASEPECT_RATIO (by decide)]

theorem toggleStatus_valid {s : StatusValues} (hv : validMode s) :
    validMode (toggleStatus s) := by
  have h := toggleStatus_mode hv
  unfold validMode
  rw [h]
  rcases hv with h' | h' | h' | h' <;> rw [h'] <;> decide

/-- C8: for every state with a valid mode `toggleLinearTransform` advances the mode in
the cycle None → LinearFull → CenterOnly → AspectOnly → None (mode flags
0 → 256 → 512 → 1024 → 0) and leaves the eye, channel and term selection flags
unchanged. -/
theorem toggleLinearTransform_cycle (w : OpenGL_Widget) (hv : validMode w.status) :
    modeFlags (toggleLinearTransform w).status = nextMode (modeFlags w.status)
      ∧ (modeFlags w.status = 0 → modeFlags (toggleLinearTransform w).status = 256)
      ∧ (modeFlags w.status = 256 → modeFlags (toggleLinearTransform w).status = 512)
      ∧ (modeFlags w.status = 512 → modeFlags (toggleLinearTransform w).status = 1024)
      ∧ (modeFlags w.status = 1024 → modeFlags (toggleLinearTransform w).status = 0)
      ∧ (toggleLinearTransform w).status &&& selectionMask = w.status &&& selectionMask := by
  rw [toggleLinearTransform_status]
  have h := toggleStatus_mode hv
  refine ⟨h, ?_, ?_, ?_, ?_, toggleStatus_selection w.status⟩ <;>
    · intro hm
      rw [h, hm]
      decide

/-- Witness of C8: the Vive window in mode None (flag word 255) moves to LinearFull
(mode flags 256) with its selection flags intact. -/
theorem toggleLinearTransform_cycle_witness :
    modeFlags (toggleLinearTransform viveWidget).status = 256
      ∧ (toggleLinearTransform viveWidget).status &&& selectionMask = 255 := by
  have h := toggleLinearTransform_cycle viveWidget (by decide)
  exact ⟨h.2.1 (by decide), h.2.2.2.2.2.trans (by decide)⟩

/-! ## Toggling and the centres of projection (C9, C10) -/

theorem setDeftCOPVals_of_linear (w : OpenGL_Widget) (hp : ¬ backupsAtOrigin w)
    (hm : modeFlags w.status = APPLY_LINEAR_TRANSFORM) :
    setDeftCOPVals w
      = { w with
          d_cop_l_Prev := w.d_cop_l, d_cop_r_Prev := w.d_cop_r,
          d_cop_l := derivedCopL w, d_cop_r := derivedCopR w } := by
  unfold backupsAtOrigin at hp
  unfold setDeftCOPVals
  rw [if_neg hp, linear_flag_eq, center_flag_eq, hm]
  simp [derivedCopL, derivedCopR]

theorem setDeftCOPVals_of_center (w : OpenGL_Widget) (hp : ¬ backupsAtOrigin w)
    (hm : modeFlags w.status = ONLY_CENTER_CORRECT) :
    setDeftCOPVals w = { w with d_cop_l := derivedCopL w, d_cop_r := derivedCopR w } := by
  unfold backupsAtOrigin at hp
  unfold setDeftCOPVals
  rw [if_neg hp, linear_flag_eq, center_flag_eq, hm]
  simp [derivedCopL, derivedCopR]

theorem setDeftCOPVals_of_manual (w : OpenGL_Widget) (hp : ¬ backupsAtOrigin w)
    (hm : modeFlags w.status = 0 ∨ modeFlags w.status = ONLY_ASEPECT_RATIO) :
    setDeftCOPVals w = { w with d_cop_l := w.d_cop_l_Prev, d_cop_r := w.d_cop_r_Prev } := by
  unfold backupsAtOrigin at hp
  unfold setDeftCOPVals
  rw [if_neg hp, linear_flag_eq, center_flag_eq]
  rcases hm with hm | hm <;> rw [hm] <;> simp

theorem mode_after_none {s : StatusValues} (h : modeFlags s = 0) :
    modeFlags (toggleStatus s) = APPLY_LINEAR_TRANSFORM := by
  rw [toggleStatus_mode (Or.inl h), h]
  decide

theorem mode_after_linear {s : StatusValues} (h : modeFlags s = APPLY_LINEAR_TRANSFORM) :
    modeFlags (toggleStatus s) = ONLY_CENTER_CORRECT := by
  rw [toggleStatus_mode (Or.inr (Or.inl h)), h]
  decide

theorem mode_after_center {s : StatusValues} (h : modeFlags s = ONLY_CENTER_CORRECT) :
    modeFlags (toggleStatus s) = ONLY_ASEPECT_RATIO := by
  rw [toggleStatus_mode (Or.inr (Or.inr (Or.inl h))), h]
  decide

theorem mode_after_aspect {s : StatusValues} (h : modeFlags s = ONLY_ASEPECT_RATIO) :
    modeFlags (toggleStatus s) = 0 := by
  rw [toggleStatus_mode (Or.inr (Or.inr (Or.inr h))), h]
  decide

theorem toggle_of_none (w : OpenGL_Widget) (hm : modeFlags w.status = 0)
    (hp : ¬ backupsAtOrigin w) :
    toggleLinearTransform w
      = { w with
          status := toggleStatus w.status,
          d_cop_l_Prev := w.d_cop_l, d_cop_r_Prev := w.d_cop_r,
          d_cop_l := derivedCopL w, d_cop_r := derivedCopR w } := by
  unfold toggleLinearTransform
  rw [setDeftCOPVals_of_linear { w with status := toggleStatus w.status } hp
    (mode_after_none hm)]
  rfl

theorem toggle_of_linear (w : OpenGL_Widget) (hm : modeFlags w.status = APPLY_LINEAR_TRANSFORM)
    (hp : ¬ backupsAtOrigin w) :
    toggleLinearTransform w
      = { w with
          status := toggleStatus w.status,
          d_cop_l := derivedCopL w, d_cop_r := derivedCopR w } := by
  unfold toggleLinearTransform
  rw [setDeftCOPVals_of_center { w with status := toggleStatus w.status } hp
    (mode_after_linear hm)]
  rfl

theorem toggle_of_center (w : OpenGL_Widget) (hm : modeFlags w.status = ONLY_CENTER_CORRECT)
    (hp : ¬ backupsAtOrigin w) :
    toggleLinearTransform w
      = { w with
          status := toggleStatus w.status,
          d_cop_l := w.d_cop_l_Prev, d_cop_r := w.d_cop_r_Prev } := by
  unfold toggleLinearTransform
  rw [setDeftCOPVals_of_manual { w with status := toggleStatus w.status } hp
    (Or.inr (mode_after_center hm))]

theorem toggle_of_aspect (w : OpenGL_Widget) (hm : modeFlags w.status = ONLY_ASEPECT_RATIO)
    (hp : ¬ backupsAtOrigin w) :
    toggleLinearTransform w
      = { w with
          status := toggleStatus w.status,
          d_cop_l := w.d_cop_l_Prev, d_cop_r := w.d_cop_r_Prev } := by
  unfold toggleLinearTransform
  rw [setDeftCOPVals_of_manual { w with status := toggleStatus w.status } hp
    (Or.inl (mode_after_aspect hm))]

/-- What one press of the toggle key leaves in place and what it yields, for a state
`w` and its successor `v`. -/
theorem toggle_fields_none (w : OpenGL_Widget) (hm : modeFlags w.status = 0)
    (hp : ¬ backupsAtOrigin w) :
    modeFlags (toggleLinearTransform w).status = APPLY_LINEAR_TRANSFORM
      ∧ derivedCopL (toggleLinearTransform w) = derivedCopL w
      ∧ derivedCopR (toggleLinearTransform w) = derivedCopR w
      ∧ (toggleLinearTransform w).d_cop_l_Prev = w.d_cop_l
      ∧ (toggleLinearTransform w).d_cop_r_Prev = w.d_cop_r
      ∧ (toggleLinearTransform w).d_cop_l = derivedCopL w
      ∧ (toggleLinearTransform w).d_cop_r = derivedCopR w := by
  rw [toggle_of_none w hm hp]
  exact ⟨mode_after_none hm, rfl, rfl, rfl, rfl, rfl, rfl⟩

theorem toggle_fields_linear (w : OpenGL_Widget)
    (hm : modeFlags w.status = APPLY_LINEAR_TRANSFORM) (hp : ¬ backupsAtOrigin w) :
    modeFlags (toggleLinearTransform w).status = ONLY_CENTER_CORRECT
      ∧ derivedCopL (toggleLinearTransform w) = derivedCopL w
      ∧ derivedCopR (toggleLinearTransform w) = derivedCopR w
      ∧ (toggleLinearTransform w).d_cop_l_Prev = w.d_cop_l_Prev
      ∧ (toggleLinearTransform w).d_cop_r_Prev = w.d_cop_r_Prev
      ∧ (toggleLinearTransform w).d_cop_l = derivedCopL w
      ∧ (toggleLinearTransform w).d_cop_r = derivedCopR w := by
  rw [toggle_of_linear w hm hp]
  exact ⟨mode_after_linear hm, rfl, rfl, rfl, rfl, rfl, rfl⟩

theorem toggle_fields_center (w : OpenGL_Widget)
    (hm : modeFlags w.status = ONLY_CENTER_CORRECT) (hp : ¬ backupsAtOrigin w) :
    modeFlags (toggleLinearTransform w).status = ONLY_ASEPECT_RATIO
      ∧ derivedCopL (toggleLinearTransform w) = derivedCopL w
      ∧ derivedCopR (toggleLinearTransform w) = derivedCopR w
      ∧ (toggleLinearTransform w).d_cop_l_Prev = w.d_cop_l_Prev
      ∧ (toggleLinearTransform w).d_cop_r_Prev = w.d_cop_r_Prev
      ∧ (toggleLinearTransform w).d_cop_l = w.d_cop_l_Prev
      ∧ (toggleLinearTransform w).d_cop_r = w.d_cop_r_Prev := by
  rw [toggle_of_center w hm hp]
  exact ⟨mode_after_center hm, rfl, rfl, rfl, rfl, rfl, rfl⟩

theorem toggle_fields_aspect (w : OpenGL_Widget)
    (hm : modeFlags w.status = ONLY_ASEPECT_RATIO) (hp : ¬ backupsAtOrigin w) :
    modeFlags (toggleLinearTransform w).status = 0
      ∧ derivedCopL (toggleLinearTransform w) = derivedCopL w
      ∧ derivedCopR (toggleLinearTransform w) = derivedCopR w
      ∧ (toggleLinearTransform w).d_cop_l_Prev = w.d_cop_l_Prev
      ∧ (toggleLinearTransform w).d_cop_r_Prev = w.d_cop_r_Prev
      ∧ (toggleLinearTransform w).d_cop_l = w.d_cop_l_Prev
      ∧ (toggleLinearTransform w).d_cop_r = w.d_cop_r_Prev := by
  rw [toggle_of_aspect w hm hp]
  exact ⟨mode_after_aspect hm, rfl, rfl, rfl, rfl, rfl, rfl⟩

theorem backups_of_eq {v w : OpenGL_Widget} (hl : v.d_cop_l_Prev = w.d_cop_l_Prev)
    (hr : v.d_cop_r_Prev = w.d_cop_r_Prev) (hp : ¬ backupsAtOrigin w) :
    ¬ backupsAtOrigin v := by
  unfold backupsAtOrigin at hp ⊢
  rw [hl, hr]
  exact hp

theorem toggleFourTimes_status (w : OpenGL_Widget) :
    (toggleFourTimes w).status
      = toggleStatus (toggleStatus (toggleStatus (toggleStatus w.status))) := by
  unfold toggleFourTimes
  simp only [toggleLinearTransform_status]

theorem toggleFourTimes_mode (w : OpenGL_Widget) (hv : validMode w.status) :
    modeFlags (toggleFourTimes w).status = modeFlags w.status := by
  rw [toggleFourTimes_status]
  rcases hv with h | h | h | h
  · rw [mode_after_aspect (mode_after_center (mode_after_linear (mode_after_none h))), h]
  · rw [mode_after_none (mode_after_aspect (mode_after_center (mode_after_linear h))), h]
  · rw [mode_after_linear (mode_after_none (mode_after_aspect (mode_after_center h))), h]
  · rw [mode_after_center (mode_after_linear (mode_after_none (mode_after_aspect h))), h]

theorem toggleFourTimes_cop_of_none (w : OpenGL_Widget) (hm : modeFlags w.status = 0)
    (hp : ¬ backupsAtOrigin w) (hc : ¬ copsAtOrigin w) :
    (toggleFourTimes w).d_cop_l = w.d_cop_l ∧ (toggleFourTimes w).d_cop_r = w.d_cop_r
      ∧ (toggleFourTimes w).d_cop_l_Prev = w.d_cop_l
      ∧ (toggleFourTimes w).d_cop_r_Prev = w.d_cop_r := by
  obtain ⟨m1, -, -, pl1, pr1, -, -⟩ := toggle_fields_none w hm hp
  have hp1 : ¬ backupsAtOrigin (toggleLinearTransform w) := by
    unfold backupsAtOrigin
    rw [pl1, pr1]
    exact hc
  obtain ⟨m2, -, -, pl2, pr2, -, -⟩ := toggle_fields_linear _ m1 hp1
  have hp2 := backups_of_eq pl2 pr2 hp1
  obtain ⟨m3, -, -, pl3, pr3, -, -⟩ := toggle_fields_center _ m2 hp2
  have hp3 := backups_of_eq pl3 pr3 hp2
  obtain ⟨-, -, -, pl4, pr4, cl4, cr4⟩ := toggle_fields_aspect _ m3 hp3
  unfold toggleFourTimes
  rw [cl4, cr4, pl4, pr4, pl3, pr3, pl2, pr2, pl1, pr1]
  exact ⟨rfl, rfl, rfl, rfl⟩

theorem toggleFourTimes_cop_of_linear (w : OpenGL_Widget)
    (hm : modeFlags w.status = APPLY_LINEAR_TRANSFORM) (hp : ¬ backupsAtOrigin w) :
    (toggleFourTimes w).d_cop_l = derivedCopL w ∧ (toggleFourTimes w).d_cop_r = derivedCopR w := by
  obtain ⟨m1, dl1, dr1, pl1, pr1, -, -⟩ := toggle_fields_linear w hm hp
  have hp1 := backups_of_eq pl1 pr1 hp
  obtain ⟨m2, dl2, dr2, pl2, pr2, -, -⟩ := toggle_fields_center _ m1 hp1
  have hp2 := backups_of_eq pl2 pr2 hp1
  obtain ⟨m3, dl3, dr3, pl3, pr3, -, -⟩ := toggle_fields_aspect _ m2 hp2
  have hp3 := backups_of_eq pl3 pr3 hp2
  obtain ⟨-, -, -, -, -, cl4, cr4⟩ := toggle_fields_none _ m3 hp3
  unfold toggleFourTimes
  rw [cl4, cr4, dl3, dr3, dl2, dr2, dl1, dr1]
  exact ⟨rfl, rfl⟩

theorem toggleFourTimes_cop_of_center (w : OpenGL_Widget)
    (hm : modeFlags w.status = ONLY_CENTER_CORRECT) (hp : ¬ backupsAtOrigin w) :
    (toggleFourTimes w).d_cop_l = derivedCopL w ∧ (toggleFourTimes w).d_cop_r = derivedCopR w := by
  obtain ⟨m1, dl1, dr1, pl1, pr1, -, -⟩ := toggle_fields_center w hm hp
  have hp1 := backups_of_eq pl1 pr1 hp
  obtain ⟨m2, dl2, dr2, pl2, pr2, -, -⟩ := toggle_fields_aspect _ m1 hp1
  have hp2 := backups_of_eq pl2 pr2 hp1
  obtain ⟨m3, dl3, dr3, -, -, cl3, cr3⟩ := toggle_fields_none _ m2 hp2
  have hp3 : ¬ backupsAtOrigin
      (toggleLinearTransform (toggleLinearTransform (toggleLinearTransform w))) := by
    obtain ⟨-, -, -, pl3, pr3, -, -⟩ := toggle_fields_none _ m2 hp2
    obtain ⟨-, -, -, -, -, cl2, cr2⟩ := toggle_fields_aspect _ m1 hp1
    unfold backupsAtOrigin
    rw [pl3, pr3, cl2, cr2, pl1, pr1]
    exact hp
  obtain ⟨-, -, -, -, -, cl4, cr4⟩ := toggle_fields_linear _ m3 hp3
  unfold toggleFourTimes
  rw [cl4, cr4, dl3, dr3, dl2, dr2, dl1, dr1]
  exact ⟨rfl, rfl⟩

theorem toggleFourTimes_cop_of_aspect (w : OpenGL_Widget)
    (hm : modeFlags w.status = ONLY_ASEPECT_RATIO) (hp : ¬ backupsAtOrigin w) :
    (toggleFourTimes w).d_cop_l = w.d_cop_l_Prev
      ∧ (toggleFourTimes w).d_cop_r = w.d_cop_r_Prev := by
  obtain ⟨m1, -, -, pl1, pr1, cl1, cr1⟩ := toggle_fields_aspect w hm hp
  have hp1 := backups_of_eq pl1 pr1 hp
  obtain ⟨m2, -, -, pl2, pr2, -, -⟩ := toggle_fields_none _ m1 hp1
  have hp2 : ¬ backupsAtOrigin (toggleLinearTransform (toggleLinearTransform w)) := by
    unfold backupsAtOrigin
    rw [pl2, pr2, cl1, cr1]
    exact hp
  obtain ⟨m3, -, -, pl3, pr3, -, -⟩ := toggle_fields_linear _ m2 hp2
  have hp3 := backups_of_eq pl3 pr3 hp2
  obtain ⟨-, -, -, -, -, cl4, cr4⟩ := toggle_fields_center _ m3 hp3
  unfold toggleFourTimes
  rw [cl4, cr4, pl3, pr3, pl2, pr2, cl1, cr1]
  exact ⟨rfl, rfl⟩

theorem viveWidget_backups : ¬ backupsAtOrigin viveWidget := by
  rintro ⟨h, -⟩
  refine not_operator_eq_origin_of_one_le (Or.inl ?_) h
  norm_num [viveWidget]

theorem viveWidget_cops : ¬ copsAtOrigin viveWidget := by
  rintro ⟨h, -⟩
  refine not_operator_eq_origin_of_one_le (Or.inl ?_) h
  norm_num [viveWidget]

/-- Counterexample to C9, on two states with a valid mode. The Vive window in mode
AspectOnly whose centres were nudged by one pixel (live centres (539, 600) and
(1621, 600), backups (540, 600) and (1620, 600)) ends four toggles later with the
centres at the backups. The Vive window in mode LinearFull with centre-offset terms
1/10 whose centres were reset to (540, 600) and (1620, 600) ends four toggles later
with the intrinsics-derived left centre (594, 660). -/
theorem toggle_four_times_counterexample :
    validMode nudgedAspectWidget.status
      ∧ nudgedAspectWidget.d_cop_l = ⟨539, 600⟩
      ∧ (toggleFourTimes nudgedAspectWidget).d_cop_l = ⟨540, 600⟩
      ∧ (toggleFourTimes nudgedAspectWidget).d_cop_l ≠ nudgedAspectWidget.d_cop_l
      ∧ validMode resetLinearFullWidget.status
      ∧ resetLinearFullWidget.d_cop_l = ⟨540, 600⟩
      ∧ (toggleFourTimes resetLinearFullWidget).d_cop_l = ⟨594, 660⟩
      ∧ (toggleFourTimes resetLinearFullWidget).d_cop_l ≠ resetLinearFullWidget.d_cop_l := by
  have hp : ¬ backupsAtOrigin nudgedAspectWidget := viveWidget_backups
  have h := toggleFourTimes_cop_of_aspect nudgedAspectWidget (by decide) hp
  have hp2 : ¬ backupsAtOrigin resetLinearFullWidget := viveWidget_backups
  have h2 := (toggleFourTimes_cop_of_linear resetLinearFullWidget (by decide) hp2).1
  have hd : derivedCopL resetLinearFullWidget = ⟨594, 660⟩ := by
    have q1 : Int.tdiv resetLinearFullWidget.d_width 4 = 540 := by decide
    have q3 : Int.tdiv resetLinearFullWidget.d_height 2 = 600 := by decide
    have qi : resetLinearFullWidget.Intrinsics = fun _ _ _ => 1 / 10 := rfl
    unfold derivedCopL
    rw [q1, q3, qi]
    norm_num
  rw [hd] at h2
  refine ⟨by decide, rfl, h.1, ?_, by decide, rfl, h2, ?_⟩
  · rw [h.1]
    intro hx
    have hx' := congrArg QPointF.x hx
    norm_num [nudgedAspectWidget, viveWidget] at hx'
  · rw [h2]
    intro hx
    have hx' := congrArg QPointF.x hx
    norm_num [resetLinearFullWidget, offsetIntrinsicsWidget, viveWidget] at hx'

/-- C9 (amended): for every state with a valid mode, four consecutive toggles return the
transform mode to its original value; they leave both centres of projection equal to
their values before the first toggle when the backups do not both compare equal to the
origin (Qt's `operator==` of line 627: both coordinates within `1e-12` of zero) and the
live centres are the ones of the mode (None: manual centres that do not both compare
equal to the origin; LinearFull, CenterOnly: the intrinsics-derived centres; AspectOnly:
the backed-up centres). -/
theorem toggle_four_times_restores (w : OpenGL_Widget) (hv : validMode w.status) :
    modeFlags (toggleFourTimes w).status = modeFlags w.status
      ∧ (¬ backupsAtOrigin w → liveCopOfMode w →
          (toggleFourTimes w).d_cop_l = w.d_cop_l ∧ (toggleFourTimes w).d_cop_r = w.d_cop_r) := by
  refine ⟨toggleFourTimes_mode w hv, fun hp hl => ?_⟩
  obtain ⟨hn, hd, ha⟩ := hl
  rcases hv with h | h | h | h
  · have r := toggleFourTimes_cop_of_none w h hp (hn h)
    exact ⟨r.1, r.2.1⟩
  · have r := toggleFourTimes_cop_of_linear w h hp
    have e := hd (Or.inl h)
    exact ⟨r.1.trans e.1.symm, r.2.trans e.2.symm⟩
  · have r := toggleFourTimes_cop_of_center w h hp
    have e := hd (Or.inr h)
    exact ⟨r.1.trans e.1.symm, r.2.trans e.2.symm⟩
  · have r := toggleFourTimes_cop_of_aspect w h hp
    have e := ha h
    exact ⟨r.1.trans e.1.symm, r.2.trans e.2.symm⟩

/-- Witness of C9 (amended): the Vive window in mode None with centres (540, 600) and
(1620, 600) is back in mode None with the same centres after four toggles. -/
theorem toggle_four_times_restores_witness :
    modeFlags (toggleFourTimes viveWidget).status = 0
      ∧ (toggleFourTimes viveWidget).d_cop_l = ⟨540, 600⟩
      ∧ (toggleFourTimes viveWidget).d_cop_r = ⟨1620, 600⟩ := by
  have h := toggle_four_times_restores viveWidget (by decide)
  have hl : liveCopOfMode viveWidget := by
    refine ⟨fun _ => viveWidget_cops, fun hm => ?_, fun hm => ?_⟩
    · exact absurd hm (by decide)
    · exact absurd hm (by decide)
  exact ⟨h.1, h.2 viveWidget_backups hl⟩

/-- C10 (amended): for every state in mode None whose two backups do not both compare
equal to the origin (Qt's `operator==` of line 627: both coordinates within `1e-12` of
zero), the toggle command enters LinearFull, stores the centre of each eye in its backup
and sets the centres to the intrinsics-derived values
`(CxL + CxL*Intrinsics[0][0][2], Cy + Cy*Intrinsics[0][1][2])` and
`(CxR + CxR*Intrinsics[1][0][2], Cy + Cy*Intrinsics[1][1][2])` with `CxL = width/4`,
`CxR = width/2 + width/4`, `Cy = height/2` (integer quotients). -/
theorem toggle_enters_linear_full (w : OpenGL_Widget) (hm : modeFlags w.status = 0)
    (hp : ¬ backupsAtOrigin w) :
    modeFlags (toggleLinearTransform w).status = APPLY_LINEAR_TRANSFORM
      ∧ (toggleLinearTransform w).d_cop_l_Prev = w.d_cop_l
      ∧ (toggleLinearTransform w).d_cop_r_Prev = w.d_cop_r
      ∧ (toggleLinearTransform w).d_cop_l
          = ⟨((Int.tdiv w.d_width 4 : Int) : ℚ)
                + ((Int.tdiv w.d_width 4 : Int) : ℚ) * w.Intrinsics 0 0 2,
             ((Int.tdiv w.d_height 2 : Int) : ℚ)
                + ((Int.tdiv w.d_height 2 : Int) : ℚ) * w.Intrinsics 0 1 2⟩
      ∧ (toggleLinearTransform w).d_cop_r
          = ⟨(((Int.tdiv w.d_width 2 : Int) : ℚ) + ((Int.tdiv w.d_width 4 : Int) : ℚ))
                + (((Int.tdiv w.d_width 2 : Int) : ℚ) + ((Int.tdiv w.d_width 4 : Int) : ℚ))
                  * w.Intrinsics 1 0 2,
             ((Int.tdiv w.d_height 2 : Int) : ℚ)
                + ((Int.tdiv w.d_height 2 : Int) : ℚ) * w.Intrinsics 1 1 2⟩ := by
  obtain ⟨m1, -, -, pl1, pr1, cl1, cr1⟩ := toggle_fields_none w hm hp
  exact ⟨m1, pl1, pr1, cl1, cr1⟩

/-- Witness of C10 (amended): width 2160, height 1200, centre-offset terms 1/10, manual centres
(540, 600) and (1620, 600): the toggle enters LinearFull with centres (594, 660) and
(1782, 660) and the manual centres in the backups. -/
theorem toggle_enters_linear_full_witness :
    modeFlags (toggleLinearTransform offsetIntrinsicsWidget).status = 256
      ∧ (toggleLinearTransform offsetIntrinsicsWidget).d_cop_l_Prev = ⟨540, 600⟩
      ∧ (toggleLinearTransform offsetIntrinsicsWidget).d_cop_r_Prev = ⟨1620, 600⟩
      ∧ (toggleLinearTransform offsetIntrinsicsWidget).d_cop_l = ⟨594, 660⟩
      ∧ (toggleLinearTransform offsetIntrinsicsWidget).d_cop_r = ⟨1782, 660⟩ := by
  obtain ⟨h1, h2, h3, h4, h5⟩ :=
    toggle_enters_linear_full offsetIntrinsicsWidget (by decide) viveWidget_backups
  have q1 : Int.tdiv offsetIntrinsicsWidget.d_width 4 = 540 := by decide
  have q2 : Int.tdiv offsetIntrinsicsWidget.d_width 2 = 1080 := by decide
  have q3 : Int.tdiv offsetIntrinsicsWidget.d_height 2 = 600 := by decide
  have qi : offsetIntrinsicsWidget.Intrinsics = fun _ _ _ => 1 / 10 := rfl
  rw [q1, q3, qi] at h4
  rw [q1, q2, q3, qi] at h5
  refine ⟨h1, h2, h3, ?_, ?_⟩
  · rw [h4]
    norm_num
  · rw [h5]
    norm_num

/-! ## Entering AspectOnly (C11) -/

theorem toggle_intrinsics (w : OpenGL_Widget) :
    (toggleLinearTransform w).Intrinsics = w.Intrinsics
      ∧ (toggleLinearTransform w).d_width = w.d_width
      ∧ (toggleLinearTransform w).d_height = w.d_height := by
  unfold toggleLinearTransform setDeftCOPVals
  split_ifs <;> exact ⟨rfl, rfl, rfl⟩

theorem centerOnlyWidget_derived :
    derivedCopL centerOnlyWidget = ⟨594, 660⟩ ∧ derivedCopR centerOnlyWidget = ⟨1782, 660⟩ := by
  have q1 : Int.tdiv centerOnlyWidget.d_width 4 = 540 := by decide
  have q2 : Int.tdiv centerOnlyWidget.d_width 2 = 1080 := by decide
  have q3 : Int.tdiv centerOnlyWidget.d_height 2 = 600 := by decide
  have qi : centerOnlyWidget.Intrinsics = fun _ _ _ => 1 / 10 := rfl
  unfold derivedCopL derivedCopR
  rw [q1, q2, q3, qi]
  constructor <;> norm_num

/-- Counterexample to C11: the Vive window in mode CenterOnly with centre-offset terms
1/10 has the intrinsics-derived centres (594, 660) and (1782, 660); the toggle that
enters AspectOnly sets them to the backed-up manual centres (540, 600) and
(1620, 600), which are not the intrinsics-derived points. -/
theorem toggle_enters_aspect_counterexample :
    modeFlags centerOnlyWidget.status = ONLY_CENTER_CORRECT
      ∧ centerOnlyWidget.d_cop_l = derivedCopL centerOnlyWidget
      ∧ centerOnlyWidget.d_cop_r = derivedCopR centerOnlyWidget
      ∧ modeFlags (toggleLinearTransform centerOnlyWidget).status = ONLY_ASEPECT_RATIO
      ∧ (toggleLinearTransform centerOnlyWidget).d_cop_l = ⟨540, 600⟩
      ∧ (toggleLinearTransform centerOnlyWidget).d_cop_r = ⟨1620, 600⟩
      ∧ (toggleLinearTransform centerOnlyWidget).d_cop_l ≠ centerOnlyWidget.d_cop_l
      ∧ (toggleLinearTransform centerOnlyWidget).d_cop_l
          ≠ derivedCopL (toggleLinearTransform centerOnlyWidget) := by
  have hp : ¬ backupsAtOrigin centerOnlyWidget := viveWidget_backups
  obtain ⟨m1, dl, -, -, -, cl, cr⟩ := toggle_fields_center centerOnlyWidget (by decide) hp
  have hd := centerOnlyWidget_derived
  have hne : (⟨540, 600⟩ : QPointF) ≠ ⟨594, 660⟩ := by
    intro h
    have hx := congrArg QPointF.x h
    norm_num at hx
  refine ⟨by decide, hd.1.symm, hd.2.symm, m1, cl, cr, ?_, ?_⟩
  · rw [cl]
    exact hne
  · rw [cl, dl, hd.1]
    exact hne

/-- C11 (amended): for every state in mode CenterOnly whose backups do not both compare
equal to the origin (Qt's `operator==` of line 627: both coordinates within `1e-12` of
zero), the toggle command enters AspectOnly and sets both eyes' COP to the backed-up
manual centres `d_cop_l_Prev`, `d_cop_r_Prev` (not the intrinsics-derived points); the
backups, the intrinsics and the window size are unchanged. -/
theorem toggle_enters_aspect_restores_backup (w : OpenGL_Widget)
    (hm : modeFlags w.status = ONLY_CENTER_CORRECT) (hp : ¬ backupsAtOrigin w) :
    modeFlags (toggleLinearTransform w).status = ONLY_ASEPECT_RATIO
      ∧ (toggleLinearTransform w).d_cop_l = w.d_cop_l_Prev
      ∧ (toggleLinearTransform w).d_cop_r = w.d_cop_r_Prev
      ∧ (toggleLinearTransform w).d_cop_l_Prev = w.d_cop_l_Prev
      ∧ (toggleLinearTransform w).d_cop_r_Prev = w.d_cop_r_Prev
      ∧ (toggleLinearTransform w).Intrinsics = w.Intrinsics := by
  obtain ⟨m1, -, -, pl, pr, cl, cr⟩ := toggle_fields_center w hm hp
  exact ⟨m1, cl, cr, pl, pr, (toggle_intrinsics w).1⟩

/-- Witness of C11 (amended): the CenterOnly Vive window with centres (594, 660) and
(1782, 660) enters AspectOnly with the manual centres (540, 600) and (1620, 600). -/
theorem toggle_enters_aspect_restores_backup_witness :
    modeFlags (toggleLinearTransform centerOnlyWidget).status = 1024
      ∧ (toggleLinearTransform centerOnlyWidget).d_cop_l = ⟨540, 600⟩
      ∧ (toggleLinearTransform centerOnlyWidget).d_cop_r = ⟨1620, 600⟩ := by
  obtain ⟨h1, h2, h3, -⟩ :=
    toggle_enters_aspect_restores_backup centerOnlyWidget (by decide) viveWidget_backups
  exact ⟨h1, h2, h3⟩

/-! ## Adjusting the coefficients (C12, C13) -/

theorem adjustCell_apply (w : OpenGL_Widget) (direction : Int) (fe fc ft : StatusValues)
    (e : Fin 2) (c k : Fin 3) (t : Fin 2 → Fin 3 → Fin 3 → ℚ) (e' : Fin 2) (c' k' : Fin 3) :
    adjustCell w direction fe fc ft e c k t e' c' k'
      = if (e' = e ∧ c' = c ∧ k' = k)
            ∧ ((w.status &&& fe) ≠ 0 ∧ (w.status &&& fc) ≠ 0 ∧ (w.status &&& ft) ≠ 0) then
          w.NLT_Coeffecients e c k * ((|direction| : Int) : ℚ)
            + w.coeffecientOffset * (direction : ℚ)
        else t e' c' k' := by
  unfold adjustCell setEntry
  by_cases hs : (w.status &&& fe) ≠ 0 ∧ (w.status &&& fc) ≠ 0 ∧ (w.status &&& ft) ≠ 0
  · by_cases hc : e' = e ∧ c' = c ∧ k' = k
    · rw [if_pos hs, if_pos hc, if_pos ⟨hc, hs⟩]
    · rw [if_pos hs, if_neg hc, if_neg (fun h => hc h.1)]
  · rw [if_neg hs, if_neg (fun h => hs h.2)]

/-- The bank after `adjustCoeffecients`, cell by cell. -/
theorem adjustCoeffecients_cell (w : OpenGL_Widget) (direction : Int) (e : Fin 2)
    (c t : Fin 3) :
    (adjustCoeffecients w direction).NLT_Coeffecients e c t
      = if cellSelected w.status e c t then
          w.NLT_Coeffecients e c t * ((|direction| : Int) : ℚ)
            + w.coeffecientOffset * (direction : ℚ)
        else w.NLT_Coeffecients e c t := by
  unfold adjustCoeffecients
  simp only [Bool.not_false, if_true, adjustCell_apply]
  fin_cases e <;> fin_cases c <;> fin_cases t <;>
    simp [cellSelected, eyeFlag, colorFlag, termFlag]

theorem adjustCoeffecients_frame (w : OpenGL_Widget) (direction : Int) :
    adjustCoeffecients w direction
      = { w with NLT_Coeffecients := (adjustCoeffecients w direction).NLT_Coeffecients } := by
  unfold adjustCoeffecients
  simp only [Bool.not_false, if_true]

/-- C12: for every state and every direction `d` (in particular -1, 0 and +1),
`adjustCoeffecients` sets each cell `NLT_Coeffecients[eye][channel][term]` whose eye
flag, channel flag and term flag are all set to `old*|d| + stepSize*d`, leaves every
other cell of the 2x3x3 bank unchanged, always commits the batch, and changes no other
session state. -/
theorem adjustCoeffecients_selected_cells (w : OpenGL_Widget) (d : Int) :
    (∀ (e : Fin 2) (c t : Fin 3),
        (adjustCoeffecients w d).NLT_Coeffecients e c t
          = if cellSelected w.status e c t then
              w.NLT_Coeffecients e c t * ((|d| : Int) : ℚ) + w.coeffecientOffset * (d : ℚ)
            else w.NLT_Coeffecients e c t)
      ∧ adjustCoeffecients w d
          = { w with NLT_Coeffecients := (adjustCoeffecients w d).NLT_Coeffecients }
      ∧ (∀ (e : Fin 2) (c t : Fin 3), cellSelected w.status e c t →
          (adjustCoeffecients w 1).NLT_Coeffecients e c t
              = w.NLT_Coeffecients e c t + w.coeffecientOffset
            ∧ (adjustCoeffecients w (-1)).NLT_Coeffecients e c t
              = w.NLT_Coeffecients e c t - w.coeffecientOffset
            ∧ (adjustCoeffecients w 0).NLT_Coeffecients e c t = 0) := by
  refine ⟨adjustCoeffecients_cell w d, adjustCoeffecients_frame w d, fun e c t hs => ?_⟩
  rw [adjustCoeffecients_cell, adjustCoeffecients_cell, adjustCoeffecients_cell]
  simp only [if_pos hs]
  refine ⟨?_, ?_, ?_⟩
  · norm_num
  · norm_num
    ring
  · norm_num

/-- Witness of C12: with every flag selected, step 1/1000 and all coefficients 1, one
decrement leaves 999/1000 in the cell of the right eye, red, third term. -/
theorem adjustCoeffecients_selected_cells_witness :
    (adjustCoeffecients unitCoeffWidget (-1)).NLT_Coeffecients 1 2 2 = 999 / 1000 := by
  have hs : cellSelected unitCoeffWidget.status 1 2 2 := by decide
  rw [((adjustCoeffecients_selected_cells unitCoeffWidget (-1)).2.2 1 2 2 hs).2.1]
  norm_num [unitCoeffWidget, viveWidget]

theorem and_selection_eq (s f : StatusValues) (hf : selectionMask &&& f = f) :
    s &&& f = (s &&& selectionMask) &&& f := by
  rw [Nat.and_assoc, hf]

theorem cellSelected_congr {s s' : StatusValues}
    (h : s &&& selectionMask = s' &&& selectionMask) (e : Fin 2) (c t : Fin 3) :
    cellSelected s e c t ↔ cellSelected s' e c t := by
  have he : selectionMask &&& eyeFlag e = eyeFlag e := by
    fin_cases e <;> decide
  have hc : selectionMask &&& colorFlag c = colorFlag c := by
    fin_cases c <;> decide
  have ht : selectionMask &&& termFlag t = termFlag t := by
    fin_cases t <;> decide
  unfold cellSelected
  rw [and_selection_eq s _ he, and_selection_eq s _ hc, and_selection_eq s _ ht,
    and_selection_eq s' _ he, and_selection_eq s' _ hc, and_selection_eq s' _ ht, h]

theorem cellSelected_single (e : Fin 2) (c t : Fin 3) :
    cellSelected (LEFT_EYE ||| GREEN ||| FIRST_COEFFICIENT) e c t ↔ (e = 0 ∧ c = 0 ∧ t = 0) := by
  fin_cases e <;> fin_cases c <;> fin_cases t <;> decide

/-- C13: for every bank and every selection, `adjustCoeffecients(0)` sets exactly the
selected cells to 0 and leaves all unselected cells untouched; with only LEFT_EYE,
GREEN and FIRST_COEFFICIENT selected it zeroes `NLT_Coeffecients[0][0][0]` and leaves
the other 17 cells unchanged. -/
theorem adjustCoeffecients_zero_resets_selected (w : OpenGL_Widget) :
    (∀ (e : Fin 2) (c t : Fin 3),
        (adjustCoeffecients w 0).NLT_Coeffecients e c t
          = if cellSelected w.status e c t then 0 else w.NLT_Coeffecients e c t)
      ∧ (w.status &&& selectionMask = LEFT_EYE ||| GREEN ||| FIRST_COEFFICIENT →
          (adjustCoeffecients w 0).NLT_Coeffecients 0 0 0 = 0
            ∧ ∀ (e : Fin 2) (c t : Fin 3), ¬ (e = 0 ∧ c = 0 ∧ t = 0) →
                (adjustCoeffecients w 0).NLT_Coeffecients e c t
                  = w.NLT_Coeffecients e c t) := by
  have h0 : ∀ (e : Fin 2) (c t : Fin 3),
      (adjustCoeffecients w 0).NLT_Coeffecients e c t
        = if cellSelected w.status e c t then 0 else w.NLT_Coeffecients e c t := by
    intro e c t
    rw [adjustCoeffecients_cell]
    by_cases hs : cellSelected w.status e c t
    · rw [if_pos hs, if_pos hs]
      norm_num
    · rw [if_neg hs, if_neg hs]
  refine ⟨h0, fun hsel => ?_⟩
  have hmask : (LEFT_EYE ||| GREEN ||| FIRST_COEFFICIENT) &&& selectionMask
      = LEFT_EYE ||| GREEN ||| FIRST_COEFFICIENT := by decide
  have hiff : ∀ (e : Fin 2) (c t : Fin 3),
      cellSelected w.status e c t ↔ (e = 0 ∧ c = 0 ∧ t = 0) := by
    intro e c t
    rw [cellSelected_congr (hsel.trans hmask.symm) e c t]
    exact cellSelected_single e c t
  constructor
  · rw [h0, if_pos ((hiff 0 0 0).2 ⟨rfl, rfl, rfl⟩)]
  · intro e c t hne
    rw [h0, if_neg (fun hs => hne ((hiff e c t).1 hs))]

/-- Witness of C13: with only the left eye, green and the first coefficient selected
and all coefficients 1, a reset zeroes cell [0][0][0] and leaves cell [0][0][1] at 1. -/
theorem adjustCoeffecients_zero_resets_selected_witness :
    (adjustCoeffecients singleCellWidget 0).NLT_Coeffecients 0 0 0 = 0
      ∧ (adjustCoeffecients singleCellWidget 0).NLT_Coeffecients 0 0 1 = 1 := by
  have h := (adjustCoeffecients_zero_resets_selected singleCellWidget).2 (by decide)
  refine ⟨h.1, ?_⟩
  rw [h.2 0 0 1 (by decide)]
  rfl

/-! ## The step size (C14) -/

theorem shiftCoeffecientOffset_value (w : OpenGL_Widget) (d : Int) :
    (shiftCoeffecientOffset w d).coeffecientOffset
      = clampStep (w.coeffecientOffset * (10 : ℚ) ^ d) := by
  have hlo : ¬ ((1 : ℚ) / 10000000000 ≥ 1) := by norm_num
  unfold shiftCoeffecientOffset clampStep minStep
  simp only []
  by_cases h1 : w.coeffecientOffset * (10 : ℚ) ^ d ≤ 1 / 10000000000
  · rw [if_pos h1, if_neg hlo]
    have h2 : w.coeffecientOffset * (10 : ℚ) ^ d ≤ 1 := le_trans h1 (by norm_num)
    rw [min_eq_right h2, max_eq_left h1]
  · rw [if_neg h1]
    have h1' : (1 : ℚ) / 10000000000 ≤ w.coeffecientOffset * (10 : ℚ) ^ d :=
      le_of_lt (not_le.mp h1)
    by_cases h3 : w.coeffecientOffset * (10 : ℚ) ^ d ≥ 1
    · rw [if_pos h3, min_eq_left h3, max_eq_right (by norm_num)]
    · rw [if_neg h3, min_eq_right (le_of_lt (not_le.mp h3)), max_eq_right h1']

theorem clampStep_bounds (x : ℚ) : minStep ≤ clampStep x ∧ clampStep x ≤ 1 := by
  unfold clampStep
  refine ⟨le_max_left _ _, max_le ?_ (min_le_left _ _)⟩
  unfold minStep
  norm_num

theorem shift_up_at_one (w : OpenGL_Widget) (h : w.coeffecientOffset = 1) :
    (shiftCoeffecientOffset w 1).coeffecientOffset = 1 := by
  rw [shiftCoeffecientOffset_value, h]
  unfold clampStep minStep
  norm_num

theorem shift_down_at_min (w : OpenGL_Widget) (h : w.coeffecientOffset = minStep) :
    (shiftCoeffecientOffset w (-1)).coeffecientOffset = minStep := by
  rw [shiftCoeffecientOffset_value, h]
  unfold clampStep minStep
  norm_num

theorem iterate_shift_up (n : Nat) (w : OpenGL_Widget) (h : w.coeffecientOffset = 1) :
    ((fun v => shiftCoeffecientOffset v 1)^[n] w).coeffecientOffset = 1 := by
  induction n with
  | zero => exact h
  | succ k ih =>
    rw [Function.iterate_succ_apply']
    exact shift_up_at_one _ ih

theorem iterate_shift_down (n : Nat) (w : OpenGL_Widget) (h : w.coeffecientOffset = minStep) :
    ((fun v => shiftCoeffecientOffset v (-1))^[n] w).coeffecientOffset = minStep := by
  induction n with
  | zero => exact h
  | succ k ih =>
    rw [Function.iterate_succ_apply']
    exact shift_down_at_min _ ih

/-- C14: for every step size `s` (in particular every positive one) and every integer
direction `d`, `shiftCoeffecientOffset(d)` sets the step size to `s*10^d` clamped into
`[1e-10, 1]`, so the step size lies in `[1e-10, 1]` afterwards; starting at 1 any number
of increments leaves it at 1, and starting at 1e-10 any number of decrements leaves it
at 1e-10. -/
theorem shiftCoeffecientOffset_clamps (w : OpenGL_Widget) (d : Int) :
    (shiftCoeffecientOffset w d).coeffecientOffset
        = max (1 / 10000000000) (min 1 (w.coeffecientOffset * (10 : ℚ) ^ d))
      ∧ 1 / 10000000000 ≤ (shiftCoeffecientOffset w d).coeffecientOffset
      ∧ (shiftCoeffecientOffset w d).coeffecientOffset ≤ 1
      ∧ (∀ n : Nat, w.coeffecientOffset = 1 →
          ((fun v => shiftCoeffecientOffset v 1)^[n] w).coeffecientOffset = 1)
      ∧ (∀ n : Nat, w.coeffecientOffset = 1 / 10000000000 →
          ((fun v => shiftCoeffecientOffset v (-1))^[n] w).coeffecientOffset
            = 1 / 10000000000) := by
  have hv := shiftCoeffecientOffset_value w d
  have hb := clampStep_bounds (w.coeffecientOffset * (10 : ℚ) ^ d)
  rw [← hv] at hb
  exact ⟨hv, hb.1, hb.2, fun n h => iterate_shift_up n w h, fun n h => iterate_shift_down n w h⟩

/-- Witness of C14: from the constructor's step 1/1000 one increment gives 1/100, and
from step 1 five increments leave 1. -/
theorem shiftCoeffecientOffset_clamps_witness :
    (shiftCoeffecientOffset viveWidget 1).coeffecientOffset = 1 / 100
      ∧ ((fun v => shiftCoeffecientOffset v 1)^[5]
          { viveWidget with coeffecientOffset := 1 }).coeffecientOffset = 1 := by
  constructor
  · rw [(shiftCoeffecientOffset_clamps viveWidget 1).1]
    norm_num [viveWidget]
  · exact (shiftCoeffecientOffset_clamps { viveWidget with coeffecientOffset := 1 } 1).2.2.2.1
      5 rfl

/-! ## Shifting the centre (C15, C16) -/

theorem shiftIntrinsics_cell (w : OpenGL_Widget) (v h : Int) (e : Fin 2) (r c : Fin 3) :
    shiftIntrinsics w v h e r c
      = if leftSelected w.status ∧ e = 0 ∧ r = 0 ∧ c = 2 then
          w.Intrinsics 0 0 2 + w.coeffecientOffset * (-(h : ℚ))
        else if leftSelected w.status ∧ e = 0 ∧ r = 1 ∧ c = 2 then
          w.Intrinsics 0 1 2 + w.coeffecientOffset * (-(v : ℚ))
        else if rightSelected w.status ∧ e = 1 ∧ r = 0 ∧ c = 2 then
          w.Intrinsics 1 0 2 + w.coeffecientOffset * (h : ℚ)
        else if rightSelected w.status ∧ e = 1 ∧ r = 1 ∧ c = 2 then
          w.Intrinsics 1 1 2 + w.coeffecientOffset * (-(v : ℚ))
        else w.Intrinsics e r c := by
  unfold shiftIntrinsics leftSelected rightSelected
  by_cases hl : (w.status &&& LEFT_EYE) = LEFT_EYE <;>
    by_cases hr : (w.status &&& RIGHT_EYE) = RIGHT_EYE <;>
    simp only [hl, hr, if_true, if_false, true_and, false_and] <;>
    fin_cases e <;> fin_cases r <;> fin_cases c <;>
    simp [setEntry]

theorem shiftCenter_of_intrinsics_mode (w : OpenGL_Widget) (v h : Int)
    (hm : modeFlags w.status = APPLY_LINEAR_TRANSFORM ∨ modeFlags w.status = ONLY_CENTER_CORRECT) :
    shiftCenter w v h = setDeftCOPVals { w with Intrinsics := shiftIntrinsics w v h } := by
  have hc : (w.status &&& APPLY_LINEAR_TRANSFORM) = APPLY_LINEAR_TRANSFORM
      ∨ (w.status &&& ONLY_CENTER_CORRECT) = ONLY_CENTER_CORRECT := by
    rw [linear_flag_eq, center_flag_eq]
    rcases hm with hm | hm <;> rw [hm] <;> decide
  unfold shiftCenter
  rw [if_pos hc]

theorem shiftCenter_of_manual_mode (w : OpenGL_Widget) (v h : Int)
    (hm : modeFlags w.status = 0 ∨ modeFlags w.status = ONLY_ASEPECT_RATIO) :
    shiftCenter w v h = shiftPixelCenters w v h := by
  have hc : ¬ ((w.status &&& APPLY_LINEAR_TRANSFORM) = APPLY_LINEAR_TRANSFORM
      ∨ (w.status &&& ONLY_CENTER_CORRECT) = ONLY_CENTER_CORRECT) := by
    rw [linear_flag_eq, center_flag_eq]
    rcases hm with hm | hm <;> rw [hm] <;> decide
  unfold shiftCenter
  rw [if_neg hc]

/-- C15 (amended): in LinearFull or CenterOnly mode, with backups that do not both
compare equal to the origin (Qt's `operator==` of line 627: both coordinates within
`1e-12` of zero), `shiftCenter(v, h)` adds `stepSize*(-h)` to `Intrinsics[0][0][2]` and `stepSize*(-v)` to
`Intrinsics[0][1][2]` when the left eye is selected, adds `stepSize*(+h)` to
`Intrinsics[1][0][2]` and `stepSize*(-v)` to `Intrinsics[1][1][2]` when the right eye is
selected, changes no other entry of `Intrinsics`, and afterwards each eye's COP equals
the value derived from the updated centre-offset terms. -/
theorem shiftCenter_updates_intrinsics (w : OpenGL_Widget) (v h : Int)
    (hm : modeFlags w.status = APPLY_LINEAR_TRANSFORM ∨ modeFlags w.status = ONLY_CENTER_CORRECT)
    (hp : ¬ backupsAtOrigin w) :
    (∀ (e : Fin 2) (r c : Fin 3),
        (shiftCenter w v h).Intrinsics e r c
          = if leftSelected w.status ∧ e = 0 ∧ r = 0 ∧ c = 2 then
              w.Intrinsics 0 0 2 + w.coeffecientOffset * (-(h : ℚ))
            else if leftSelected w.status ∧ e = 0 ∧ r = 1 ∧ c = 2 then
              w.Intrinsics 0 1 2 + w.coeffecientOffset * (-(v : ℚ))
            else if rightSelected w.status ∧ e = 1 ∧ r = 0 ∧ c = 2 then
              w.Intrinsics 1 0 2 + w.coeffecientOffset * (h : ℚ)
            else if rightSelected w.status ∧ e = 1 ∧ r = 1 ∧ c = 2 then
              w.Intrinsics 1 1 2 + w.coeffecientOffset * (-(v : ℚ))
            else w.Intrinsics e r c)
      ∧ (shiftCenter w v h).d_cop_l = derivedCopL (shiftCenter w v h)
      ∧ (shiftCenter w v h).d_cop_r = derivedCopR (shiftCenter w v h) := by
  rw [shiftCenter_of_intrinsics_mode w v h hm]
  have hp' : ¬ backupsAtOrigin { w with Intrinsics := shiftIntrinsics w v h } := hp
  rcases hm with hm | hm
  · rw [setDeftCOPVals_of_linear { w with Intrinsics := shiftIntrinsics w v h } hp' hm]
    exact ⟨fun e r c => shiftIntrinsics_cell w v h e r c, rfl, rfl⟩
  · rw [setDeftCOPVals_of_center { w with Intrinsics := shiftIntrinsics w v h } hp' hm]
    exact ⟨fun e r c => shiftIntrinsics_cell w v h e r c, rfl, rfl⟩

/-- Witness of C15 (amended): LinearFull, both eyes selected, step 1/1000, every intrinsics entry
2, `shiftCenter(1, 1)`: the left horizontal offset becomes 1999/1000, the right one
2001/1000, both vertical ones 1999/1000, and the scale entry `[0][0][0]` stays 2. -/
theorem shiftCenter_updates_intrinsics_witness :
    (shiftCenter linearFullWidget 1 1).Intrinsics 0 0 2 = 1999 / 1000
      ∧ (shiftCenter linearFullWidget 1 1).Intrinsics 1 0 2 = 2001 / 1000
      ∧ (shiftCenter linearFullWidget 1 1).Intrinsics 0 1 2 = 1999 / 1000
      ∧ (shiftCenter linearFullWidget 1 1).Intrinsics 1 1 2 = 1999 / 1000
      ∧ (shiftCenter linearFullWidget 1 1).Intrinsics 0 0 0 = 2
      ∧ (shiftCenter linearFullWidget 1 1).d_cop_l
          = derivedCopL (shiftCenter linearFullWidget 1 1) := by
  obtain ⟨hi, hl, -⟩ := shiftCenter_updates_intrinsics linearFullWidget 1 1
    (Or.inl (by decide)) viveWidget_backups
  have sl : leftSelected linearFullWidget.status := by decide
  have sr : rightSelected linearFullWidget.status := by decide
  have e0 : ((0 : Fin 3) = 2) = False := by decide
  have e1 : ((1 : Fin 3) = 0) = False := by decide
  have e2 : ((1 : Fin 2) = 0) = False := by decide
  have e3 : ((0 : Fin 3) = 1) = False := by decide
  refine ⟨?_, ?_, ?_, ?_, ?_, hl⟩
  · rw [hi]
    simp only [sl, true_and, and_self, if_true]
    norm_num [linearFullWidget, viveWidget]
  · rw [hi]
    simp only [sl, sr, true_and, and_self, and_true, and_false, false_and, if_true, if_false,
      e1, e2]
    norm_num [linearFullWidget, viveWidget]
  · rw [hi]
    simp only [sl, true_and, and_self, and_true, and_false, false_and, if_true, if_false, e1]
    norm_num [linearFullWidget, viveWidget]
  · rw [hi]
    simp only [sl, sr, true_and, and_self, and_true, and_false, false_and, if_true, if_false,
      e1, e2]
    norm_num [linearFullWidget, viveWidget]
  · rw [hi]
    simp only [true_and, and_self, and_true, and_false, false_and, if_true, if_false,
      e0, e1, e2, e3]
    rfl

/-- The direct nudge in closed form: a selected left eye moves by `(-h, -v)` when the
right eye is selected too and by `(+h, -v)` otherwise, a selected right eye moves by
`(+h, -v)`, and nothing else changes. -/
theorem shiftPixelCenters_eq (w : OpenGL_Widget) (v h : Int) :
    shiftPixelCenters w v h
      = { w with
          d_cop_l :=
            if leftSelected w.status then
              ⟨w.d_cop_l.x + (if rightSelected w.status then -(h : ℚ) else (h : ℚ)),
               w.d_cop_l.y - (v : ℚ)⟩
            else w.d_cop_l
          d_cop_r :=
            if rightSelected w.status then ⟨w.d_cop_r.x + (h : ℚ), w.d_cop_r.y - (v : ℚ)⟩
            else w.d_cop_r } := by
  obtain ⟨dw, dh, ⟨lx, ly⟩, ⟨rx, ry⟩, pl, pr, dov, nlt, cen, intr, st, off⟩ := w
  unfold shiftPixelCenters leftSelected rightSelected
  by_cases hh : h = 0 <;> by_cases hv : v = 0 <;>
    by_cases hl : (st &&& LEFT_EYE) = LEFT_EYE <;>
    by_cases hr : (st &&& RIGHT_EYE) = RIGHT_EYE <;>
    simp only [hh, hv, hl, hr, ne_eq, not_true_eq_false, not_false_eq_true, if_true, if_false,
      and_self, and_true, and_false, true_and, false_and, Int.cast_zero, Int.cast_neg, neg_zero,
      add_zero, sub_zero, sub_eq_add_neg]

/-- C16: in mode None or AspectOnly, `shiftCenter(v, h)` moves only the pixel COP of the
selected eye(s), independent of the step size and without changing `Intrinsics` or the
backups: with both eyes selected the left x changes by `-h` and the right x by `+h`
(their sum is preserved) and both y change by `-v`; with exactly one eye selected only
that eye's COP changes, by `(+h, -v)`; with no eye selected nothing changes. -/
theorem shiftCenter_moves_pixel_cop (w : OpenGL_Widget) (v h : Int)
    (hm : modeFlags w.status = 0 ∨ modeFlags w.status = ONLY_ASEPECT_RATIO) :
    shiftCenter w v h
        = { w with d_cop_l := (shiftCenter w v h).d_cop_l, d_cop_r := (shiftCenter w v h).d_cop_r }
      ∧ (leftSelected w.status ∧ rightSelected w.status →
          (shiftCenter w v h).d_cop_l = ⟨w.d_cop_l.x - (h : ℚ), w.d_cop_l.y - (v : ℚ)⟩
            ∧ (shiftCenter w v h).d_cop_r = ⟨w.d_cop_r.x + (h : ℚ), w.d_cop_r.y - (v : ℚ)⟩
            ∧ (shiftCenter w v h).d_cop_l.x + (shiftCenter w v h).d_cop_r.x
                = w.d_cop_l.x + w.d_cop_r.x)
      ∧ (leftSelected w.status ∧ ¬ rightSelected w.status →
          (shiftCenter w v h).d_cop_l = ⟨w.d_cop_l.x + (h : ℚ), w.d_cop_l.y - (v : ℚ)⟩
            ∧ (shiftCenter w v h).d_cop_r = w.d_cop_r)
      ∧ (¬ leftSelected w.status ∧ rightSelected w.status →
          (shiftCenter w v h).d_cop_r = ⟨w.d_cop_r.x + (h : ℚ), w.d_cop_r.y - (v : ℚ)⟩
            ∧ (shiftCenter w v h).d_cop_l = w.d_cop_l)
      ∧ (¬ leftSelected w.status ∧ ¬ rightSelected w.status → shiftCenter w v h = w)
      ∧ (∀ s : ℚ,
          (shiftCenter { w with coeffecientOffset := s } v h).d_cop_l = (shiftCenter w v h).d_cop_l
            ∧ (shiftCenter { w with coeffecientOffset := s } v h).d_cop_r
                = (shiftCenter w v h).d_cop_r) := by
  have hm' : ∀ s : ℚ, modeFlags ({ w with coeffecientOffset := s } : OpenGL_Widget).status = 0
      ∨ modeFlags ({ w with coeffecientOffset := s } : OpenGL_Widget).status = ONLY_ASEPECT_RATIO :=
    fun _ => hm
  have key := shiftPixelCenters_eq w v h
  rw [← shiftCenter_of_manual_mode w v h hm] at key
  refine ⟨?_, ?_, ?_, ?_, ?_, ?_⟩
  · rw [key]
  · rintro ⟨hl, hr⟩
    rw [key]
    simp only [hl, hr, if_true]
    refine ⟨?_, trivial, ?_⟩
    · simp only [sub_eq_add_neg]
    · ring
  · rintro ⟨hl, hr⟩
    rw [key]
    simp only [hl, hr, if_true, if_false]
    exact ⟨trivial, trivial⟩
  · rintro ⟨hl, hr⟩
    rw [key]
    simp only [hl, hr, if_true, if_false]
    exact ⟨trivial, trivial⟩
  · rintro ⟨hl, hr⟩
    rw [key]
    simp only [hl, hr, if_false]
  · intro s
    rw [shiftCenter_of_manual_mode _ v h (hm' s), shiftPixelCenters_eq, key]
    exact ⟨rfl, rfl⟩

/-- Witness of C16: mode None, both eyes selected, centres (540, 600) and (1620, 600):
`shiftCenter(1, 1)` gives (539, 599) and (1621, 599). -/
theorem shiftCenter_moves_pixel_cop_witness :
    (shiftCenter viveWidget 1 1).d_cop_l = ⟨539, 599⟩
      ∧ (shiftCenter viveWidget 1 1).d_cop_r = ⟨1621, 599⟩ := by
  obtain ⟨hl, hr, -⟩ := (shiftCenter_moves_pixel_cop viveWidget 1 1 (Or.inl (by decide))).2.1
    ⟨by decide, by decide⟩
  rw [hl, hr]
  norm_num [viveWidget]

/-! ## The aspect ratio (C17) -/

theorem setEntry_ite (p : Prop) [Decidable p] (T : Fin 2 → Fin 3 → Fin 3 → ℚ) (e : Fin 2)
    (r c : Fin 3) (a b : ℚ) :
    (if p then setEntry T e r c a else setEntry T e r c b)
      = setEntry T e r c (if p then a else b) := by
  split_ifs <;> rfl

theorem adjustAspectRatio_cell (s : OpenGL_Widget) (w h : Int) (e : Fin 2) (r c : Fin 3) :
    (adjustAspectRatio s w h).Intrinsics e r c
      = if eyeOn s.status e ∧ r = 0 ∧ c = 0 then
          (if w = -2 then (s.d_height : ℚ) / 1000
            else s.Intrinsics e 0 0 + (w : ℚ) * s.coeffecientOffset)
        else if eyeOn s.status e ∧ r = 1 ∧ c = 1 then
          (if h = -2 then (s.d_width : ℚ) / 2000
            else s.Intrinsics e 1 1 + (h : ℚ) * s.coeffecientOffset)
        else s.Intrinsics e r c := by
  have hdiv : (s.d_width : ℚ) / 1000 / 2 = (s.d_width : ℚ) / 2000 := by ring
  have fl : eyeFlag 0 = LEFT_EYE := rfl
  have fr : eyeFlag 1 = RIGHT_EYE := rfl
  unfold adjustAspectRatio eyeOn
  simp only [hdiv, setEntry_ite, ne_eq, ite_not]
  by_cases hl : (s.status &&& LEFT_EYE) = 0 <;>
    by_cases hr : (s.status &&& RIGHT_EYE) = 0 <;>
    fin_cases e <;>
    simp only [Fin.zero_eta, Fin.mk_one, fl, fr, hl, hr, not_true_eq_false, not_false_eq_true,
      if_true, if_false, true_and, false_and] <;>
    fin_cases r <;> fin_cases c <;>
    simp [setEntry]

theorem adjustAspectRatio_vive_example :
    (adjustAspectRatio viveWidget (-2) (-2)).Intrinsics 0 0 0 = 6 / 5
      ∧ (adjustAspectRatio viveWidget (-2) (-2)).Intrinsics 0 1 1 = 27 / 25
      ∧ (adjustAspectRatio viveWidget (-2) (-2)).Intrinsics 1 0 0 = 6 / 5
      ∧ (adjustAspectRatio viveWidget (-2) (-2)).Intrinsics 1 1 1 = 27 / 25
      ∧ (adjustAspectRatio viveWidget (-2) (-2)).Intrinsics 0 0 2 = 0 := by
  have l : eyeOn viveWidget.status 0 := by decide
  have r : eyeOn viveWidget.status 1 := by decide
  have e1 : ((1 : Fin 3) = 0) = False := by decide
  have e2 : ((2 : Fin 3) = 0) = False := by decide
  have e3 : ((2 : Fin 3) = 1) = False := by decide
  have e4 : ((0 : Fin 3) = 1) = False := by decide
  refine ⟨?_, ?_, ?_, ?_, ?_⟩ <;> rw [adjustAspectRatio_cell] <;>
    simp only [l, r, e1, e2, e3, e4, true_and, and_self, and_true, and_false, false_and,
      if_true, if_false] <;>
    norm_num [viveWidget]

/-- C17: for every state, `adjustAspectRatio(w, h)` acts on each selected eye `e` and
each axis on its own: `Intrinsics[e][0][0]` becomes `height/1000` if `w = -2` and
otherwise `old + w*stepSize`; `Intrinsics[e][1][1]` becomes `width/2000` if `h = -2` and
otherwise `old + h*stepSize`; an unselected eye's entries and all other entries of
`Intrinsics` are unchanged, as is the rest of the state. With width 2160 and height 1200
`adjustAspectRatio(-2, -2)` gives 1.2 and 1.08. -/
theorem adjustAspectRatio_scales (s : OpenGL_Widget) (w h : Int) :
    (∀ (e : Fin 2) (r c : Fin 3),
        (adjustAspectRatio s w h).Intrinsics e r c
          = if eyeOn s.status e ∧ r = 0 ∧ c = 0 then
              (if w = -2 then (s.d_height : ℚ) / 1000
                else s.Intrinsics e 0 0 + (w : ℚ) * s.coeffecientOffset)
            else if eyeOn s.status e ∧ r = 1 ∧ c = 1 then
              (if h = -2 then (s.d_width : ℚ) / 2000
                else s.Intrinsics e 1 1 + (h : ℚ) * s.coeffecientOffset)
            else s.Intrinsics e r c)
      ∧ adjustAspectRatio s w h
          = { s with Intrinsics := (adjustAspectRatio s w h).Intrinsics }
      ∧ (adjustAspectRatio viveWidget (-2) (-2)).Intrinsics 0 0 0 = 6 / 5
      ∧ (adjustAspectRatio viveWidget (-2) (-2)).Intrinsics 0 1 1 = 27 / 25 :=
  ⟨fun e r c => adjustAspectRatio_cell s w h e r c, rfl,
    adjustAspectRatio_vive_example.1, adjustAspectRatio_vive_example.2.1⟩

/-! ## Default centres (C20) -/

theorem toInt_intCast (n : Int) : toInt (n : ℚ) = n := by
  unfold toInt
  rw [Rat.num_intCast, Rat.den_intCast]
  simp

theorem toInt_sub_intCast (a b : Int) : toInt ((a : ℚ) - (b : ℚ)) = a - b := by
  have h : (a : ℚ) - (b : ℚ) = ((a - b : Int) : ℚ) := by push_cast; ring
  rw [h, toInt_intCast]

theorem setDeftCOPVals_of_origin (w : OpenGL_Widget) (hp : backupsAtOrigin w) :
    setDeftCOPVals w
      = { w with
          d_cop_l := ⟨((Int.tdiv w.d_width 4 : Int) : ℚ), ((Int.tdiv w.d_height 2 : Int) : ℚ)⟩
          d_cop_r := ⟨((w.d_width - Int.tdiv w.d_width 4 : Int) : ℚ),
                      ((Int.tdiv w.d_height 2 : Int) : ℚ)⟩
          d_cop_l_Prev :=
            ⟨((Int.tdiv w.d_width 4 : Int) : ℚ), ((Int.tdiv w.d_height 2 : Int) : ℚ)⟩
          d_cop_r_Prev := ⟨((w.d_width - Int.tdiv w.d_width 4 : Int) : ℚ),
                           ((Int.tdiv w.d_height 2 : Int) : ℚ)⟩ } := by
  unfold backupsAtOrigin at hp
  unfold setDeftCOPVals
  rw [if_pos hp]
  simp only [toInt_sub_intCast, toInt_intCast]

theorem resizeGL_vive (u : OpenGL_Widget) :
    (resizeGL u 2160 1200).d_cop_l = ⟨540, 600⟩
      ∧ (resizeGL u 2160 1200).d_cop_r = ⟨1620, 600⟩
      ∧ (resizeGL u 2160 1200).d_cop_l_Prev = ⟨540, 600⟩
      ∧ (resizeGL u 2160 1200).d_cop_r_Prev = ⟨1620, 600⟩ := by
  have hc : ((2160 : Int) = 2160 ∧ (1200 : Int) = 1200) := ⟨rfl, rfl⟩
  unfold resizeGL
  simp only [if_pos hc]
  rw [setDeftCOPVals_of_origin _
    ⟨operator_eq_origin_of_eq rfl, operator_eq_origin_of_eq rfl⟩]
  have q1 : Int.tdiv (2160 : Int) 4 = 540 := by decide
  have q2 : Int.tdiv (1200 : Int) 2 = 600 := by decide
  norm_num [q1, q2]

/-- C20: for every width and height, when `setDeftCOPVals` runs with both backups at the
origin (or comparing equal to it in the test of line 627) it sets the left COP to `(width/4, height/2)`, the right COP to its mirror
`(width - width/4, height/2)` and both backups to those values (integer quotients); a
resize to 2160 x 1200, from any state and in any mode, gives (540, 600) and
(1620, 600). -/
theorem setDeftCOPVals_default_centres (w : OpenGL_Widget) (hp : backupsAtOrigin w) :
    (setDeftCOPVals w).d_cop_l
        = ⟨((Int.tdiv w.d_width 4 : Int) : ℚ), ((Int.tdiv w.d_height 2 : Int) : ℚ)⟩
      ∧ (setDeftCOPVals w).d_cop_r
        = ⟨(w.d_width : ℚ) - ((Int.tdiv w.d_width 4 : Int) : ℚ),
           ((Int.tdiv w.d_height 2 : Int) : ℚ)⟩
      ∧ (setDeftCOPVals w).d_cop_l_Prev = (setDeftCOPVals w).d_cop_l
      ∧ (setDeftCOPVals w).d_cop_r_Prev = (setDeftCOPVals w).d_cop_r
      ∧ (∀ u : OpenGL_Widget,
          (resizeGL u 2160 1200).d_cop_l = ⟨540, 600⟩
            ∧ (resizeGL u 2160 1200).d_cop_r = ⟨1620, 600⟩
            ∧ (resizeGL u 2160 1200).d_cop_l_Prev = ⟨540, 600⟩
            ∧ (resizeGL u 2160 1200).d_cop_r_Prev = ⟨1620, 600⟩) := by
  rw [setDeftCOPVals_of_origin w hp]
  refine ⟨rfl, ?_, rfl, rfl, resizeGL_vive⟩
  simp only [Int.cast_sub]

/-- Witness of C20: the constructor's centres in a 2160 x 1200 window become (540, 600)
and (1620, 600). -/
theorem setDeftCOPVals_default_centres_witness :
    (setDeftCOPVals freshWidget).d_cop_l = ⟨540, 600⟩
      ∧ (setDeftCOPVals freshWidget).d_cop_r = ⟨1620, 600⟩ := by
  obtain ⟨h1, h2, -⟩ := setDeftCOPVals_default_centres freshWidget
    ⟨operator_eq_origin_of_eq rfl, operator_eq_origin_of_eq rfl⟩
  have q1 : Int.tdiv freshWidget.d_width 4 = 540 := by decide
  have q2 : Int.tdiv freshWidget.d_height 2 = 600 := by decide
  have q3 : freshWidget.d_width = 2160 := rfl
  rw [q1, q2] at h1
  rw [q1, q2, q3] at h2
  rw [h1, h2]
  norm_num

/-! ## Centre conversions and reset (C18, C19) -/

theorem QPointF.eq_of_coords {p q : QPointF} (hx : p.x = q.x) (hy : p.y = q.y) : p = q := by
  cases p
  cases q
  simp only [QPointF.mk.injEq]
  exact ⟨hx, hy⟩

theorem ApplyCenterToIntrinsics_eq (w : OpenGL_Widget) (h1 : Int.tdiv w.d_width 4 ≠ 0)
    (h2 : Int.tdiv w.d_height 2 ≠ 0) (h3 : w.d_width - Int.tdiv w.d_width 4 ≠ 0) :
    ApplyCenterToIntrinsics w
      = some { w with
          Intrinsics :=
            setEntry (setEntry (setEntry (setEntry w.Intrinsics 0 0 2
              ((w.d_cop_l.x - ((Int.tdiv w.d_width 4 : Int) : ℚ))
                / ((Int.tdiv w.d_width 4 : Int) : ℚ))) 0 1 2
              ((w.d_cop_l.y - ((Int.tdiv w.d_height 2 : Int) : ℚ))
                / ((Int.tdiv w.d_height 2 : Int) : ℚ))) 1 0 2
              ((w.d_cop_r.x - ((w.d_width - Int.tdiv w.d_width 4 : Int) : ℚ))
                / ((w.d_width - Int.tdiv w.d_width 4 : Int) : ℚ))) 1 1 2
              ((w.d_cop_r.y - ((Int.tdiv w.d_height 2 : Int) : ℚ))
                / ((Int.tdiv w.d_height 2 : Int) : ℚ))
          d_cop_l_Prev := w.d_cop_l
          d_cop_r_Prev := w.d_cop_r } := by
  have q1 : ((Int.tdiv w.d_width 4 : Int) : ℚ) ≠ 0 := by exact_mod_cast h1
  have q2 : ((Int.tdiv w.d_height 2 : Int) : ℚ) ≠ 0 := by exact_mod_cast h2
  have q3 : ((w.d_width - Int.tdiv w.d_width 4 : Int) : ℚ) ≠ 0 := by exact_mod_cast h3
  unfold ApplyCenterToIntrinsics
  simp only [toInt_sub_intCast, toInt_intCast]
  rw [fdiv_of_ne _ q1, fdiv_of_ne _ q2, fdiv_of_ne _ q3, fdiv_of_ne _ q2]

/-- What the two conversions do in a row: the left centre and the right `y` come back
unchanged; the right `x` comes back as `CxR + CxR * (x - M) / M` with
`CxR = d_width/2 + d_width/4` (the reference of `ApplyIntrincstsToCenter`) and
`M = d_width - d_width/4` (the reference of `ApplyCenterToIntrinsics`), which is `x`
when the two references agree. -/
theorem center_roundtrip (w : OpenGL_Widget) (h1 : Int.tdiv w.d_width 4 ≠ 0)
    (h2 : Int.tdiv w.d_height 2 ≠ 0) (h3 : w.d_width - Int.tdiv w.d_width 4 ≠ 0) :
    ∃ v, ApplyCenterToIntrinsics w = some v
      ∧ (ApplyIntrincstsToCenter v).d_cop_l = w.d_cop_l
      ∧ (ApplyIntrincstsToCenter v).d_cop_r.y = w.d_cop_r.y
      ∧ (ApplyIntrincstsToCenter v).d_cop_r.x
          = (((Int.tdiv w.d_width 2 : Int) : ℚ) + ((Int.tdiv w.d_width 4 : Int) : ℚ))
            + (((Int.tdiv w.d_width 2 : Int) : ℚ) + ((Int.tdiv w.d_width 4 : Int) : ℚ))
              * ((w.d_cop_r.x - ((w.d_width - Int.tdiv w.d_width 4 : Int) : ℚ))
                  / ((w.d_width - Int.tdiv w.d_width 4 : Int) : ℚ))
      ∧ (Int.tdiv w.d_width 2 + Int.tdiv w.d_width 4 = w.d_width - Int.tdiv w.d_width 4 →
          (ApplyIntrincstsToCenter v).d_cop_r = w.d_cop_r) := by
  have q1 : ((Int.tdiv w.d_width 4 : Int) : ℚ) ≠ 0 := by exact_mod_cast h1
  have q2 : ((Int.tdiv w.d_height 2 : Int) : ℚ) ≠ 0 := by exact_mod_cast h2
  have q3 : ((w.d_width - Int.tdiv w.d_width 4 : Int) : ℚ) ≠ 0 := by exact_mod_cast h3
  have e0 : ((1 : Fin 2) = 0) = False := by decide
  have e1 : ((0 : Fin 2) = 1) = False := by decide
  have e2 : ((0 : Fin 3) = 1) = False := by decide
  have e3 : ((1 : Fin 3) = 0) = False := by decide
  refine ⟨_, ApplyCenterToIntrinsics_eq w h1 h2 h3, ?_, ?_, ?_, ?_⟩
  · apply QPointF.eq_of_coords
    · unfold ApplyIntrincstsToCenter
      simp only [setEntry, e0, e1, e2, e3, and_true, true_and, and_false, false_and, and_self,
        if_true, if_false]
      field_simp
    · unfold ApplyIntrincstsToCenter
      simp only [setEntry, e0, e1, e2, e3, and_true, true_and, and_false, false_and, and_self,
        if_true, if_false]
      field_simp
  · unfold ApplyIntrincstsToCenter
    simp only [setEntry, e0, e1, e2, e3, and_true, true_and, and_false, false_and, and_self,
      if_true, if_false]
    field_simp
  · unfold ApplyIntrincstsToCenter
    simp only [setEntry, e0, e1, e2, e3, and_true, true_and, and_false, false_and, and_self,
      if_true, if_false]
  · intro hm
    have hm' : ((Int.tdiv w.d_width 2 : Int) : ℚ) + ((Int.tdiv w.d_width 4 : Int) : ℚ)
        = ((w.d_width - Int.tdiv w.d_width 4 : Int) : ℚ) := by exact_mod_cast hm
    have q3' : (w.d_width : ℚ) - ((Int.tdiv w.d_width 4 : Int) : ℚ) ≠ 0 := by
      have h := q3
      push_cast at h
      exact h
    apply QPointF.eq_of_coords
    · unfold ApplyIntrincstsToCenter
      simp only [setEntry, e0, e1, e2, e3, and_true, true_and, and_false, false_and, and_self,
        if_true, if_false, hm']
      push_cast
      field_simp
    · unfold ApplyIntrincstsToCenter
      simp only [setEntry, e0, e1, e2, e3, and_true, true_and, and_false, false_and, and_self,
        if_true, if_false]
      field_simp

/-- The state after `resetCenter`, eye by eye: a selected eye's COP and backup become
`(d_width/4, d_height/2)` (left) and `(d_width/2 + d_width/4, d_height/2)` (right), an
unselected eye's COP and backup are unchanged. -/
theorem resetCenter_eq (w : OpenGL_Widget) :
    resetCenter w
      = { w with
          d_cop_l :=
            if leftSelected w.status then
              ⟨((Int.tdiv w.d_width 4 : Int) : ℚ), ((Int.tdiv w.d_height 2 : Int) : ℚ)⟩
            else w.d_cop_l
          d_cop_l_Prev :=
            if leftSelected w.status then
              ⟨((Int.tdiv w.d_width 4 : Int) : ℚ), ((Int.tdiv w.d_height 2 : Int) : ℚ)⟩
            else w.d_cop_l_Prev
          d_cop_r :=
            if rightSelected w.status then
              ⟨((Int.tdiv w.d_width 2 : Int) : ℚ) + ((Int.tdiv w.d_width 4 : Int) : ℚ),
               ((Int.tdiv w.d_height 2 : Int) : ℚ)⟩
            else w.d_cop_r
          d_cop_r_Prev :=
            if rightSelected w.status then
              ⟨((Int.tdiv w.d_width 2 : Int) : ℚ) + ((Int.tdiv w.d_width 4 : Int) : ℚ),
               ((Int.tdiv w.d_height 2 : Int) : ℚ)⟩
            else w.d_cop_r_Prev } := by
  unfold resetCenter leftSelected rightSelected
  by_cases hl : (w.status &&& LEFT_EYE) = LEFT_EYE <;>
    by_cases hr : (w.status &&& RIGHT_EYE) = RIGHT_EYE <;>
    simp only [hl, hr, if_true, if_false]

theorem laptopWidget_quotients :
    Int.tdiv laptopWidget.d_width 4 = 341 ∧ Int.tdiv laptopWidget.d_width 2 = 683
      ∧ Int.tdiv laptopWidget.d_height 2 = 384 ∧ laptopWidget.d_width = 1366 := by
  decide

/-- C18 (the code at a failing input): in a 1366 x 768 window with the default centres
(341, 384) and (1025, 384), `ApplyCenterToIntrinsics` followed by
`ApplyIntrincstsToCenter` returns the left centre unchanged but the right centre as
(1024, 384): the first conversion measures the right eye from `d_width - d_width/4 =
1025`, the second rebuilds it from `d_width/2 + d_width/4 = 1024`. -/
theorem center_conversions_failing_input :
    4 ≤ laptopWidget.d_width ∧ 2 ≤ laptopWidget.d_height
      ∧ laptopWidget.d_cop_r = ⟨1025, 384⟩
      ∧ (ApplyCenterToIntrinsics laptopWidget).map
            (fun v => (ApplyIntrincstsToCenter v).d_cop_l) = some ⟨341, 384⟩
      ∧ (ApplyCenterToIntrinsics laptopWidget).map
            (fun v => (ApplyIntrincstsToCenter v).d_cop_r) = some ⟨1024, 384⟩
      ∧ (⟨1024, 384⟩ : QPointF) ≠ laptopWidget.d_cop_r := by
  obtain ⟨q4, q2, qh, qw⟩ := laptopWidget_quotients
  obtain ⟨v, hv, hl, hy, hx, -⟩ :=
    center_roundtrip laptopWidget (by decide) (by decide) (by decide)
  have hr : (ApplyIntrincstsToCenter v).d_cop_r = ⟨1024, 384⟩ := by
    apply QPointF.eq_of_coords
    · rw [hx, q4, q2, qw]
      norm_num [laptopWidget]
    · rw [hy]
      rfl
  refine ⟨by decide, by decide, rfl, ?_, ?_, ?_⟩
  · rw [hv]
    simp only [Option.map_some', hl]
    rfl
  · rw [hv]
    simp only [Option.map_some', hr]
  · intro h
    have hx' := congrArg QPointF.x h
    norm_num [laptopWidget] at hx'

/-- C19 (the code at a failing input): in a 1366 x 768 window with the right eye
selected, `resetCenter` sets the right COP and its backup to (1024, 384), that is
`(d_width/2 + d_width/4, d_height/2)`, while the mirror of the left default about the
screen centre, which `setDeftCOPVals` establishes for the same window, is (1025, 384);
the left COP is set to (341, 384). -/
theorem resetCenter_failing_input :
    rightSelected laptopWidget.status
      ∧ (resetCenter laptopWidget).d_cop_l = ⟨341, 384⟩
      ∧ (resetCenter laptopWidget).d_cop_r = ⟨1024, 384⟩
      ∧ (resetCenter laptopWidget).d_cop_r_Prev = ⟨1024, 384⟩
      ∧ (setDeftCOPVals
          { laptopWidget with d_cop_l_Prev := ⟨0, 0⟩, d_cop_r_Prev := ⟨0, 0⟩ }).d_cop_r
          = ⟨1025, 384⟩
      ∧ (resetCenter laptopWidget).d_cop_r
          ≠ (setDeftCOPVals
              { laptopWidget with d_cop_l_Prev := ⟨0, 0⟩, d_cop_r_Prev := ⟨0, 0⟩ }).d_cop_r := by
  obtain ⟨q4, q2, qh, qw⟩ := laptopWidget_quotients
  have sl : leftSelected laptopWidget.status := by decide
  have sr : rightSelected laptopWidget.status := by decide
  have h1 : (resetCenter laptopWidget).d_cop_l = ⟨341, 384⟩ := by
    rw [resetCenter_eq]
    simp only [sl, if_true, q4, qh]
    norm_num
  have h2 : (resetCenter laptopWidget).d_cop_r = ⟨1024, 384⟩ := by
    rw [resetCenter_eq]
    simp only [sr, if_true, q4, q2, qh]
    norm_num
  have h3 : (resetCenter laptopWidget).d_cop_r_Prev = ⟨1024, 384⟩ := by
    rw [resetCenter_eq]
    simp only [sr, if_true, q4, q2, qh]
    norm_num
  have h4 : (setDeftCOPVals
      { laptopWidget with d_cop_l_Prev := ⟨0, 0⟩, d_cop_r_Prev := ⟨0, 0⟩ }).d_cop_r
      = ⟨1025, 384⟩ := by
    rw [setDeftCOPVals_of_origin _
    ⟨operator_eq_origin_of_eq rfl, operator_eq_origin_of_eq rfl⟩]
    have a : Int.tdiv (1366 : Int) 4 = 341 := by decide
    have b : Int.tdiv (768 : Int) 2 = 384 := by decide
    norm_num [laptopWidget, viveWidget, a, b]
  refine ⟨sr, h1, h2, h3, h4, ?_⟩
  rw [h2, h4]
  intro h
  have hx := congrArg QPointF.x h
  norm_num at hx

/-! ## Increment and decrement cancel (C28) -/

theorem adjustCoeffecients_status (w : OpenGL_Widget) (d : Int) :
    (adjustCoeffecients w d).status = w.status
      ∧ (adjustCoeffecients w d).coeffecientOffset = w.coeffecientOffset := by
  rw [adjustCoeffecients_frame]
  exact ⟨rfl, rfl⟩

theorem adjustCoeffecients_cancel (w : OpenGL_Widget) (d : Int) (hd : d = 1 ∨ d = -1)
    (e : Fin 2) (c t : Fin 3) :
    (adjustCoeffecients (adjustCoeffecients w d) (-d)).NLT_Coeffecients e c t
      = w.NLT_Coeffecients e c t := by
  rw [adjustCoeffecients_cell, (adjustCoeffecients_status w d).1,
    (adjustCoeffecients_status w d).2, adjustCoeffecients_cell]
  by_cases hs : cellSelected w.status e c t
  · rw [if_pos hs, if_pos hs]
    rcases hd with hd | hd <;> subst hd <;> norm_num
  · rw [if_neg hs, if_neg hs]

/-- C28: for every bank, selection and step size, `adjustCoeffecients(+1)` followed by
`adjustCoeffecients(-1)` restores every cell of the coefficient bank to its original
value, and likewise for `(-1)` followed by `(+1)` (exact arithmetic); the selection and
the step size are not changed by either call. -/
theorem adjustCoeffecients_up_down (w : OpenGL_Widget) :
    (∀ (e : Fin 2) (c t : Fin 3),
        (adjustCoeffecients (adjustCoeffecients w 1) (-1)).NLT_Coeffecients e c t
          = w.NLT_Coeffecients e c t)
      ∧ (∀ (e : Fin 2) (c t : Fin 3),
        (adjustCoeffecients (adjustCoeffecients w (-1)) 1).NLT_Coeffecients e c t
          = w.NLT_Coeffecients e c t)
      ∧ (adjustCoeffecients w 1).status = w.status
      ∧ (adjustCoeffecients w 1).coeffecientOffset = w.coeffecientOffset
      ∧ (adjustCoeffecients w (-1)).status = w.status
      ∧ (adjustCoeffecients w (-1)).coeffecientOffset = w.coeffecientOffset := by
  refine ⟨fun e c t => adjustCoeffecients_cancel w 1 (Or.inl rfl) e c t, fun e c t => ?_,
    (adjustCoeffecients_status w 1).1, (adjustCoeffecients_status w 1).2,
    (adjustCoeffecients_status w (-1)).1, (adjustCoeffecients_status w (-1)).2⟩
  have h := adjustCoeffecients_cancel w (-1) (Or.inr rfl) e c t
  rw [neg_neg] at h
  exact h

/-! ## The radial scale under non-negative coefficients (C26) -/

/-- C26: if the three coefficients of the eye and channel used are all non-negative and
the width is positive, then for every point the denominator `1 + k1*r^2 + k2*r^4 +
k3*r^6` of `transformPoint` is at least 1, the radial scale `s` satisfies `0 < s <= 1`,
and the value before clipping is `cop + s*(q - cop) = (1 - s)*cop + s*q`, a point of the
segment between `cop` and the affine-corrected point `q`. -/
theorem radial_scale_contracts (w : OpenGL_Widget) (p cop : QPointF) (color : Nat)
    (eye : StatusValues) (hc : color < 3) (hw : 0 < w.d_width)
    (hk : ∀ t, 0 ≤ w.NLT_Coeffecients (eyeIndex eye) (colorPlane color) t) :
    ∃ d s : ℚ,
      codeDenominator w (linearStep w p cop eye) cop color eye = some d
        ∧ 1 ≤ d ∧ s = 1 / d ∧ 0 < s ∧ s ≤ 1
        ∧ transformPointPreClip w p cop color eye
            = some (cop + QPointF.scale s (linearStep w p cop eye - cop))
        ∧ (cop + QPointF.scale s (linearStep w p cop eye - cop)).x
            = (1 - s) * cop.x + s * (linearStep w p cop eye).x
        ∧ (cop + QPointF.scale s (linearStep w p cop eye - cop)).y
            = (1 - s) * cop.y + s * (linearStep w p cop eye).y := by
  have hw' : w.d_width ≠ 0 := ne_of_gt hw
  have hge : 1 ≤ specDenominator (widthNormalised w color eye 0 2)
      (widthNormalised w color eye 1 4) (widthNormalised w color eye 2 6)
      (specR2 w p cop eye) :=
    specDenominator_ge_one (widthNormalised_nonneg w color eye 0 2 (hk 0) (by decide))
      (widthNormalised_nonneg w color eye 1 4 (hk 1) (by decide))
      (widthNormalised_nonneg w color eye 2 6 (hk 2) (by decide))
      (specR2_nonneg w p cop eye)
  have hpos : 0 < specDenominator (widthNormalised w color eye 0 2)
      (widthNormalised w color eye 1 4) (widthNormalised w color eye 2 6)
      (specR2 w p cop eye) := lt_of_lt_of_le one_pos hge
  refine ⟨_, _, codeDenominator_eq w p cop hc eye hw', hge, rfl, ?_, ?_, ?_, ?_, ?_⟩
  · exact one_div_pos.mpr hpos
  · rw [div_le_one hpos]
    exact hge
  · rw [preClip_closed_form w p cop hc eye hw', fdiv_of_ne _ (ne_of_gt hpos)]
    rfl
  · show cop.x + _ * ((linearStep w p cop eye).x - cop.x) = _
    ring
  · show cop.y + _ * ((linearStep w p cop eye).y - cop.y) = _
    ring

/-- Witness of C26: width 2, all coefficients 1, green, `p = (3,1)`, `cop = (1,1)`: the
denominator is 4, the scale 1/4 and the point before clipping (3/2, 1). -/
theorem radial_scale_contracts_witness :
    ∃ d s : ℚ,
      codeDenominator unitCoeffWidget (linearStep unitCoeffWidget ⟨3, 1⟩ ⟨1, 1⟩ LEFT_EYE)
          ⟨1, 1⟩ 1 LEFT_EYE = some d
        ∧ 1 ≤ d ∧ 0 < s ∧ s ≤ 1
        ∧ transformPointPreClip unitCoeffWidget ⟨3, 1⟩ ⟨1, 1⟩ 1 LEFT_EYE
            = some (⟨1, 1⟩ + QPointF.scale s
                (linearStep unitCoeffWidget ⟨3, 1⟩ ⟨1, 1⟩ LEFT_EYE - ⟨1, 1⟩)) := by
  obtain ⟨d, s, h1, h2, -, h4, h5, h6, -⟩ :=
    radial_scale_contracts unitCoeffWidget ⟨3, 1⟩ ⟨1, 1⟩ 1 LEFT_EYE (by decide) (by decide)
      (fun _ => by norm_num [unitCoeffWidget])
  exact ⟨d, s, h1, h2, h4, h5, h6⟩

/-! ## Four toggles from mode None (C25) -/

theorem toggle_of_origin (w : OpenGL_Widget) (hp : backupsAtOrigin w) :
    (toggleLinearTransform w).d_cop_l_Prev
        = ⟨((Int.tdiv w.d_width 4 : Int) : ℚ), ((Int.tdiv w.d_height 2 : Int) : ℚ)⟩
      ∧ (toggleLinearTransform w).d_cop_r_Prev
        = ⟨((w.d_width - Int.tdiv w.d_width 4 : Int) : ℚ), ((Int.tdiv w.d_height 2 : Int) : ℚ)⟩
      ∧ (toggleLinearTransform w).d_cop_l = (toggleLinearTransform w).d_cop_l_Prev
      ∧ (toggleLinearTransform w).d_cop_r = (toggleLinearTransform w).d_cop_r_Prev := by
  have hb : backupsAtOrigin { w with status := toggleStatus w.status } := hp
  unfold toggleLinearTransform
  rw [setDeftCOPVals_of_origin _ hb]
  exact ⟨rfl, rfl, rfl, rfl⟩

theorem near_origin_point : QPointF.operator_eq ⟨1 / 1125899906842624, 0⟩ ⟨0, 0⟩ := by
  rw [operator_eq_origin_iff]
  constructor
  · show |(1 / 1125899906842624 : ℚ)| ≤ 1 / 1000000000000
    rw [abs_of_pos (by norm_num)]
    norm_num
  · show |(0 : ℚ)| ≤ 1 / 1000000000000
    norm_num

theorem near_origin_point_ne : (⟨1 / 1125899906842624, 0⟩ : QPointF) ≠ ⟨0, 0⟩ := by
  intro h
  have hx := congrArg QPointF.x h
  norm_num at hx

/-- Four toggles from mode None in a 2160 x 1200 window whose centres both compare
equal to the origin: the first toggle copies them into the backups, the second takes
the default branch, and the cycle ends at the default centres. -/
theorem toggleFourTimes_of_copsAtOrigin (w : OpenGL_Widget) (hm : modeFlags w.status = 0)
    (hp : ¬ backupsAtOrigin w) (hc : copsAtOrigin w)
    (hw : w.d_width = 2160) (hh : w.d_height = 1200) :
    (toggleFourTimes w).d_cop_l = ⟨540, 600⟩ ∧ (toggleFourTimes w).d_cop_r = ⟨1620, 600⟩ := by
  obtain ⟨m1, -, -, pl1, pr1, -, -⟩ := toggle_fields_none w hm hp
  have hp1 : backupsAtOrigin (toggleLinearTransform w) := by
    unfold backupsAtOrigin
    rw [pl1, pr1]
    exact hc
  have hdim1 := toggle_intrinsics w
  have q1 : Int.tdiv (2160 : Int) 4 = 540 := by decide
  have q2 : Int.tdiv (1200 : Int) 2 = 600 := by decide
  have e1 : (toggleLinearTransform w).d_width = 2160 := hdim1.2.1.trans hw
  have e2 : (toggleLinearTransform w).d_height = 1200 := hdim1.2.2.trans hh
  obtain ⟨a, b, -, -⟩ := toggle_of_origin (toggleLinearTransform w) hp1
  rw [e1, e2, q1, q2] at a b
  have pl2 : (toggleLinearTransform (toggleLinearTransform w)).d_cop_l_Prev = ⟨540, 600⟩ := by
    rw [a]
    norm_num
  have pr2 : (toggleLinearTransform (toggleLinearTransform w)).d_cop_r_Prev = ⟨1620, 600⟩ := by
    rw [b]
    norm_num
  have m2 : modeFlags (toggleLinearTransform (toggleLinearTransform w)).status
      = ONLY_CENTER_CORRECT := by
    rw [toggleLinearTransform_status]
    exact mode_after_linear m1
  have hp2 : ¬ backupsAtOrigin (toggleLinearTransform (toggleLinearTransform w)) := by
    rintro ⟨h, -⟩
    rw [pl2] at h
    exact not_operator_eq_origin_of_one_le (Or.inl (by norm_num)) h
  obtain ⟨m3, -, -, pl3, pr3, -, -⟩ := toggle_fields_center _ m2 hp2
  have hp3 := backups_of_eq pl3 pr3 hp2
  obtain ⟨-, -, -, -, -, cl4, cr4⟩ := toggle_fields_aspect _ m3 hp3
  unfold toggleFourTimes
  rw [cl4, cr4, pl3, pr3, pl2, pr2]
  exact ⟨rfl, rfl⟩

/-- Counterexample to C25, on two states of the Vive window in mode None with backups
(540, 600), (1620, 600), which are not both at the origin. With both COPs at the origin
the first toggle stores the origin in both backups, the second finds both backups at
the origin and installs the default centres, and after four toggles the left COP is
(540, 600), not the origin. With the left COP at `(2^-50, 0)`, which is not the origin
but compares equal to it for Qt's `operator==`, the same happens: the left COP ends at
(540, 600). -/
theorem toggle_four_from_none_counterexample :
    modeFlags originCopWidget.status = 0
      ∧ ¬ backupsAtOrigin originCopWidget
      ∧ originCopWidget.d_cop_l = ⟨0, 0⟩
      ∧ (toggleFourTimes originCopWidget).d_cop_l = ⟨540, 600⟩
      ∧ (toggleFourTimes originCopWidget).d_cop_l ≠ originCopWidget.d_cop_l
      ∧ modeFlags nearOriginCopWidget.status = 0
      ∧ ¬ backupsAtOrigin nearOriginCopWidget
      ∧ nearOriginCopWidget.d_cop_l_Prev = ⟨540, 600⟩
      ∧ nearOriginCopWidget.d_cop_r_Prev = ⟨1620, 600⟩
      ∧ nearOriginCopWidget.d_cop_l = ⟨1 / 1125899906842624, 0⟩
      ∧ nearOriginCopWidget.d_cop_l ≠ ⟨0, 0⟩
      ∧ (toggleFourTimes nearOriginCopWidget).d_cop_l = ⟨540, 600⟩
      ∧ (toggleFourTimes nearOriginCopWidget).d_cop_l ≠ nearOriginCopWidget.d_cop_l := by
  have hp : ¬ backupsAtOrigin originCopWidget := viveWidget_backups
  have hp' : ¬ backupsAtOrigin nearOriginCopWidget := viveWidget_backups
  have hc : copsAtOrigin originCopWidget :=
    ⟨operator_eq_origin_of_eq rfl, operator_eq_origin_of_eq rfl⟩
  have hc' : copsAtOrigin nearOriginCopWidget :=
    ⟨near_origin_point, operator_eq_origin_of_eq rfl⟩
  have hfin := (toggleFourTimes_of_copsAtOrigin originCopWidget (by decide) hp hc rfl rfl).1
  have hfin' :=
    (toggleFourTimes_of_copsAtOrigin nearOriginCopWidget (by decide) hp' hc' rfl rfl).1
  refine ⟨by decide, hp, rfl, hfin, ?_, by decide, hp', rfl, rfl, rfl, near_origin_point_ne,
    hfin', ?_⟩
  · rw [hfin]
    intro h
    have hx := congrArg QPointF.x h
    norm_num [originCopWidget] at hx
  · rw [hfin']
    intro h
    have hx := congrArg QPointF.x h
    norm_num [nearOriginCopWidget] at hx

/-- C25 (amended): for every state in mode None whose backups do not both compare equal
to the origin and whose COPs do not both compare equal to the origin (Qt's `operator==`
of line 627: equal to the origin means both coordinates within `1e-12` of zero), and for
any `Intrinsics`, four consecutive `toggleLinearTransform` calls end in mode None with
`d_cop_l` and `d_cop_r` equal to their values before the cycle and with both backups
equal to those same values. -/
theorem toggle_four_from_none (w : OpenGL_Widget) (hm : modeFlags w.status = 0)
    (hp : ¬ backupsAtOrigin w) (hc : ¬ copsAtOrigin w) :
    modeFlags (toggleFourTimes w).status = 0
      ∧ (toggleFourTimes w).d_cop_l = w.d_cop_l
      ∧ (toggleFourTimes w).d_cop_r = w.d_cop_r
      ∧ (toggleFourTimes w).d_cop_l_Prev = w.d_cop_l
      ∧ (toggleFourTimes w).d_cop_r_Prev = w.d_cop_r := by
  obtain ⟨h1, h2, h3, h4⟩ := toggleFourTimes_cop_of_none w hm hp hc
  refine ⟨?_, h1, h2, h3, h4⟩
  rw [toggleFourTimes_mode w (Or.inl hm), hm]

/-- Witness of C25 (amended): the nudged manual centres (539, 599) and (1621, 599) of
the Vive window in mode None, with centre-offset terms 1/10, survive four toggles and
end up in the backups. -/
theorem toggle_four_from_none_witness :
    (toggleFourTimes { offsetIntrinsicsWidget with
        d_cop_l := ⟨539, 599⟩, d_cop_r := ⟨1621, 599⟩ }).d_cop_l = ⟨539, 599⟩
      ∧ (toggleFourTimes { offsetIntrinsicsWidget with
        d_cop_l := ⟨539, 599⟩, d_cop_r := ⟨1621, 599⟩ }).d_cop_l_Prev = ⟨539, 599⟩ := by
  have hc : ¬ copsAtOrigin { offsetIntrinsicsWidget with
      d_cop_l := ⟨539, 599⟩, d_cop_r := ⟨1621, 599⟩ } := by
    rintro ⟨h, -⟩
    exact not_operator_eq_origin_of_one_le (Or.inl (by norm_num)) h
  obtain ⟨-, h2, -, h4, -⟩ := toggle_four_from_none
    { offsetIntrinsicsWidget with d_cop_l := ⟨539, 599⟩, d_cop_r := ⟨1621, 599⟩ }
    (by decide) viveWidget_backups hc
  exact ⟨h2, h4⟩

/-! ## Colour index and colour plane (C22) -/

theorem transformPoint_congr_bank (w : OpenGL_Widget) (B : Fin 2 → Fin 3 → Fin 3 → ℚ)
    (p cop : QPointF) {color : Nat} (hc : color < 3) (eye : StatusValues)
    (h : ∀ t, B (eyeIndex eye) (colorPlane color) t
          = w.NLT_Coeffecients (eyeIndex eye) (colorPlane color) t) :
    transformPoint { w with NLT_Coeffecients := B } p cop color eye
      = transformPoint w p cop color eye := by
  have hl : lookupCoeffs { w with NLT_Coeffecients := B } color eye
      = lookupCoeffs w color eye := by
    rw [lookupCoeffs_of_lt _ hc, lookupCoeffs_of_lt _ hc]
    simp only [h 0, h 1, h 2]
  have hs : linearStep { w with NLT_Coeffecients := B } p cop eye = linearStep w p cop eye :=
    rfl
  unfold transformPoint transformPointPreClip radialStep
  rw [hl, hs]
  rfl

/-- C22: `transformPoint` uses colour index 0 for red, 1 for green and 2 for blue: for
the eye index `e` (0 for LEFT_EYE, 1 otherwise) the result for colour 0 depends on the
bank only through `NLT_Coeffecients[e][2][*]`, for colour 1 only through
`NLT_Coeffecients[e][0][*]`, for colour 2 only through `NLT_Coeffecients[e][1][*]`
(replacing the bank by any bank with the same three cells leaves the result unchanged),
and these planes are the ones `adjustCoeffecients` modifies under the RED, GREEN and
BLUE flags: a cell of plane `c` changes only when the flag of plane `c` is set. -/
theorem transformPoint_colour_planes (w : OpenGL_Widget) (p cop : QPointF) (color : Nat)
    (eye : StatusValues) (hc : color < 3) :
    (∀ B : Fin 2 → Fin 3 → Fin 3 → ℚ,
        (∀ t, B (eyeIndex eye) (colorPlane color) t
            = w.NLT_Coeffecients (eyeIndex eye) (colorPlane color) t) →
        transformPoint { w with NLT_Coeffecients := B } p cop color eye
          = transformPoint w p cop color eye)
      ∧ (colorPlane 0 = 2 ∧ colorPlane 1 = 0 ∧ colorPlane 2 = 1)
      ∧ (colorFlag 2 = RED ∧ colorFlag 0 = GREEN ∧ colorFlag 1 = BLUE)
      ∧ (eyeIndex LEFT_EYE = 0 ∧ (eye ≠ LEFT_EYE → eyeIndex eye = 1))
      ∧ (∀ (d : Int) (e : Fin 2) (c t : Fin 3), (w.status &&& colorFlag c) = 0 →
          (adjustCoeffecients w d).NLT_Coeffecients e c t = w.NLT_Coeffecients e c t)
      ∧ (∀ (d : Int) (e : Fin 2) (c t : Fin 3), cellSelected w.status e c t →
          (adjustCoeffecients w d).NLT_Coeffecients e c t
            = w.NLT_Coeffecients e c t * ((|d| : Int) : ℚ) + w.coeffecientOffset * (d : ℚ)) := by
  refine ⟨fun B h => transformPoint_congr_bank w B p cop hc eye h, ⟨rfl, rfl, rfl⟩,
    ⟨rfl, rfl, rfl⟩, ⟨rfl, fun he => ?_⟩, fun d e c t h0 => ?_, fun d e c t hs => ?_⟩
  · unfold eyeIndex
    rw [if_neg he]
  · rw [adjustCoeffecients_cell, if_neg]
    intro hs
    exact hs.2.1 h0
  · rw [adjustCoeffecients_cell, if_pos hs]

/-- Witness of C22: for colour 1 (green) and the left eye, replacing every cell outside
plane 0 by 7 leaves the result of `transformPoint` unchanged. -/
theorem transformPoint_colour_planes_witness :
    transformPoint
        { unitCoeffWidget with NLT_Coeffecients := fun _ c _ => if c = 0 then 1 else 7 }
        ⟨3, 1⟩ ⟨1, 1⟩ 1 LEFT_EYE
      = transformPoint unitCoeffWidget ⟨3, 1⟩ ⟨1, 1⟩ 1 LEFT_EYE :=
  (transformPoint_colour_planes unitCoeffWidget ⟨3, 1⟩ ⟨1, 1⟩ 1 LEFT_EYE (by decide)).1
    (fun _ c _ => if c = 0 then 1 else 7) (fun _ => rfl)

/-! ## Shifting the centre in LinearFull and the cached manual COP (C23) -/

/-- In LinearFull (backups not both comparing equal to the origin) the call of `setDeftCOPVals` at the
end of `shiftCenter` runs the backup of lines 643-646 again: the backups become the
COPs that were live before the shift. -/
theorem shiftCenter_linear_backup (w : OpenGL_Widget) (v h : Int)
    (hm : modeFlags w.status = APPLY_LINEAR_TRANSFORM) (hp : ¬ backupsAtOrigin w) :
    (shiftCenter w v h).d_cop_l_Prev = w.d_cop_l
      ∧ (shiftCenter w v h).d_cop_r_Prev = w.d_cop_r
      ∧ (shiftCenter w v h).status = w.status := by
  have hp' : ¬ backupsAtOrigin { w with Intrinsics := shiftIntrinsics w v h } := hp
  rw [shiftCenter_of_intrinsics_mode w v h (Or.inl hm),
    setDeftCOPVals_of_linear { w with Intrinsics := shiftIntrinsics w v h } hp' hm]
  exact ⟨rfl, rfl, rfl⟩

/-- In CenterOnly the same call leaves the backups alone. -/
theorem shiftCenter_center_backup (w : OpenGL_Widget) (v h : Int)
    (hm : modeFlags w.status = ONLY_CENTER_CORRECT) (hp : ¬ backupsAtOrigin w) :
    (shiftCenter w v h).d_cop_l_Prev = w.d_cop_l_Prev
      ∧ (shiftCenter w v h).d_cop_r_Prev = w.d_cop_r_Prev := by
  have hp' : ¬ backupsAtOrigin { w with Intrinsics := shiftIntrinsics w v h } := hp
  rw [shiftCenter_of_intrinsics_mode w v h (Or.inr hm),
    setDeftCOPVals_of_center { w with Intrinsics := shiftIntrinsics w v h } hp' hm]
  exact ⟨rfl, rfl⟩

theorem offsetIntrinsicsWidget_derived :
    derivedCopL offsetIntrinsicsWidget = ⟨594, 660⟩
      ∧ derivedCopR offsetIntrinsicsWidget = ⟨1782, 660⟩ := centerOnlyWidget_derived

/-- C23 (the code at a failing input): the Vive window with manual centres (540, 600)
and (1620, 600) and centre-offset terms 1/10 enters LinearFull by one toggle (live
centres (594, 660) and (1782, 660), manual centres in the backups); `shiftCenter(0, 1)`
then overwrites the backups with (594, 660) and (1782, 660), and cycling the mode back
to None by three toggles installs (594, 660) and (1782, 660), not the manual centres. -/
theorem shiftCenter_linear_failing_input :
    modeFlags (toggleLinearTransform offsetIntrinsicsWidget).status = APPLY_LINEAR_TRANSFORM
      ∧ (toggleLinearTransform offsetIntrinsicsWidget).d_cop_l_Prev = ⟨540, 600⟩
      ∧ (toggleLinearTransform offsetIntrinsicsWidget).d_cop_r_Prev = ⟨1620, 600⟩
      ∧ (shiftCenter (toggleLinearTransform offsetIntrinsicsWidget) 0 1).d_cop_l_Prev
          = ⟨594, 660⟩
      ∧ (shiftCenter (toggleLinearTransform offsetIntrinsicsWidget) 0 1).d_cop_r_Prev
          = ⟨1782, 660⟩
      ∧ modeFlags (toggleThreeTimes
          (shiftCenter (toggleLinearTransform offsetIntrinsicsWidget) 0 1)).status = 0
      ∧ (toggleThreeTimes
          (shiftCenter (toggleLinearTransform offsetIntrinsicsWidget) 0 1)).d_cop_l
          = ⟨594, 660⟩
      ∧ (toggleThreeTimes
          (shiftCenter (toggleLinearTransform offsetIntrinsicsWidget) 0 1)).d_cop_l
          ≠ offsetIntrinsicsWidget.d_cop_l := by
  obtain ⟨m1, -, -, pl1, pr1, cl1, cr1⟩ :=
    toggle_fields_none offsetIntrinsicsWidget (by decide) viveWidget_backups
  rw [offsetIntrinsicsWidget_derived.1] at cl1
  rw [offsetIntrinsicsWidget_derived.2] at cr1
  have hne : (⟨594, 660⟩ : QPointF) ≠ ⟨0, 0⟩ := by
    intro h
    have hx := congrArg QPointF.x h
    norm_num at hx
  have hne2 : (⟨594, 660⟩ : QPointF) ≠ ⟨540, 600⟩ := by
    intro h
    have hx := congrArg QPointF.x h
    norm_num at hx
  have hp1 : ¬ backupsAtOrigin (toggleLinearTransform offsetIntrinsicsWidget) :=
    backups_of_eq pl1 pr1 viveWidget_backups
  obtain ⟨sl, sr, ss⟩ :=
    shiftCenter_linear_backup (toggleLinearTransform offsetIntrinsicsWidget) 0 1 m1 hp1
  rw [cl1] at sl
  rw [cr1] at sr
  have hps : ¬ backupsAtOrigin
      (shiftCenter (toggleLinearTransform offsetIntrinsicsWidget) 0 1) := by
    rintro ⟨h, -⟩
    rw [sl] at h
    exact not_operator_eq_origin_of_one_le (Or.inl (by norm_num)) h
  have ms : modeFlags (shiftCenter (toggleLinearTransform offsetIntrinsicsWidget) 0 1).status
      = APPLY_LINEAR_TRANSFORM := by
    rw [ss]
    exact m1
  obtain ⟨m2, -, -, pl2, pr2, -, -⟩ := toggle_fields_linear _ ms hps
  have hp2 := backups_of_eq pl2 pr2 hps
  obtain ⟨m3, -, -, pl3, pr3, -, -⟩ := toggle_fields_center _ m2 hp2
  have hp3 := backups_of_eq pl3 pr3 hp2
  obtain ⟨m4, -, -, -, -, cl4, -⟩ := toggle_fields_aspect _ m3 hp3
  have hfin : (toggleThreeTimes
      (shiftCenter (toggleLinearTransform offsetIntrinsicsWidget) 0 1)).d_cop_l
      = ⟨594, 660⟩ := by
    unfold toggleThreeTimes
    rw [cl4, pl3, pl2, sl]
  refine ⟨m1, pl1, pr1, sl, sr, m4, hfin, ?_⟩
  rw [hfin]
  exact hne2

/-! ## The vertex filter of the draw routines (C27) -/

theorem half_width_bounds (w : Int) (h : 0 ≤ w) :
    (0 : ℚ) ≤ ((Int.tdiv w 2 : Int) : ℚ) ∧ ((Int.tdiv w 2 : Int) : ℚ) ≤ (w : ℚ) := by
  have h1 : 0 ≤ Int.tdiv w 2 := Int.tdiv_nonneg h (by decide)
  have h2 : Int.tdiv w 2 ≤ w := by
    rw [Int.tdiv_eq_ediv h (by decide)]
    omega
  exact ⟨by exact_mod_cast h1, by exact_mod_cast h2⟩

theorem vertexFilter_left (w : OpenGL_Widget) (ret : QPointF) (hw : 0 ≤ w.d_width) :
    vertexFilter w (cullEye w ret LEFT_EYE)
      ↔ (0 ≤ ret.x ∧ ret.x ≤ ((Int.tdiv w.d_width 2 : Int) : ℚ))
        ∧ (0 ≤ ret.y ∧ ret.y ≤ (w.d_height : ℚ)) := by
  obtain ⟨b1, b2⟩ := half_width_bounds w.d_width hw
  rw [cullEye_left]
  unfold vertexFilter
  push_cast
  by_cases hx : 0 ≤ ret.x ∧ ret.x ≤ ((Int.tdiv w.d_width 2 : Int) : ℚ) <;>
    by_cases hy : 0 ≤ ret.y ∧ ret.y ≤ (w.d_height : ℚ) <;>
    simp only [hx, hy, if_true, if_false, and_self, and_true, true_and, and_false, false_and,
      iff_true, iff_false, gt_iff_lt, lt_self_iff_false, not_false_eq_true]
  obtain ⟨x0, x1⟩ := hx
  obtain ⟨y0, y1⟩ := hy
  refine ⟨by linarith, by linarith, by linarith, by linarith⟩

theorem vertexFilter_right (w : OpenGL_Widget) (ret : QPointF) (hw : 0 ≤ w.d_width) :
    vertexFilter w (cullEye w ret RIGHT_EYE)
      ↔ (((Int.tdiv w.d_width 2 : Int) : ℚ) ≤ ret.x ∧ ret.x ≤ (w.d_width : ℚ))
        ∧ (0 ≤ ret.y ∧ ret.y ≤ (w.d_height : ℚ)) := by
  obtain ⟨b1, b2⟩ := half_width_bounds w.d_width hw
  rw [cullEye_right]
  unfold vertexFilter
  push_cast
  by_cases hx : ((Int.tdiv w.d_width 2 : Int) : ℚ) ≤ ret.x ∧ ret.x ≤ (w.d_width : ℚ) <;>
    by_cases hy : 0 ≤ ret.y ∧ ret.y ≤ (w.d_height : ℚ) <;>
    simp only [hx, hy, if_true, if_false, and_self, and_true, true_and, and_false, false_and,
      iff_true, iff_false, gt_iff_lt, lt_self_iff_false, not_false_eq_true]
  obtain ⟨x0, x1⟩ := hx
  obtain ⟨y0, y1⟩ := hy
  refine ⟨by linarith, by linarith, by linarith, by linarith⟩

theorem clips_left (w : OpenGL_Widget) (ret : QPointF) :
    (¬ clipsX w ret LEFT_EYE ∧ ¬ clipsY w ret LEFT_EYE)
      ↔ (0 ≤ ret.x ∧ ret.x ≤ ((Int.tdiv w.d_width 2 : Int) : ℚ))
        ∧ (0 ≤ ret.y ∧ ret.y ≤ (w.d_height : ℚ)) := by
  have h1 : (LEFT_EYE = LEFT_EYE) = True := by simp
  have h2 : (LEFT_EYE = RIGHT_EYE) = False := by simp
  unfold clipsX clipsY
  simp only [h1, h2, true_and, false_and, or_false, true_or, outside_iff, not_not]

theorem clips_right (w : OpenGL_Widget) (ret : QPointF) :
    (¬ clipsX w ret RIGHT_EYE ∧ ¬ clipsY w ret RIGHT_EYE)
      ↔ (((Int.tdiv w.d_width 2 : Int) : ℚ) ≤ ret.x ∧ ret.x ≤ (w.d_width : ℚ))
        ∧ (0 ≤ ret.y ∧ ret.y ≤ (w.d_height : ℚ)) := by
  have h1 : (RIGHT_EYE = RIGHT_EYE) = True := by simp
  have h2 : (RIGHT_EYE = LEFT_EYE) = False := by simp
  unfold clipsX clipsY
  simp only [h1, h2, true_and, false_and, false_or, or_true, outside_iff, outside_iff_swapped,
    not_not]

/-- C27: for every `transformPoint` result `tp` computed for LEFT_EYE or RIGHT_EYE in a
window of non-negative width, the vertex filter of `drawCorrectedLine` and
`drawCorrectedCircle` (`tp.x > -1`, `tp.x < width+1`, `tp.y > -1`, `tp.y < height+1`)
accepts `tp` exactly when neither coordinate was replaced by a clipping sentinel: every
clipped vertex is skipped and every unclipped vertex is drawn. -/
theorem vertex_filter_accepts_unclipped (w : OpenGL_Widget) (eye : StatusValues)
    (hw : 0 ≤ w.d_width) (he : eye = LEFT_EYE ∨ eye = RIGHT_EYE) :
    (∀ ret : QPointF,
        vertexFilter w (cullEye w ret eye) ↔ (¬ clipsX w ret eye ∧ ¬ clipsY w ret eye))
      ∧ (∀ (p cop : QPointF) (color : Nat) (tp : QPointF),
          transformPoint w p cop color eye = some tp →
          ∃ ret, transformPointPreClip w p cop color eye = some ret
            ∧ tp = cullEye w ret eye
            ∧ (vertexFilter w tp ↔ (¬ clipsX w ret eye ∧ ¬ clipsY w ret eye))) := by
  have key : ∀ ret : QPointF,
      vertexFilter w (cullEye w ret eye) ↔ (¬ clipsX w ret eye ∧ ¬ clipsY w ret eye) := by
    intro ret
    rcases he with he | he
    · subst he
      rw [vertexFilter_left w ret hw, clips_left]
    · subst he
      rw [vertexFilter_right w ret hw, clips_right]
  refine ⟨key, fun p cop color tp ht => ?_⟩
  rw [transformPoint_eq_cull] at ht
  cases hpre : transformPointPreClip w p cop color eye with
  | none =>
    rw [hpre] at ht
    exact absurd ht (by simp)
  | some ret =>
    rw [hpre] at ht
    have e : tp = cullEye w ret eye := (Option.some.inj ht).symm
    refine ⟨ret, rfl, e, ?_⟩
    rw [e]
    exact key ret

/-- Witness of C27: in the Vive window the left-eye point (100, 600) passes the filter
and the left-eye point (1200, 600), whose x is culled, does not. -/
theorem vertex_filter_accepts_unclipped_witness :
    vertexFilter viveWidget (cullEye viveWidget ⟨100, 600⟩ LEFT_EYE)
      ∧ ¬ vertexFilter viveWidget (cullEye viveWidget ⟨1200, 600⟩ LEFT_EYE) := by
  have h := (vertex_filter_accepts_unclipped viveWidget LEFT_EYE (by decide) (Or.inl rfl)).1
  have q : Int.tdiv viveWidget.d_width 2 = 1080 := by decide
  have qh : viveWidget.d_height = 1200 := rfl
  constructor
  · rw [h, clips_left, q, qh]
    norm_num
  · rw [h, clips_left, q, qh]
    norm_num

/-! ## Save and load (C21, C29) -/

theorem saveEye_unchecked (w : OpenGL_Widget) (e : Fin 2) (t : EyeTransform) :
    saveEye false w e t
      = some
          { distortion :=
              { center_x := w.Intrinsics e 0 2, center_y := w.Intrinsics e 1 2,
                coeffs := fun k => w.NLT_Coeffecients e 0 k }
            distortion_blue :=
              { center_x := w.Intrinsics e 0 2, center_y := w.Intrinsics e 1 2,
                coeffs := fun k => w.NLT_Coeffecients e 1 k }
            distortion_red :=
              { center_x := w.Intrinsics e 0 2, center_y := w.Intrinsics e 1 2,
                coeffs := fun k => w.NLT_Coeffecients e 2 k }
            intrinsics := fun i j => w.Intrinsics e i j } := by
  have hf : ¬ ((false = true) ∧ ¬ (e.val < centersRows ∧ 1 < centersCols)) := by
    rintro ⟨h, -⟩
    exact Bool.noConfusion h
  have hf2 : ¬ ((false = true) ∧ ¬ (e.val < centersRows ∧ 2 < centersCols)) := by
    rintro ⟨h, -⟩
    exact Bool.noConfusion h
  unfold saveEye centersGet
  rw [if_neg hf, if_neg hf2]

theorem saveConfigToJson_unchecked (w : OpenGL_Widget) (json : HmdConfig) :
    ∃ doc, saveConfigToJson false w json = some doc
      ∧ ∀ e : Fin 2,
          saveEye false w e (json.tracking_to_eye_transform e)
            = some (doc.tracking_to_eye_transform e) := by
  unfold saveConfigToJson
  rw [saveEye_unchecked w 0, saveEye_unchecked w 1]
  refine ⟨_, rfl, fun e => ?_⟩
  rw [saveEye_unchecked]
  fin_cases e <;> rfl

theorem loadEye_unchecked (u : OpenGL_Widget) (e : Fin 2) (t : EyeTransform) :
    ∃ v, loadEye false u e t = some v
      ∧ v.Centers e.val 1 = t.distortion.center_x
      ∧ (∀ e' j, e' ≠ e.val → v.Centers e' j = u.Centers e' j)
      ∧ (∀ i j, v.Intrinsics e i j = t.intrinsics i j)
      ∧ (∀ e' i j, e' ≠ e → v.Intrinsics e' i j = u.Intrinsics e' i j)
      ∧ (∀ k, v.NLT_Coeffecients e 0 k = t.distortion.coeffs k)
      ∧ (∀ k, v.NLT_Coeffecients e 1 k = t.distortion_blue.coeffs k)
      ∧ (∀ k, v.NLT_Coeffecients e 2 k = t.distortion_red.coeffs k)
      ∧ (∀ e' c k, e' ≠ e → v.NLT_Coeffecients e' c k = u.NLT_Coeffecients e' c k)
      ∧ v.d_width = u.d_width ∧ v.d_height = u.d_height ∧ v.status = u.status := by
  have hf : ∀ j : Nat, ¬ ((false = true) ∧ ¬ (e.val < centersRows ∧ j < centersCols)) := by
    rintro j ⟨h, -⟩
    exact Bool.noConfusion h
  have e1 : ((1 : Fin 3) = 0) = False := by decide
  have e2 : ((2 : Fin 3) = 0) = False := by decide
  have e3 : ((2 : Fin 3) = 1) = False := by decide
  have e4 : ((1 : Nat) = 2) = False := by decide
  unfold loadEye centersSet
  simp only [if_neg (hf 1), if_neg (hf 2)]
  refine ⟨_, rfl, ?_, ?_, ?_, ?_, ?_, ?_, ?_, ?_, rfl, rfl, rfl⟩
  · simp only [e4, and_false, and_self, if_false, if_true]
  · intro e' j hne
    simp only [hne, false_and, if_false]
  · intro i j
    simp only [if_true]
  · intro e' i j hne
    simp only [hne, if_false]
  · intro k
    simp only [if_true]
  · intro k
    simp only [e1, if_true, if_false]
  · intro k
    simp only [e2, e3, if_true, if_false]
  · intro e' c k hne
    simp only [hne, if_false]

theorem saved_eye (w : OpenGL_Widget) (json doc : HmdConfig)
    (h : saveConfigToJson false w json = some doc) (e : Fin 2) :
    doc.tracking_to_eye_transform e
      = { distortion :=
            { center_x := w.Intrinsics e 0 2, center_y := w.Intrinsics e 1 2,
              coeffs := fun k => w.NLT_Coeffecients e 0 k }
          distortion_blue :=
            { center_x := w.Intrinsics e 0 2, center_y := w.Intrinsics e 1 2,
              coeffs := fun k => w.NLT_Coeffecients e 1 k }
          distortion_red :=
            { center_x := w.Intrinsics e 0 2, center_y := w.Intrinsics e 1 2,
              coeffs := fun k => w.NLT_Coeffecients e 2 k }
          intrinsics := fun i j => w.Intrinsics e i j } := by
  obtain ⟨doc', hdoc', heye⟩ := saveConfigToJson_unchecked w json
  have hd : doc' = doc := Option.some.inj (hdoc'.symm.trans h)
  subst hd
  exact Option.some.inj ((heye e).symm.trans (saveEye_unchecked w e _))

/-- What a save followed by a load (element expressions taken as they stand) leaves in
the loading state `u`, in terms of the saved state `w`. -/
theorem save_then_load (w u : OpenGL_Widget) (json : HmdConfig) :
    ∃ doc v, saveConfigToJson false w json = some doc
      ∧ loadConfigFromJson false u (some doc) = some v
      ∧ (∀ (e : Fin 2) (c t : Fin 3), v.NLT_Coeffecients e c t = w.NLT_Coeffecients e c t)
      ∧ (∀ (e : Fin 2) (r c : Fin 3), v.Intrinsics e r c = w.Intrinsics e r c)
      ∧ (∀ e : Fin 2, v.Centers e.val 1 = w.Intrinsics e 0 2) := by
  obtain ⟨doc, hdoc, -⟩ := saveConfigToJson_unchecked w json
  have hs := saved_eye w json doc hdoc
  obtain ⟨w1, h1, c1, -, i1, -, g1, b1, r1, -, -, -, -⟩ :=
    loadEye_unchecked u 0 (doc.tracking_to_eye_transform 0)
  obtain ⟨w2, h2, c2, c2', i2, i2', g2, b2, r2, n2', -, -, -⟩ :=
    loadEye_unchecked w1 1 (doc.tracking_to_eye_transform 1)
  have hload : loadConfigFromJson false u (some doc) = some (ApplyIntrincstsToCenter w2) := by
    unfold loadConfigFromJson
    simp only [h1, h2]
  have ne01 : (0 : Fin 2) ≠ 1 := by decide
  have ne01' : ((0 : Fin 2) : Nat) ≠ ((1 : Fin 2) : Nat) := by decide
  refine ⟨doc, _, hdoc, hload, ?_, ?_, ?_⟩
  · intro e c t
    show w2.NLT_Coeffecients e c t = _
    fin_cases e
    · show w2.NLT_Coeffecients 0 c t = w.NLT_Coeffecients 0 c t
      rw [n2' 0 c t ne01]
      fin_cases c
      · show w1.NLT_Coeffecients 0 0 t = _
        rw [g1, hs 0]
        rfl
      · show w1.NLT_Coeffecients 0 1 t = _
        rw [b1, hs 0]
        rfl
      · show w1.NLT_Coeffecients 0 2 t = _
        rw [r1, hs 0]
        rfl
    · show w2.NLT_Coeffecients 1 c t = w.NLT_Coeffecients 1 c t
      fin_cases c
      · show w2.NLT_Coeffecients 1 0 t = _
        rw [g2, hs 1]
        rfl
      · show w2.NLT_Coeffecients 1 1 t = _
        rw [b2, hs 1]
        rfl
      · show w2.NLT_Coeffecients 1 2 t = _
        rw [r2, hs 1]
        rfl
  · intro e r c
    show w2.Intrinsics e r c = _
    fin_cases e
    · show w2.Intrinsics 0 r c = w.Intrinsics 0 r c
      rw [i2' 0 r c ne01, i1, hs 0]
    · show w2.Intrinsics 1 r c = w.Intrinsics 1 r c
      rw [i2, hs 1]
  · intro e
    show w2.Centers e.val 1 = _
    fin_cases e
    · show w2.Centers ((0 : Fin 2) : Nat) 1 = w.Intrinsics 0 0 2
      rw [c2' _ 1 ne01', c1, hs 0]
    · show w2.Centers ((1 : Fin 2) : Nat) 1 = w.Intrinsics 1 0 2
      rw [c2, hs 1]

/-- Counterexample to C21: in the Vive window with `Centers[0][1] = 5` and all
intrinsics zero, the saved record has `center_x = 0` for the left eye and the load
leaves `Centers[0][1] = 0`: the stored centre value is not the one before the save. -/
theorem save_load_counterexample :
    ∃ doc v, saveConfigToJson false storedCenterWidget zeroConfig = some doc
      ∧ loadConfigFromJson false storedCenterWidget (some doc) = some v
      ∧ storedCenterWidget.Centers 0 1 = 5
      ∧ (doc.tracking_to_eye_transform 0).distortion.center_x = 0
      ∧ v.Centers 0 1 = 0
      ∧ v.Centers 0 1 ≠ storedCenterWidget.Centers 0 1 := by
  obtain ⟨doc, v, hdoc, hv, -, -, hc⟩ :=
    save_then_load storedCenterWidget storedCenterWidget zeroConfig
  have h0 : v.Centers 0 1 = 0 := hc 0
  have h5 : storedCenterWidget.Centers 0 1 = 5 := by
    simp [storedCenterWidget]
  refine ⟨doc, v, hdoc, hv, h5, ?_, h0, ?_⟩
  · rw [saved_eye storedCenterWidget zeroConfig doc hdoc 0]
    rfl
  · rw [h0, h5]
    norm_num

/-- C21 (amended): for every session state, `saveConfigToJson` followed by
`loadConfigFromJson` on the record just written (element expressions of `Centers` taken
as they stand) leaves every coefficient `NLT_Coeffecients[e][c][t]` and every
`Intrinsics[e][r][c]` entry equal to its value before the save; the `center_x` and
`center_y` written for every distortion block are `Intrinsics[e][0][2]` and
`Intrinsics[e][1][2]`, and `Centers[e][1]` holds `Intrinsics[e][0][2]` after the load. -/
theorem save_load_roundtrip (w u : OpenGL_Widget) (json : HmdConfig) :
    ∃ doc v, saveConfigToJson false w json = some doc
      ∧ loadConfigFromJson false u (some doc) = some v
      ∧ (∀ (e : Fin 2) (c t : Fin 3), v.NLT_Coeffecients e c t = w.NLT_Coeffecients e c t)
      ∧ (∀ (e : Fin 2) (r c : Fin 3), v.Intrinsics e r c = w.Intrinsics e r c)
      ∧ (∀ e : Fin 2,
          (doc.tracking_to_eye_transform e).distortion.center_x = w.Intrinsics e 0 2
            ∧ (doc.tracking_to_eye_transform e).distortion.center_y = w.Intrinsics e 1 2
            ∧ (doc.tracking_to_eye_transform e).distortion_blue.center_x = w.Intrinsics e 0 2
            ∧ (doc.tracking_to_eye_transform e).distortion_blue.center_y = w.Intrinsics e 1 2
            ∧ (doc.tracking_to_eye_transform e).distortion_red.center_x = w.Intrinsics e 0 2
            ∧ (doc.tracking_to_eye_transform e).distortion_red.center_y = w.Intrinsics e 1 2)
      ∧ (∀ e : Fin 2, v.Centers e.val 1 = w.Intrinsics e 0 2) := by
  obtain ⟨doc, v, hdoc, hv, hn, hi, hc⟩ := save_then_load w u json
  refine ⟨doc, v, hdoc, hv, hn, hi, fun e => ?_, hc⟩
  rw [saved_eye w json doc hdoc e]
  exact ⟨rfl, rfl, rfl, rfl, rfl, rfl⟩

/-- C29 (the code under bounds-checked indexing): `saveConfigToJson` reads and
`loadConfigFromJson` writes the elements `Centers[0][1]`, `Centers[0][2]`,
`Centers[1][1]`, `Centers[1][2]`; the coordinate index 2 is not below the declared
bound 2, the accesses `Centers[0][2]` and `Centers[1][2]` fail, and with them every
save and every load of an existing file. -/
theorem centers_access_out_of_bounds (w : OpenGL_Widget) (json : HmdConfig) :
    ¬ (2 < centersCols)
      ∧ centersGet true w.Centers 0 1 = some (w.Centers 0 1)
      ∧ centersGet true w.Centers 0 2 = none
      ∧ centersGet true w.Centers 1 2 = none
      ∧ (∀ v : ℚ, centersSet true w.Centers 0 2 v = none)
      ∧ (∀ v : ℚ, centersSet true w.Centers 1 2 v = none)
      ∧ saveConfigToJson true w json = none
      ∧ loadConfigFromJson true w (some json) = none := by
  have hb : ∀ e : Nat, (true = true ∧ ¬ (e < centersRows ∧ 2 < centersCols)) := by
    intro e
    refine ⟨rfl, ?_⟩
    rintro ⟨-, h⟩
    exact absurd h (by decide)
  have hin : ¬ (true = true ∧ ¬ ((0 : Nat) < centersRows ∧ 1 < centersCols)) := by
    rintro ⟨-, h⟩
    exact h (by decide)
  have hg : ∀ e : Nat, centersGet true w.Centers e 2 = none := by
    intro e
    unfold centersGet
    rw [if_pos (hb e)]
  have hs : ∀ (C : Nat → Nat → ℚ) (e : Nat) (v : ℚ), centersSet true C e 2 v = none := by
    intro C e v
    unfold centersSet
    rw [if_pos (hb e)]
  refine ⟨by decide, ?_, hg 0, hg 1, fun v => hs _ 0 v, fun v => hs _ 1 v, ?_, ?_⟩
  · unfold centersGet
    rw [if_neg hin]
  · unfold saveConfigToJson saveEye
    rw [hg]
    cases centersGet true w.Centers ((0 : Fin 2) : Nat) 1 <;> rfl
  · unfold loadConfigFromJson loadEye
    simp only [hs]
    cases centersSet true w.Centers ((0 : Fin 2) : Nat) 1
        (json.tracking_to_eye_transform 0).distortion.center_x <;> rfl

/-! ## Key commands and the mode invariant (C24) -/

theorem shiftPixelCenters_status (w : OpenGL_Widget) (v h : Int) :
    (shiftPixelCenters w v h).status = w.status := by
  rw [shiftPixelCenters_eq]

theorem shiftCenter_status (w : OpenGL_Widget) (v h : Int) :
    (shiftCenter w v h).status = w.status := by
  unfold shiftCenter
  split_ifs
  · rw [setDeftCOPVals_status]
  · exact shiftPixelCenters_status w v h

theorem adjustAspectRatio_status (s : OpenGL_Widget) (w h : Int) :
    (adjustAspectRatio s w h).status = s.status := rfl

theorem shiftCoeffecientOffset_status (w : OpenGL_Widget) (d : Int) :
    (shiftCoeffecientOffset w d).status = w.status := rfl

theorem resetCenter_status (w : OpenGL_Widget) : (resetCenter w).status = w.status := by
  unfold resetCenter
  by_cases hl : (w.status &&& LEFT_EYE) = LEFT_EYE <;>
    by_cases hr : (w.status &&& RIGHT_EYE) = RIGHT_EYE <;>
    simp only [hl, hr, if_true, if_false]

theorem resizeGL_status (w : OpenGL_Widget) (width height : Int) :
    (resizeGL w width height).status = w.status := by
  unfold resizeGL
  simp only [setDeftCOPVals_status]
  split_ifs <;> rfl

theorem ApplyCenterToIntrinsics_status {w v : OpenGL_Widget}
    (h : ApplyCenterToIntrinsics w = some v) : v.status = w.status := by
  unfold ApplyCenterToIntrinsics at h
  simp only at h
  split at h
  · rw [← Option.some.inj h]
  · exact absurd h (by simp)

theorem loadEye_status {checked : Bool} {w v : OpenGL_Widget} {e : Fin 2} {t : EyeTransform}
    (h : loadEye checked w e t = some v) : v.status = w.status := by
  unfold loadEye at h
  split at h
  · exact absurd h (by simp)
  · split at h
    · exact absurd h (by simp)
    · rw [← Option.some.inj h]

theorem loadConfigFromJson_status {checked : Bool} {w v : OpenGL_Widget}
    {file : Option HmdConfig} (h : loadConfigFromJson checked w file = some v) :
    v.status = w.status := by
  unfold loadConfigFromJson at h
  split at h
  · rw [← Option.some.inj h]
  · split at h
    · exact absurd h (by simp)
    · rename_i w1 h1
      split at h
      · exact absurd h (by simp)
      · rename_i w2 h2
        rw [← Option.some.inj h]
        show w2.status = w.status
        rw [loadEye_status h2, loadEye_status h1]

theorem validMode_xor_selection {s : StatusValues} (f : StatusValues)
    (hf : f &&& modeMask = 0) (hv : validMode s) : validMode (s ^^^ f) := by
  unfold validMode
  rw [modeFlags_xor, hf, Nat.xor_zero]
  exact hv

theorem constructor_status (d_width d_height : Int) (Centers : Nat → Nat → ℚ)
    (Intrinsics : Fin 2 → Fin 3 → Fin 3 → ℚ) :
    (OpenGL_Widget.constructor d_width d_height Centers Intrinsics).status = 255 := by
  show LEFT_EYE ||| RIGHT_EYE ||| GREEN ||| BLUE ||| RED ||| FIRST_COEFFICIENT
      ||| SECOND_COEFFICIENT ||| THIRD_COEFFICIENT = 255
  decide

/-- A key command keeps the mode valid. -/
theorem keyPressEvent_valid {checked : Bool} {s t : Session} {event : QKeyEvent}
    (h : keyPressEvent checked s event = some t) (hv : validMode s.widget.status) :
    validMode t.widget.status := by
  obtain ⟨k, sh, ct⟩ := event
  unfold keyPressEvent at h
  cases k <;> simp only at h
  · rw [← Option.some.inj h]; exact hv
  · split at h
    · exact absurd h (by simp)
    · rw [← Option.some.inj h]; exact hv
  · split at h
    · exact absurd h (by simp)
    · rename_i v hl
      rw [← Option.some.inj h]
      show validMode v.status
      rw [loadConfigFromJson_status hl]; exact hv
  · rw [← Option.some.inj h]; exact validMode_xor_selection _ (by decide) hv
  · rw [← Option.some.inj h]; exact validMode_xor_selection _ (by decide) hv
  · rw [← Option.some.inj h]; exact validMode_xor_selection _ (by decide) hv
  · rw [← Option.some.inj h]; exact validMode_xor_selection _ (by decide) hv
  · rw [← Option.some.inj h]; exact validMode_xor_selection _ (by decide) hv
  · rw [← Option.some.inj h]; exact validMode_xor_selection _ (by decide) hv
  · rw [← Option.some.inj h]; exact validMode_xor_selection _ (by decide) hv
  · rw [← Option.some.inj h]; exact validMode_xor_selection _ (by decide) hv
  · rw [← Option.some.inj h]
    show validMode (toggleLinearTransform s.widget).status
    rw [toggleLinearTransform_status]; exact toggleStatus_valid hv
  · rw [← Option.some.inj h]
    show validMode (toggleLinearTransform s.widget).status
    rw [toggleLinearTransform_status]; exact toggleStatus_valid hv
  · split_ifs at h <;> rw [← Option.some.inj h]
    · show validMode (shiftCenter _ _ _).status
      rw [shiftCenter_status]; exact hv
    · exact hv
    · exact hv
  · split_ifs at h <;> rw [← Option.some.inj h]
    · show validMode (shiftCenter _ _ _).status
      rw [shiftCenter_status]; exact hv
    · exact hv
    · exact hv
  · split_ifs at h <;> rw [← Option.some.inj h]
    · show validMode (shiftCenter _ _ _).status
      rw [shiftCenter_status]; exact hv
    · exact hv
    · show validMode (adjustCoeffecients _ _).status
      rw [(adjustCoeffecients_status _ _).1]; exact hv
  · split_ifs at h <;> rw [← Option.some.inj h]
    · show validMode (shiftCenter _ _ _).status
      rw [shiftCenter_status]; exact hv
    · exact hv
    · show validMode (adjustCoeffecients _ _).status
      rw [(adjustCoeffecients_status _ _).1]; exact hv
  · split at h
    · exact absurd h (by simp)
    · rename_i v hl
      rw [← Option.some.inj h]
      show validMode v.status
      rw [ApplyCenterToIntrinsics_status hl]; exact hv
  · split_ifs at h <;> rw [← Option.some.inj h] <;> exact hv
  · rw [← Option.some.inj h]
    show validMode (resetCenter _).status
    rw [resetCenter_status]; exact hv
  · rw [← Option.some.inj h]
    show validMode (adjustCoeffecients _ _).status
    rw [(adjustCoeffecients_status _ _).1]; exact hv
  · rw [← Option.some.inj h]; exact hv
  · rw [← Option.some.inj h]; exact hv

/-- C24: in every session reachable from the constructor's state by key commands
(flag toggles, mode toggle, adjustments, resets, save, load), window resizes and loads
of the configuration file, at most one of the mode flags `APPLY_LINEAR_TRANSFORM`,
`ONLY_CENTER_CORRECT`, `ONLY_ASEPECT_RATIO` is set: the mode flags are 0 (None),
256 (LinearFull), 512 (CenterOnly) or 1024 (AspectOnly). -/
theorem reachable_mode_valid (checked : Bool) (s : Session) (h : Reachable checked s) :
    validMode s.widget.status
      ∧ (modeFlags s.widget.status = 0 ∨ modeFlags s.widget.status = 256
          ∨ modeFlags s.widget.status = 512 ∨ modeFlags s.widget.status = 1024) := by
  have hv : validMode s.widget.status := by
    induction h with
    | init d_width d_height Centers Intrinsics json file =>
      show validMode (OpenGL_Widget.constructor d_width d_height Centers Intrinsics).status
      rw [constructor_status]
      decide
    | key event _ hk ih => exact keyPressEvent_valid hk ih
    | resize width height _ ih =>
      show validMode (resizeGL _ width height).status
      rw [resizeGL_status]; exact ih
    | load _ hl ih =>
      rw [← loadConfigFromJson_status hl] at ih
      exact ih
    | fileChange file _ ih => exact ih
  exact ⟨hv, hv⟩

theorem reachable_mode_valid_witness :
    Reachable false { initialSession with widget := toggleLinearTransform initialSession.widget }
      ∧ modeFlags (toggleLinearTransform initialSession.widget).status = 256
      ∧ validMode (toggleLinearTransform initialSession.widget).status := by
  have hr : Reachable false
      { initialSession with widget := toggleLinearTransform initialSession.widget } :=
    Reachable.key returnKey
      (Reachable.init 2160 1200 (fun _ _ => 0) (fun _ _ _ => 0) zeroConfig none) rfl
  refine ⟨hr, ?_, (reachable_mode_valid false _ hr).1⟩
  rw [toggleLinearTransform_status]
  decide

/-! ## Backups that compare equal to the origin without being the origin (C10, C15) -/

theorem nearOriginBackupWidget_backups : backupsAtOrigin nearOriginBackupWidget :=
  ⟨near_origin_point, operator_eq_origin_of_eq rfl⟩

/-- Counterexample to C10: the Vive window in mode None with centre-offset terms 1/10,
manual centres (500, 600) and (1600, 600), left backup `(2^-50, 0)` and right backup
at the origin. The backups are not both at the origin, but both compare equal to it for
Qt's `operator==` (line 627), so the toggle enters LinearFull through the default
branch of `setDeftCOPVals`: the left backup becomes (540, 600), not the centre
(500, 600) held before the toggle, and the left centre becomes (540, 600), not the
intrinsics-derived (594, 660). -/
theorem toggle_enters_linear_full_counterexample :
    modeFlags nearOriginBackupWidget.status = 0
      ∧ nearOriginBackupWidget.d_cop_l_Prev = ⟨1 / 1125899906842624, 0⟩
      ∧ nearOriginBackupWidget.d_cop_l_Prev ≠ ⟨0, 0⟩
      ∧ nearOriginBackupWidget.d_cop_l = ⟨500, 600⟩
      ∧ derivedCopL nearOriginBackupWidget = ⟨594, 660⟩
      ∧ modeFlags (toggleLinearTransform nearOriginBackupWidget).status
          = APPLY_LINEAR_TRANSFORM
      ∧ (toggleLinearTransform nearOriginBackupWidget).d_cop_l_Prev = ⟨540, 600⟩
      ∧ (toggleLinearTransform nearOriginBackupWidget).d_cop_l = ⟨540, 600⟩
      ∧ (toggleLinearTransform nearOriginBackupWidget).d_cop_l_Prev
          ≠ nearOriginBackupWidget.d_cop_l
      ∧ (toggleLinearTransform nearOriginBackupWidget).d_cop_l
          ≠ derivedCopL nearOriginBackupWidget := by
  have hd : derivedCopL nearOriginBackupWidget = ⟨594, 660⟩ := offsetIntrinsicsWidget_derived.1
  have q1 : Int.tdiv nearOriginBackupWidget.d_width 4 = 540 := by decide
  have q2 : Int.tdiv nearOriginBackupWidget.d_height 2 = 600 := by decide
  obtain ⟨a, -, c, -⟩ := toggle_of_origin nearOriginBackupWidget nearOriginBackupWidget_backups
  rw [q1, q2] at a
  have hp : (toggleLinearTransform nearOriginBackupWidget).d_cop_l_Prev = ⟨540, 600⟩ := by
    rw [a]
    norm_num
  have hl : (toggleLinearTransform nearOriginBackupWidget).d_cop_l = ⟨540, 600⟩ := by
    rw [c, hp]
  have hm : modeFlags (toggleLinearTransform nearOriginBackupWidget).status
      = APPLY_LINEAR_TRANSFORM := by
    rw [toggleLinearTransform_status]
    decide
  refine ⟨by decide, rfl, near_origin_point_ne, rfl, hd, hm, hp, hl, ?_, ?_⟩
  · rw [hp]
    intro h
    have hx := congrArg QPointF.x h
    norm_num [nearOriginBackupWidget] at hx
  · rw [hl, hd]
    intro h
    have hx := congrArg QPointF.x h
    norm_num at hx

/-- Counterexample to C15: the same window in mode LinearFull (left backup `(2^-50, 0)`,
right backup at the origin, so the backups are not both at the origin but compare equal
to it for Qt's `operator==`). `shiftCenter(0, 1)` updates the centre-offset terms, and
`setDeftCOPVals` then takes its default branch: the left centre becomes (540, 600),
while the value derived from the updated terms has y coordinate 660. -/
theorem shiftCenter_updates_intrinsics_counterexample :
    modeFlags nearOriginLinearWidget.status = APPLY_LINEAR_TRANSFORM
      ∧ nearOriginLinearWidget.d_cop_l_Prev = ⟨1 / 1125899906842624, 0⟩
      ∧ nearOriginLinearWidget.d_cop_l_Prev ≠ ⟨0, 0⟩
      ∧ (shiftCenter nearOriginLinearWidget 0 1).Intrinsics 0 0 2 = 99 / 1000
      ∧ (shiftCenter nearOriginLinearWidget 0 1).Intrinsics 0 1 2 = 1 / 10
      ∧ (shiftCenter nearOriginLinearWidget 0 1).d_cop_l = ⟨540, 600⟩
      ∧ derivedCopL (shiftCenter nearOriginLinearWidget 0 1) = ⟨540 + 540 * (99 / 1000), 660⟩
      ∧ (shiftCenter nearOriginLinearWidget 0 1).d_cop_l
          ≠ derivedCopL (shiftCenter nearOriginLinearWidget 0 1) := by
  have hb : backupsAtOrigin
      { nearOriginLinearWidget with Intrinsics := shiftIntrinsics nearOriginLinearWidget 0 1 } :=
    nearOriginBackupWidget_backups
  have hs : shiftCenter nearOriginLinearWidget 0 1
      = setDeftCOPVals
          { nearOriginLinearWidget with
            Intrinsics := shiftIntrinsics nearOriginLinearWidget 0 1 } :=
    shiftCenter_of_intrinsics_mode nearOriginLinearWidget 0 1 (Or.inl (by decide))
  rw [setDeftCOPVals_of_origin _ hb] at hs
  have sl : leftSelected nearOriginLinearWidget.status := by decide
  have e1 : ((1 : Fin 3) = 0) = False := by decide
  have i0 : (shiftCenter nearOriginLinearWidget 0 1).Intrinsics 0 0 2 = 99 / 1000 := by
    rw [hs]
    show shiftIntrinsics nearOriginLinearWidget 0 1 0 0 2 = 99 / 1000
    rw [shiftIntrinsics_cell]
    simp only [sl, true_and, and_self, if_true]
    norm_num [nearOriginLinearWidget, nearOriginBackupWidget, offsetIntrinsicsWidget, viveWidget]
  have i1 : (shiftCenter nearOriginLinearWidget 0 1).Intrinsics 0 1 2 = 1 / 10 := by
    rw [hs]
    show shiftIntrinsics nearOriginLinearWidget 0 1 0 1 2 = 1 / 10
    rw [shiftIntrinsics_cell]
    simp only [sl, true_and, and_self, and_true, and_false, false_and, if_true, if_false, e1]
    norm_num [nearOriginLinearWidget, nearOriginBackupWidget, offsetIntrinsicsWidget, viveWidget]
  have q1 : Int.tdiv (2160 : Int) 4 = 540 := by decide
  have q2 : Int.tdiv (1200 : Int) 2 = 600 := by decide
  have hw : (shiftCenter nearOriginLinearWidget 0 1).d_width = 2160 := by
    rw [hs]
    rfl
  have hh : (shiftCenter nearOriginLinearWidget 0 1).d_height = 1200 := by
    rw [hs]
    rfl
  have hl : (shiftCenter nearOriginLinearWidget 0 1).d_cop_l = ⟨540, 600⟩ := by
    rw [hs]
    show (⟨((Int.tdiv (2160 : Int) 4 : Int) : ℚ), ((Int.tdiv (1200 : Int) 2 : Int) : ℚ)⟩ : QPointF)
      = ⟨540, 600⟩
    rw [q1, q2]
    norm_num
  have hd : derivedCopL (shiftCenter nearOriginLinearWidget 0 1)
      = ⟨540 + 540 * (99 / 1000), 660⟩ := by
    unfold derivedCopL
    rw [hw, hh, i0, i1, q1, q2]
    norm_num
  refine ⟨by decide, rfl, near_origin_point_ne, i0, i1, hl, hd, ?_⟩
  rw [hl, hd]
  intro h
  have hy := congrArg QPointF.y h
  norm_num at hy

end Distortionizer
